import Mathlib

/-!
# Groot: articulated 2D rig (`src/Atividade 2/Groot V1.c`, second program)

Shallow embedding of the rig's state, the joint-limit clamp, the seam
rotation helper, the seam binder, the two gesture automatons, the two keyboard
callbacks and the idle callback.  Line numbers refer to `Groot V1.c`.

Numbers.  The C program stores every scalar in a `float`.  The joint angles
and the pan only ever hold multiples of `0.5` of small magnitude (steps of
`3`, `5` and `0.5`, limits that are integers or halves), which binary floating
point represents, adds and compares exactly; they are embedded as rationals.
The scale (`escalaGroot`, steps of `0.1`) is embedded as the rational its
decimal literals denote.  The geometry (`calcularPosicaoAtual`, `ligarPartes`)
is embedded over an arbitrary field `K` together with the three items of
`math.h` it uses (`cos`, `sin`, `M_PI`); the trigonometric statements
instantiate `K` with the reals.
-/

namespace Groot

/-! ## Types -/

/-- Struct `Ponto2D` (`typedef struct Ponto2D { float x; float y; } tpPonto2D`). -/
structure tpPonto2D (K : Type) where
  x : K
  y : K
deriving DecidableEq, Repr

/-- Struct `Limite` (`typedef struct Limite { float min; float max; } tpLimite`). -/
structure tpLimite where
  min : ℚ
  max : ℚ
deriving DecidableEq, Repr

/-- The part of `math.h` used by the rotation helper: `cos`, `sin`, `M_PI`. -/
structure Trig (K : Type) where
  cos : K → K
  sin : K → K
  pi : K

/-! ## Constants -/

/-- Macro `MOVESPEED` (`3.0f`). -/
def MOVESPEED : ℚ := 3

/-- Macro `MOVESPEED_ESPECIAL` (`5.0f`). -/
def MOVESPEED_ESPECIAL : ℚ := 5

/-! ## Binary32 arithmetic

The callbacks compute in `float`.  Of the literals the keyboard and gesture
code computes with, only `0.1f`, `0.7f` and `2.3f` (the scale step and the scale
limits) are not binary32 values; the steps 0.5, 3 and 5 and the other limits
are, and the multiples of 0.5 the joint angles and the pan go through are added
exactly in binary32.  The scale and the projection of `remodelar` are computed
with the rounding below. -/

/-- Floor of the base-2 logarithm of a natural number, by repeated halving (at
most `n` halvings). -/
def log2Aux : Nat → Nat → Nat
  | 0, _ => 0
  | k + 1, n => if 2 ≤ n then log2Aux k (n / 2) + 1 else 0

/-- Floor of the base-2 logarithm of a positive rational: the `e` with
`2 ^ e ≤ q < 2 ^ (e + 1)`. -/
def expoente (q : ℚ) : Int :=
  if (2 : ℚ) ^ ((log2Aux q.num.natAbs q.num.natAbs : Int) - (log2Aux q.den q.den : Int)) ≤ q then
    (log2Aux q.num.natAbs q.num.natAbs : Int) - (log2Aux q.den q.den : Int)
  else (log2Aux q.num.natAbs q.num.natAbs : Int) - (log2Aux q.den q.den : Int) - 1

/-- The integer nearest to `m`, the even one of the two when `m` lies half-way. -/
def arredondarInteiro (m : ℚ) : Int :=
  if m - ⌊m⌋ < 1 / 2 then ⌊m⌋
  else if m - ⌊m⌋ > 1 / 2 then ⌊m⌋ + 1
  else if ⌊m⌋ % 2 = 0 then ⌊m⌋
  else ⌊m⌋ + 1

/-- Rounding to `float` (IEEE 754 binary32, round to nearest, ties to even):
the nearest multiple of `2 ^ (e - 23)`, where `2 ^ e ≤ |q| < 2 ^ (e + 1)`.
The exponent is not bounded; the values this program computes stay far inside
the normal range of binary32. -/
def arredondar32 (q : ℚ) : ℚ :=
  if q = 0 then 0
  else if 0 < q then
    arredondarInteiro (q / 2 ^ (expoente q - 23)) * 2 ^ (expoente q - 23)
  else
    -(arredondarInteiro (-q / 2 ^ (expoente (-q) - 23)) * 2 ^ (expoente (-q) - 23))

/-! Movement limits (lines 858-882).  The literals `0.7f` and `2.3f` of
`limEscalaGroot` are the binary32 values nearest to 0.7 and 2.3. -/

def limOmbroEsq : tpLimite := ⟨-182, 114⟩
def limOmbroDir : tpLimite := ⟨-114, 182⟩
def limAntebracoEsq : tpLimite := ⟨-8, 172⟩
def limAntebracoDir : tpLimite := ⟨-172, 8⟩
def limMaoEsq : tpLimite := ⟨-90, 106⟩
def limMaoDir : tpLimite := ⟨-106, 90⟩
def limCoxaEsq : tpLimite := ⟨-88, 38⟩
def limCoxaDir : tpLimite := ⟨-38, 88⟩
def limPantEsq : tpLimite := ⟨-12, 126⟩
def limPantDir : tpLimite := ⟨-126, 12⟩
def limPataEsq : tpLimite := ⟨-10, 16⟩
def limPataDir : tpLimite := ⟨-16, 10⟩
def limQuadril : tpLimite := ⟨-16, 16⟩
def limTronco : tpLimite := ⟨-10, 10⟩
def limCabeca : tpLimite := ⟨-15, 15⟩
def limXGroot : tpLimite := ⟨-23, 23⟩
def limYGroot : tpLimite := ⟨-15 / 2, 1 / 2⟩
def limEscalaGroot : tpLimite := ⟨arredondar32 0.7, arredondar32 2.3⟩

/-- Special-key codes of `GL/glut.h` (the header is not part of the repository;
these are the values GLUT and freeglut define). -/
def GLUT_KEY_F1 : Int := 1
def GLUT_KEY_F2 : Int := 2
def GLUT_KEY_F3 : Int := 3
def GLUT_KEY_F4 : Int := 4
def GLUT_KEY_F12 : Int := 12
def GLUT_KEY_LEFT : Int := 100
def GLUT_KEY_UP : Int := 101
def GLUT_KEY_RIGHT : Int := 102
def GLUT_KEY_DOWN : Int := 103

/-! ## Joint-limit clamp and rotation helper -/

/-- Function `restringirMov` (lines 1765-1770). -/
def restringirMov (angulo : ℚ) (limite : tpLimite) : ℚ :=
  if angulo > limite.max then limite.max
  else if angulo < limite.min then limite.min
  else angulo

/-- Function `calcularPosicaoAtual` (lines 1675-1691).  `anguloGraus _R` expands
to `anguloGraus * (M_PI / 180.0)`. -/
def calcularPosicaoAtual {K : Type} [Field K] (T : Trig K)
    (ponto centroRotacao : tpPonto2D K) (anguloGraus : K) : tpPonto2D K :=
  let anguloRad := anguloGraus * (T.pi / 180)
  let cosA := T.cos anguloRad
  let sinA := T.sin anguloRad
  let xRel := ponto.x - centroRotacao.x
  let yRel := ponto.y - 0.2 - centroRotacao.y
  let xRot := xRel * cosA - yRel * sinA
  let yRot := xRel * sinA + yRel * cosA
  let xFinal := xRot + centroRotacao.x
  let yFinal := yRot + centroRotacao.y
  ⟨xFinal, yFinal⟩

/-! ## Program state: the mutable globals and the function-local statics -/

/-- The mutable scalar globals (lines 819-855) and the four pairs of
function-local `static int direcao, ciclo` of `animarChute` / `animarAceno`. -/
structure Estado where
  anguloQuadril : ℚ
  anguloCoxaDireita : ℚ
  anguloCoxaEsquerda : ℚ
  anguloPantDireita : ℚ
  anguloPantEsquerda : ℚ
  anguloPataDireita : ℚ
  anguloPataEsquerda : ℚ
  anguloOmbroDireito : ℚ
  anguloOmbroEsquerdo : ℚ
  anguloBracoDireito : ℚ
  anguloBracoEsquerdo : ℚ
  anguloAntebracoDireito : ℚ
  anguloAntebracoEsquerdo : ℚ
  anguloMaoDireita : ℚ
  anguloMaoEsquerda : ℚ
  anguloCabeca : ℚ
  anguloTronco : ℚ
  xGroot : ℚ
  yGroot : ℚ
  escalaGroot : ℚ
  esq : Bool
  dir : Bool
  animando : Bool
  acenando : Bool
  etapaAceno : Nat
  chutando : Bool
  etapaChute : Nat
  /-- `static int direcao` / `ciclo` of `animarChute`, right leg (lines 1798-1799). -/
  chuteDirDirecao : Int
  chuteDirCiclo : Int
  /-- `static int direcao` / `ciclo` of `animarChute`, left leg (lines 1863-1864). -/
  chuteEsqDirecao : Int
  chuteEsqCiclo : Int
  /-- `static int direcao` / `ciclo` of `animarAceno`, right arm (lines 1938-1939). -/
  acenoDirDirecao : Int
  acenoDirCiclo : Int
  /-- `static int direcao` / `ciclo` of `animarAceno`, left arm (lines 2005-2006). -/
  acenoEsqDirecao : Int
  acenoEsqCiclo : Int

/-- The initialisers of the globals and statics. -/
def estadoInicial : Estado where
  anguloQuadril := 0
  anguloCoxaDireita := 0
  anguloCoxaEsquerda := 0
  anguloPantDireita := 0
  anguloPantEsquerda := 0
  anguloPataDireita := 0
  anguloPataEsquerda := 0
  anguloOmbroDireito := 0
  anguloOmbroEsquerdo := 0
  anguloBracoDireito := 0
  anguloBracoEsquerdo := 0
  anguloAntebracoDireito := 0
  anguloAntebracoEsquerdo := 0
  anguloMaoDireita := 0
  anguloMaoEsquerda := 0
  anguloCabeca := 0
  anguloTronco := 0
  xGroot := 0
  yGroot := -1
  escalaGroot := 1
  esq := false
  dir := false
  animando := false
  acenando := false
  etapaAceno := 0
  chutando := false
  etapaChute := 0
  chuteDirDirecao := 1
  chuteDirCiclo := 0
  chuteEsqDirecao := 1
  chuteEsqCiclo := 0
  acenoDirDirecao := 1
  acenoDirCiclo := 0
  acenoEsqDirecao := 1
  acenoEsqCiclo := 0

/-! ## Gesture automatons -/

/-- The `if (dir)` block of `animarChute` (lines 1781-1842). -/
def chuteDireito (s : Estado) : Estado :=
  if s.etapaChute = 0 then
    let s := { s with anguloCoxaDireita := s.anguloCoxaDireita + MOVESPEED_ESPECIAL }
    let s := { s with anguloPantDireita := s.anguloPantDireita - MOVESPEED_ESPECIAL }
    if s.anguloCoxaDireita ≥ 45 then { s with etapaChute := 1 } else s
  else if s.etapaChute = 1 then
    let s := { s with anguloPantDireita := s.anguloPantDireita + MOVESPEED_ESPECIAL }
    if s.anguloPantDireita ≥ 10 then { s with etapaChute := 2 } else s
  else if s.etapaChute = 2 then
    let s := { s with anguloPantDireita :=
      s.anguloPantDireita + (s.chuteDirDirecao : ℚ) * MOVESPEED_ESPECIAL }
    let s := if s.anguloPantDireita ≥ 10 then { s with chuteDirDirecao := -1 } else s
    let s := if s.anguloPantDireita ≤ -30 then
      { s with chuteDirDirecao := 1, chuteDirCiclo := s.chuteDirCiclo + 1 } else s
    if s.chuteDirCiclo = 1 then { s with etapaChute := 3, chuteDirCiclo := 0 } else s
  else if s.etapaChute = 3 then
    let terminou := true
    let (s, terminou) :=
      if s.anguloCoxaDireita > 0 then
        let s := { s with anguloCoxaDireita := s.anguloCoxaDireita - MOVESPEED_ESPECIAL }
        let s := if s.anguloCoxaDireita < 0 then { s with anguloCoxaDireita := 0 } else s
        (s, false)
      else (s, terminou)
    let (s, terminou) :=
      if s.anguloPantDireita < 0 then
        let s := { s with anguloPantDireita := s.anguloPantDireita + MOVESPEED_ESPECIAL }
        let s := if s.anguloPantDireita > 0 then { s with anguloPantDireita := 0 } else s
        (s, false)
      else (s, terminou)
    if terminou then
      { s with dir := false, chutando := false, animando := false, etapaChute := 0 }
    else s
  else s

/-- The `if (esq)` block of `animarChute` (lines 1845-1908). -/
def chuteEsquerdo (s : Estado) : Estado :=
  if s.etapaChute = 0 then
    let s := { s with anguloCoxaEsquerda := s.anguloCoxaEsquerda - MOVESPEED_ESPECIAL }
    let s := { s with anguloPantEsquerda := s.anguloPantEsquerda + MOVESPEED_ESPECIAL }
    if s.anguloCoxaEsquerda ≤ -45 then { s with etapaChute := 1 } else s
  else if s.etapaChute = 1 then
    let s := { s with anguloPantEsquerda := s.anguloPantEsquerda + MOVESPEED_ESPECIAL }
    if s.anguloPantEsquerda ≥ 30 then { s with etapaChute := 2 } else s
  else if s.etapaChute = 2 then
    let s := { s with anguloPantEsquerda :=
      s.anguloPantEsquerda - (s.chuteEsqDirecao : ℚ) * MOVESPEED_ESPECIAL }
    let s := if s.anguloPantEsquerda ≤ -20 then { s with chuteEsqDirecao := -1 } else s
    let s := if s.anguloPantEsquerda ≥ 30 then
      { s with chuteEsqDirecao := 1, chuteEsqCiclo := s.chuteEsqCiclo + 1 } else s
    if s.chuteEsqCiclo = 5 then { s with etapaChute := 3, chuteEsqCiclo := 0 } else s
  else if s.etapaChute = 3 then
    let terminou := true
    let (s, terminou) :=
      if s.anguloCoxaEsquerda < 0 then
        let s := { s with anguloCoxaEsquerda := s.anguloCoxaEsquerda + MOVESPEED_ESPECIAL }
        let s := if s.anguloCoxaEsquerda > 0 then { s with anguloCoxaEsquerda := 0 } else s
        (s, false)
      else (s, terminou)
    let (s, terminou) :=
      if s.anguloPantEsquerda > 0 then
        let s := { s with anguloPantEsquerda := s.anguloPantEsquerda - MOVESPEED_ESPECIAL }
        let s := if s.anguloPantEsquerda < 0 then { s with anguloPantEsquerda := 0 } else s
        (s, false)
      else (s, terminou)
    if terminou then
      { s with esq := false, chutando := false, animando := false, etapaChute := 0 }
    else s
  else s

/-- Function `animarChute` (lines 1776-1909): the right-leg block and then,
not as an `else`, the left-leg block. -/
def animarChute (s : Estado) : Estado :=
  if !s.chutando then s else
  let s := if s.dir then chuteDireito s else s
  let s := if s.esq then chuteEsquerdo s else s
  s

/-- The `if (dir)` block of `animarAceno` (lines 1921-1985). -/
def acenoDireito (s : Estado) : Estado :=
  if s.etapaAceno = 0 then
    let s := { s with anguloOmbroDireito := s.anguloOmbroDireito + MOVESPEED_ESPECIAL }
    let s := { s with anguloCabeca := s.anguloCabeca + 0.5 }
    if s.anguloOmbroDireito ≥ 90 then { s with etapaAceno := 1 } else s
  else if s.etapaAceno = 1 then
    let s := { s with anguloAntebracoDireito := s.anguloAntebracoDireito + MOVESPEED_ESPECIAL }
    if s.anguloAntebracoDireito > 79 then { s with etapaAceno := 2 } else s
  else if s.etapaAceno = 2 then
    let s := { s with anguloAntebracoDireito :=
      s.anguloAntebracoDireito + (s.acenoDirDirecao : ℚ) * MOVESPEED_ESPECIAL }
    let s := if s.anguloAntebracoDireito ≥ 120 then { s with acenoDirDirecao := -1 } else s
    let s := if s.anguloAntebracoDireito ≤ 40 then
      { s with acenoDirDirecao := 1, acenoDirCiclo := s.acenoDirCiclo + 1 } else s
    if s.acenoDirCiclo = 3 then { s with etapaAceno := 3, acenoDirCiclo := 0 } else s
  else if s.etapaAceno = 3 then
    let terminou := true
    let (s, terminou) :=
      if s.anguloOmbroDireito > 0 then
        let s := { s with anguloCabeca := s.anguloCabeca - 0.5 }
        let s := { s with anguloOmbroDireito := s.anguloOmbroDireito - MOVESPEED_ESPECIAL }
        let s := if s.anguloOmbroDireito < 0 then { s with anguloOmbroDireito := 0 } else s
        (s, false)
      else (s, terminou)
    let (s, terminou) :=
      if s.anguloAntebracoDireito > 0 then
        let s := { s with anguloAntebracoDireito :=
          s.anguloAntebracoDireito - MOVESPEED_ESPECIAL }
        let s := if s.anguloAntebracoDireito < 0 then
          { s with anguloAntebracoDireito := 0 } else s
        (s, false)
      else (s, terminou)
    if terminou then
      { s with dir := false, acenando := false, animando := false, etapaAceno := 0 }
    else s
  else s

/-- The `else if (esq)` block of `animarAceno` (lines 1988-2046). -/
def acenoEsquerdo (s : Estado) : Estado :=
  if s.etapaAceno = 0 then
    let s := { s with anguloOmbroEsquerdo := s.anguloOmbroEsquerdo - MOVESPEED_ESPECIAL }
    let s := { s with anguloCabeca := s.anguloCabeca - 0.5 }
    if s.anguloOmbroEsquerdo ≤ -90 then { s with etapaAceno := 1 } else s
  else if s.etapaAceno = 1 then
    let s := { s with anguloAntebracoEsquerdo :=
      s.anguloAntebracoEsquerdo - MOVESPEED_ESPECIAL }
    if s.anguloAntebracoEsquerdo < -80 then { s with etapaAceno := 2 } else s
  else if s.etapaAceno = 2 then
    let s := { s with anguloAntebracoEsquerdo :=
      s.anguloAntebracoEsquerdo - (s.acenoEsqDirecao : ℚ) * MOVESPEED_ESPECIAL }
    let s := if s.anguloAntebracoEsquerdo ≤ -120 then { s with acenoEsqDirecao := -1 } else s
    let s := if s.anguloAntebracoEsquerdo ≥ -40 then
      { s with acenoEsqDirecao := 1, acenoEsqCiclo := s.acenoEsqCiclo + 1 } else s
    if s.acenoEsqCiclo = 3 then { s with etapaAceno := 3, acenoEsqCiclo := 0 } else s
  else if s.etapaAceno = 3 then
    let terminou := true
    let (s, terminou) :=
      if s.anguloOmbroEsquerdo < 0 then
        let s := { s with anguloCabeca := s.anguloCabeca + 0.5 }
        let s := { s with anguloOmbroEsquerdo := s.anguloOmbroEsquerdo + MOVESPEED_ESPECIAL }
        let s := if s.anguloOmbroEsquerdo > 0 then { s with anguloOmbroEsquerdo := 0 } else s
        (s, false)
      else (s, terminou)
    let (s, terminou) :=
      if s.anguloAntebracoEsquerdo < 0 then
        let s := { s with anguloAntebracoEsquerdo :=
          s.anguloAntebracoEsquerdo + MOVESPEED_ESPECIAL }
        let s := if s.anguloAntebracoEsquerdo > 0 then
          { s with anguloAntebracoEsquerdo := 0 } else s
        (s, false)
      else (s, terminou)
    if terminou then
      { s with esq := false, acenando := false, animando := false, etapaAceno := 0 }
    else s
  else s

/-- Function `animarAceno` (lines 1916-2048): the right-arm block, else the
left-arm block. -/
def animarAceno (s : Estado) : Estado :=
  if !s.acenando then s
  else if s.dir then acenoDireito s
  else if s.esq then acenoEsquerdo s
  else s

/-- Function `idle` (lines 2392-2397); `glutPostRedisplay` does not touch the state. -/
def idle (s : Estado) : Estado :=
  animarChute (animarAceno s)

/-! ## Keyboard callbacks

`exit(0)` ends the process: the callbacks return `none` there and the new
state otherwise. -/

/-- Function `teclado` (lines 2086-2206). -/
def teclado (s : Estado) (tecla : Char) : Option Estado :=
  if s.animando then some s else
  match tecla with
  | 'q' =>
    some { s with
      anguloOmbroDireito := restringirMov (s.anguloOmbroDireito + MOVESPEED) limOmbroDir }
  | 'w' =>
    some { s with
      anguloOmbroDireito := restringirMov (s.anguloOmbroDireito - MOVESPEED) limOmbroDir }
  | 'e' =>
    some { s with
      anguloAntebracoDireito := restringirMov (s.anguloAntebracoDireito + MOVESPEED) limAntebracoDir }
  | 'r' =>
    some { s with
      anguloAntebracoDireito := restringirMov (s.anguloAntebracoDireito - MOVESPEED) limAntebracoDir }
  | 't' =>
    some { s with
      anguloMaoDireita := restringirMov (s.anguloMaoDireita + MOVESPEED) limMaoDir }
  | 'y' =>
    some { s with
      anguloMaoDireita := restringirMov (s.anguloMaoDireita - MOVESPEED) limMaoDir }
  | 'u' =>
    some { s with
      anguloOmbroEsquerdo := restringirMov (s.anguloOmbroEsquerdo + MOVESPEED) limOmbroEsq }
  | 'i' =>
    some { s with
      anguloOmbroEsquerdo := restringirMov (s.anguloOmbroEsquerdo - MOVESPEED) limOmbroEsq }
  | 'o' =>
    some { s with
      anguloAntebracoEsquerdo := restringirMov (s.anguloAntebracoEsquerdo + MOVESPEED) limAntebracoEsq }
  | 'p' =>
    some { s with
      anguloAntebracoEsquerdo := restringirMov (s.anguloAntebracoEsquerdo - MOVESPEED) limAntebracoEsq }
  | 'a' =>
    some { s with
      anguloMaoEsquerda := restringirMov (s.anguloMaoEsquerda + MOVESPEED) limMaoEsq }
  | 's' =>
    some { s with
      anguloMaoEsquerda := restringirMov (s.anguloMaoEsquerda - MOVESPEED) limMaoEsq }
  | 'd' =>
    some { s with
      anguloCoxaDireita := restringirMov (s.anguloCoxaDireita + MOVESPEED) limCoxaDir }
  | 'f' =>
    some { s with
      anguloCoxaDireita := restringirMov (s.anguloCoxaDireita - MOVESPEED) limCoxaDir }
  | 'g' =>
    some { s with
      anguloPantDireita := restringirMov (s.anguloPantDireita + MOVESPEED) limPantDir }
  | 'h' =>
    some { s with
      anguloPantDireita := restringirMov (s.anguloPantDireita - MOVESPEED) limPantDir }
  | 'j' =>
    some { s with
      anguloPataDireita := restringirMov (s.anguloPataDireita + MOVESPEED) limPataDir }
  | 'k' =>
    some { s with
      anguloPataDireita := restringirMov (s.anguloPataDireita - MOVESPEED) limPataDir }
  | 'l' =>
    some { s with
      anguloCoxaEsquerda := restringirMov (s.anguloCoxaEsquerda + MOVESPEED) limCoxaEsq }
  | 'z' =>
    some { s with
      anguloCoxaEsquerda := restringirMov (s.anguloCoxaEsquerda - MOVESPEED) limCoxaEsq }
  | 'x' =>
    some { s with
      anguloPantEsquerda := restringirMov (s.anguloPantEsquerda + MOVESPEED) limPantEsq }
  | 'c' =>
    some { s with
      anguloPantEsquerda := restringirMov (s.anguloPantEsquerda - MOVESPEED) limPantEsq }
  | 'v' =>
    some { s with
      anguloPataEsquerda := restringirMov (s.anguloPataEsquerda + MOVESPEED) limPataEsq }
  | 'b' =>
    some { s with
      anguloPataEsquerda := restringirMov (s.anguloPataEsquerda - MOVESPEED) limPataEsq }
  | 'n' =>
    some { s with
      anguloQuadril := restringirMov (s.anguloQuadril + MOVESPEED) limQuadril }
  | 'm' =>
    some { s with
      anguloQuadril := restringirMov (s.anguloQuadril - MOVESPEED) limQuadril }
  | '1' =>
    some { s with
      anguloTronco := restringirMov (s.anguloTronco + MOVESPEED) limTronco }
  | '2' =>
    some { s with
      anguloTronco := restringirMov (s.anguloTronco - MOVESPEED) limTronco }
  | '3' =>
    some { s with
      anguloCabeca := restringirMov (s.anguloCabeca + MOVESPEED) limCabeca }
  | '4' =>
    some { s with
      anguloCabeca := restringirMov (s.anguloCabeca - MOVESPEED) limCabeca }
  | '0' => some { s with
      anguloOmbroDireito := 0, anguloOmbroEsquerdo := 0,
      anguloBracoDireito := 0, anguloBracoEsquerdo := 0,
      anguloAntebracoDireito := 0, anguloAntebracoEsquerdo := 0,
      anguloMaoDireita := 0, anguloMaoEsquerda := 0,
      anguloCoxaDireita := 0, anguloCoxaEsquerda := 0,
      anguloPantDireita := 0, anguloPantEsquerda := 0,
      anguloPataDireita := 0, anguloPataEsquerda := 0,
      anguloQuadril := 0,
      anguloTronco := 0,
      anguloCabeca := 0 }
  | '\x1b' => none
  | _ => some s

/-- Function `tecladoEspecial` (lines 2219-2303).  The scale step `0.1f` is not
exact in `float`: the scale is computed with `arredondar32`. -/
def tecladoEspecial (s : Estado) (tecla : Int) : Option Estado :=
  if s.animando then some s
  else if tecla = GLUT_KEY_F1 then
    some { s with
      anguloOmbroEsquerdo := 0, anguloAntebracoEsquerdo := 0, anguloBracoEsquerdo := 0,
      anguloMaoEsquerda := 0, anguloTronco := 0, anguloCabeca := 0,
      etapaAceno := 0, esq := true, acenando := true, animando := true }
  else if tecla = GLUT_KEY_F2 then
    some { s with
      anguloOmbroDireito := 0, anguloAntebracoDireito := 0, anguloBracoDireito := 0,
      anguloMaoDireita := 0, anguloTronco := 0, anguloCabeca := 0,
      etapaAceno := 0, dir := true, acenando := true, animando := true }
  else if tecla = GLUT_KEY_F3 then
    some { s with
      anguloQuadril := 0, anguloCoxaEsquerda := 0, anguloPantEsquerda := 0,
      anguloPataEsquerda := 0, anguloTronco := 0,
      etapaChute := 0, esq := true, chutando := true, animando := true }
  else if tecla = GLUT_KEY_F4 then
    some { s with
      anguloQuadril := 0, anguloCoxaDireita := 0, anguloPantDireita := 0,
      anguloPataDireita := 0, anguloTronco := 0,
      etapaChute := 0, dir := true, chutando := true, animando := true }
  else if tecla = GLUT_KEY_LEFT then
    some { s with xGroot := restringirMov (s.xGroot - 0.5) limXGroot }
  else if tecla = GLUT_KEY_RIGHT then
    some { s with xGroot := restringirMov (s.xGroot + 0.5) limXGroot }
  else if tecla = GLUT_KEY_UP then
    some { s with
      escalaGroot := restringirMov (arredondar32 (s.escalaGroot - arredondar32 0.1)) limEscalaGroot,
      yGroot := restringirMov (s.yGroot + 0.5) limYGroot }
  else if tecla = GLUT_KEY_DOWN then
    some { s with
      escalaGroot := restringirMov (arredondar32 (s.escalaGroot + arredondar32 0.1)) limEscalaGroot,
      yGroot := restringirMov (s.yGroot - 0.5) limYGroot }
  else if tecla = GLUT_KEY_F12 then
    some { s with escalaGroot := 1, xGroot := 0, yGroot := -1 }
  else if tecla = 27 then none
  else some s

/-! ## Event loop -/

/-- What `glutMainLoop` can deliver: a key to `teclado`, a special key to
`tecladoEspecial`, or an idle tick to `idle`. -/
inductive Evento where
  | tecla (c : Char)
  | especial (k : Int)
  | ocioso

/-- One delivered event; `none` when the callback ends the process. -/
def passo (s : Estado) : Evento → Option Estado
  | .tecla c => teclado s c
  | .especial k => tecladoEspecial s k
  | .ocioso => some (idle s)

/-- A sequence of delivered events, oldest first. -/
def executar (s : Estado) : List Evento → Option Estado
  | [] => some s
  | e :: es => (passo s e).bind fun t => executar t es

/-- States the running program can be in: those some event sequence leads to
from the initialisers (`main` itself starts with `tecladoEspecial(GLUT_KEY_F1)`,
which is such a sequence). -/
def Alcancavel (s : Estado) : Prop :=
  ∃ es : List Evento, executar estadoInicial es = some s

/-! ## Geometry data: point arrays, declared point counts and pivots (lines 950-1192) -/

/-- The point arrays `ligarPartes` reads or writes. -/
structure Pontos (K : Type) where
  pontosTronco : List (tpPonto2D K)
  pontosQuadril : List (tpPonto2D K)
  pontosOmbroEsquerdo : List (tpPonto2D K)
  pontosOmbroDireito : List (tpPonto2D K)
  pontosBracoDireito : List (tpPonto2D K)
  pontosBracoEsquerdo : List (tpPonto2D K)
  pontosAntebracoDireito : List (tpPonto2D K)
  pontosAntebracoEsquerdo : List (tpPonto2D K)
  pontosMaoDireita : List (tpPonto2D K)
  pontosMaoEsquerda : List (tpPonto2D K)
  pontosCoxaDireita : List (tpPonto2D K)
  pontosCoxaEsquerda : List (tpPonto2D K)
  pontosPantDireita : List (tpPonto2D K)
  pontosPantEsquerda : List (tpPonto2D K)
  pontosPataDireita : List (tpPonto2D K)
  pontosPataEsquerda : List (tpPonto2D K)

/-! Declared point counts (`numPontos...`). -/

def numPontosTronco : Nat := 11
def numPontosQuadril : Nat := 6
def numPontosOmbroEsquerdo : Nat := 8
def numPontosOmbroDireito : Nat := 8
def numPontosBracoDireito : Nat := 4
def numPontosBracoEsquerdo : Nat := 4
def numPontosAntebracoDireito : Nat := 6
def numPontosAntebracoEsquerdo : Nat := 6
def numPontosMaoDireita : Nat := 9
def numPontosMaoEsquerda : Nat := 9
def numPontosCoxaDireita : Nat := 8
def numPontosCoxaEsquerda : Nat := 8
def numPontosPantDireita : Nat := 4
def numPontosPantEsquerda : Nat := 4
def numPontosPataDireita : Nat := 4
def numPontosPataEsquerda : Nat := 4

/-! Pivots (`pivo...`). -/

def pivoTronco {K : Type} [Field K] : tpPonto2D K := ⟨0.0, 0.0⟩
def pivoQuadril {K : Type} [Field K] : tpPonto2D K := ⟨0.0, (-3.65)⟩
def pivoOmbroEsquerdo {K : Type} [Field K] : tpPonto2D K := ⟨(-2.55), 1.9⟩
def pivoOmbroDireito {K : Type} [Field K] : tpPonto2D K := ⟨2.55, 1.9⟩
def pivoBracoDireito {K : Type} [Field K] : tpPonto2D K := ⟨2.625, 1.00⟩
def pivoBracoEsquerdo {K : Type} [Field K] : tpPonto2D K := ⟨(-2.625), 0.50⟩
def pivoAntebracoDireito {K : Type} [Field K] : tpPonto2D K := ⟨2.825, (-1.25)⟩
def pivoAntebracoEsquerdo {K : Type} [Field K] : tpPonto2D K := ⟨(-2.825), (-1.25)⟩
def pivoMaoDireita {K : Type} [Field K] : tpPonto2D K := ⟨3.0, (-4.0)⟩
def pivoMaoEsquerda {K : Type} [Field K] : tpPonto2D K := ⟨(-3.0), (-3.75)⟩
def pivoCoxaDireita {K : Type} [Field K] : tpPonto2D K := ⟨1.02, (-3.0)⟩
def pivoCoxaEsquerda {K : Type} [Field K] : tpPonto2D K := ⟨(-1.02), (-3.0)⟩
def pivoPantDireita {K : Type} [Field K] : tpPonto2D K := ⟨1.2, (-7.0)⟩
def pivoPantEsquerda {K : Type} [Field K] : tpPonto2D K := ⟨(-1.2), (-7.0)⟩
def pivoPataDireita {K : Type} [Field K] : tpPonto2D K := ⟨1.2, (-9.225)⟩
def pivoPataEsquerda {K : Type} [Field K] : tpPonto2D K := ⟨(-1.2), (-9.225)⟩

/-- The initialisers of the point arrays. -/
def pontosIniciais {K : Type} [Field K] : Pontos K where
  pontosTronco := [
    ⟨0.0, 3.5⟩, ⟨1.0, 3.5⟩, ⟨2.75, 2.25⟩, ⟨2.0, 1.0⟩, ⟨2.0, (-3.5)⟩, ⟨0.0, (-3.5)⟩,
    ⟨(-2.0), (-3.5)⟩, ⟨(-2.0), 1.0⟩, ⟨(-2.75), 2.25⟩, ⟨(-1.0), 3.5⟩, ⟨0.0, 3.5⟩]
  pontosQuadril := [
    ⟨(-2.0), (-3.0)⟩, ⟨(-2.0), (-4.5)⟩, ⟨(-1.0), (-4.5)⟩, ⟨1.0, (-4.5)⟩, ⟨2.0, (-4.5)⟩,
    ⟨2.0, (-3.0)⟩]
  pontosOmbroEsquerdo := [
    ⟨(-2.2), 2.5⟩, ⟨(-2.75), 2.325⟩, ⟨(-3.1), 2.0⟩, ⟨(-3.25), 1.60⟩, ⟨(-3.25), 1.20⟩,
    ⟨(-2.675), 1.20⟩, ⟨(-2.0), 1.20⟩, ⟨(-2.1), 1.85⟩]
  pontosOmbroDireito := [
    ⟨2.2, 2.5⟩, ⟨2.75, 2.325⟩, ⟨3.1, 2.0⟩, ⟨3.25, 1.60⟩, ⟨3.25, 1.20⟩, ⟨2.675, 1.20⟩,
    ⟨2.0, 1.20⟩, ⟨2.1, 1.85⟩]
  pontosBracoDireito := [⟨3.25, 1.10⟩, ⟨3.45, (-1.45)⟩, ⟨2.2, (-1.25)⟩, ⟨2.0, 1.10⟩]
  pontosBracoEsquerdo := [⟨(-3.25), 1.20⟩, ⟨(-3.45), (-1.45)⟩, ⟨(-2.2), (-1.25)⟩, ⟨(-2.0), 1.20⟩]
  pontosAntebracoDireito := [
    ⟨3.45, (-1.60)⟩, ⟨3.35, (-2.5)⟩, ⟨3.25, (-3.85)⟩, ⟨2.8, (-4.0)⟩, ⟨2.2, (-1.25)⟩,
    ⟨2.825, (-0.25)⟩]
  pontosAntebracoEsquerdo := [
    ⟨(-3.45), (-1.60)⟩, ⟨(-3.35), (-2.5)⟩, ⟨(-3.25), (-3.85)⟩, ⟨(-2.8), (-4.0)⟩,
    ⟨(-2.2), (-1.25)⟩, ⟨(-2.825), (-0.25)⟩]
  pontosMaoDireita := [
    ⟨3.25, (-3.7)⟩, ⟨3.6, (-5.0)⟩, ⟨3.2, (-5.8)⟩, ⟨3.0, (-5.7)⟩, ⟨3.15, (-5.0)⟩, ⟨2.85, (-4.56)⟩,
    ⟨2.8, (-5.0)⟩, ⟨2.60, (-4.80)⟩, ⟨2.75, (-3.80)⟩]
  pontosMaoEsquerda := [
    ⟨(-3.25), (-3.7)⟩, ⟨(-3.6), (-5.0)⟩, ⟨(-3.2), (-5.8)⟩, ⟨(-3.0), (-5.7)⟩, ⟨(-3.15), (-5.0)⟩,
    ⟨(-2.85), (-4.56)⟩, ⟨(-2.8), (-5.0)⟩, ⟨(-2.60), (-4.80)⟩, ⟨(-2.75), (-3.80)⟩]
  pontosCoxaDireita := [
    ⟨0.15, (-4.3)⟩, ⟨0.4, (-4.6)⟩, ⟨0.4, (-5.25)⟩, ⟨0.4, (-7.0)⟩, ⟨2.0, (-7.0)⟩, ⟨2.0, (-4.0)⟩,
    ⟨2.0, (-3.0)⟩, ⟨0.65, (-3.4)⟩]
  pontosCoxaEsquerda := [
    ⟨(-0.15), (-4.3)⟩, ⟨(-0.4), (-4.6)⟩, ⟨(-0.4), (-5.25)⟩, ⟨(-0.4), (-7.0)⟩, ⟨(-2.0), (-7.0)⟩,
    ⟨(-2.0), (-4.0)⟩, ⟨(-2.0), (-3.0)⟩, ⟨(-0.65), (-3.4)⟩]
  pontosPantDireita := [⟨2.0, (-5.5)⟩, ⟨0.4, (-7.0)⟩, ⟨0.4, (-8.4)⟩, ⟨2.0, (-8.4)⟩]
  pontosPantEsquerda := [⟨(-2.0), (-5.5)⟩, ⟨(-0.4), (-7.0)⟩, ⟨(-0.4), (-8.4)⟩, ⟨(-2.0), (-8.4)⟩]
  pontosPataDireita := [⟨2.0, (-8.25)⟩, ⟨0.4, (-8.0)⟩, ⟨0.25, (-10.0)⟩, ⟨2.3, (-10.0)⟩]
  pontosPataEsquerda := [⟨(-2.0), (-8.25)⟩, ⟨(-0.4), (-8.0)⟩, ⟨(-0.25), (-10.0)⟩, ⟨(-2.3), (-10.0)⟩]


/-! ## Seam binder -/

/-- Array read `a[i]`.  Past the end of the array, where C leaves the read
undefined, it yields the origin. -/
def lerPonto {K : Type} [Zero K] (a : List (tpPonto2D K)) (i : Nat) : tpPonto2D K :=
  a.getD i ⟨0, 0⟩

/-- Array write `a[i] = p`.  Past the end of the array, where C leaves the
write undefined, it changes nothing. -/
def escreverPonto {K : Type} (a : List (tpPonto2D K)) (i : Nat) (p : tpPonto2D K) :
    List (tpPonto2D K) :=
  a.set i p

/-- Function `ligarPartes` (lines 1701-1751): the 26 assignments in source
order, each reading the arrays as the assignments before it left them. -/
def ligarPartes {K : Type} [Field K] (T : Trig K) (s : Estado) (g : Pontos K) : Pontos K :=
  let g : Pontos K := { g with
    pontosTronco := escreverPonto g.pontosTronco 4
      (calcularPosicaoAtual T (lerPonto g.pontosQuadril 5) pivoQuadril (s.anguloQuadril : K)) }
  let g : Pontos K := { g with
    pontosTronco := escreverPonto g.pontosTronco 6
      (calcularPosicaoAtual T (lerPonto g.pontosQuadril 0) pivoQuadril (s.anguloQuadril : K)) }
  let g : Pontos K := { g with
    pontosTronco := escreverPonto g.pontosTronco 9
      (calcularPosicaoAtual T (lerPonto g.pontosOmbroEsquerdo 0) pivoOmbroEsquerdo (s.anguloOmbroEsquerdo : K)) }
  let g : Pontos K := { g with
    pontosTronco := escreverPonto g.pontosTronco 7
      (calcularPosicaoAtual T (lerPonto g.pontosOmbroEsquerdo 7) pivoOmbroEsquerdo (s.anguloOmbroEsquerdo : K)) }
  let g : Pontos K := { g with
    pontosTronco := escreverPonto g.pontosTronco 1
      (calcularPosicaoAtual T (lerPonto g.pontosOmbroDireito 0) pivoOmbroDireito (s.anguloOmbroDireito : K)) }
  let g : Pontos K := { g with
    pontosTronco := escreverPonto g.pontosTronco 3
      (calcularPosicaoAtual T (lerPonto g.pontosOmbroDireito 7) pivoOmbroDireito (s.anguloOmbroDireito : K)) }
  let g : Pontos K := { g with
    pontosQuadril := escreverPonto g.pontosQuadril 1
      (calcularPosicaoAtual T (lerPonto g.pontosCoxaEsquerda 5) pivoCoxaEsquerda (s.anguloCoxaEsquerda : K)) }
  let g : Pontos K := { g with
    pontosQuadril := escreverPonto g.pontosQuadril 2
      (calcularPosicaoAtual T (lerPonto g.pontosCoxaEsquerda 2) pivoCoxaEsquerda (s.anguloCoxaEsquerda : K)) }
  let g : Pontos K := { g with
    pontosQuadril := escreverPonto g.pontosQuadril 4
      (calcularPosicaoAtual T (lerPonto g.pontosCoxaDireita 6) pivoCoxaDireita (s.anguloCoxaDireita : K)) }
  let g : Pontos K := { g with
    pontosQuadril := escreverPonto g.pontosQuadril 3
      (calcularPosicaoAtual T (lerPonto g.pontosCoxaDireita 2) pivoCoxaDireita (s.anguloCoxaDireita : K)) }
  let g : Pontos K := { g with
    pontosOmbroDireito := escreverPonto g.pontosOmbroDireito 4
      (calcularPosicaoAtual T (lerPonto g.pontosBracoDireito 0) pivoBracoDireito (s.anguloBracoDireito : K)) }
  let g : Pontos K := { g with
    pontosOmbroDireito := escreverPonto g.pontosOmbroDireito 5
      (calcularPosicaoAtual T (lerPonto g.pontosBracoDireito 3) pivoBracoDireito (s.anguloBracoDireito : K)) }
  let g : Pontos K := { g with
    pontosOmbroEsquerdo := escreverPonto g.pontosOmbroEsquerdo 4
      (calcularPosicaoAtual T (lerPonto g.pontosBracoEsquerdo 0) pivoBracoEsquerdo (s.anguloBracoEsquerdo : K)) }
  let g : Pontos K := { g with
    pontosOmbroEsquerdo := escreverPonto g.pontosOmbroEsquerdo 5
      (calcularPosicaoAtual T (lerPonto g.pontosBracoEsquerdo 3) pivoBracoEsquerdo (s.anguloBracoEsquerdo : K)) }
  let g : Pontos K := { g with
    pontosBracoDireito := escreverPonto g.pontosBracoDireito 1
      (calcularPosicaoAtual T
        (if s.anguloAntebracoDireito ≤ -34 then lerPonto g.pontosAntebracoDireito 5
          else lerPonto g.pontosAntebracoDireito 0) pivoAntebracoDireito (s.anguloAntebracoDireito : K)) }
  let g : Pontos K := { g with
    pontosBracoEsquerdo := escreverPonto g.pontosBracoEsquerdo 1
      (calcularPosicaoAtual T
        (if s.anguloAntebracoEsquerdo ≥ 34 then lerPonto g.pontosAntebracoEsquerdo 5
          else lerPonto g.pontosAntebracoEsquerdo 0) pivoAntebracoEsquerdo (s.anguloAntebracoEsquerdo : K)) }
  let g : Pontos K := { g with
    pontosAntebracoDireito := escreverPonto g.pontosAntebracoDireito 1
      (calcularPosicaoAtual T (lerPonto g.pontosMaoDireita 0) pivoMaoDireita (s.anguloMaoDireita : K)) }
  let g : Pontos K := { g with
    pontosAntebracoEsquerdo := escreverPonto g.pontosAntebracoEsquerdo 1
      (calcularPosicaoAtual T (lerPonto g.pontosMaoEsquerda 8) pivoMaoEsquerda (s.anguloMaoEsquerda : K)) }
  let g : Pontos K := { g with
    pontosCoxaDireita := escreverPonto g.pontosCoxaDireita 3
      (calcularPosicaoAtual T (lerPonto g.pontosPantDireita 1) pivoPantDireita (s.anguloPantDireita : K)) }
  let g : Pontos K := { g with
    pontosCoxaDireita := escreverPonto g.pontosCoxaDireita 4
      (calcularPosicaoAtual T (lerPonto g.pontosPantDireita 0) pivoPantDireita (s.anguloPantDireita : K)) }
  let g : Pontos K := { g with
    pontosCoxaEsquerda := escreverPonto g.pontosCoxaEsquerda 3
      (calcularPosicaoAtual T (lerPonto g.pontosPantEsquerda 1) pivoPantEsquerda (s.anguloPantEsquerda : K)) }
  let g : Pontos K := { g with
    pontosCoxaEsquerda := escreverPonto g.pontosCoxaEsquerda 4
      (calcularPosicaoAtual T (lerPonto g.pontosPantEsquerda 0) pivoPantEsquerda (s.anguloPantEsquerda : K)) }
  let g : Pontos K := { g with
    pontosPantDireita := escreverPonto g.pontosPantDireita 2
      (calcularPosicaoAtual T (lerPonto g.pontosPataDireita 1) pivoPataDireita (s.anguloPataDireita : K)) }
  let g : Pontos K := { g with
    pontosPantDireita := escreverPonto g.pontosPantDireita 3
      (calcularPosicaoAtual T (lerPonto g.pontosPataDireita 0) pivoPataDireita (s.anguloPataDireita : K)) }
  let g : Pontos K := { g with
    pontosPantEsquerda := escreverPonto g.pontosPantEsquerda 2
      (calcularPosicaoAtual T (lerPonto g.pontosPataEsquerda 1) pivoPataEsquerda (s.anguloPataEsquerda : K)) }
  let g : Pontos K := { g with
    pontosPantEsquerda := escreverPonto g.pontosPantEsquerda 3
      (calcularPosicaoAtual T (lerPonto g.pontosPataEsquerda 0) pivoPataEsquerda (s.anguloPataEsquerda : K)) }
  g

/-- The point arrays have the sizes their initialisers fix (which are the
declared point counts). -/
def Pontos.tamanhosDeclarados {K : Type} (g : Pontos K) : Prop :=
  g.pontosTronco.length = numPontosTronco ∧
  g.pontosQuadril.length = numPontosQuadril ∧
  g.pontosOmbroEsquerdo.length = numPontosOmbroEsquerdo ∧
  g.pontosOmbroDireito.length = numPontosOmbroDireito ∧
  g.pontosBracoDireito.length = numPontosBracoDireito ∧
  g.pontosBracoEsquerdo.length = numPontosBracoEsquerdo ∧
  g.pontosAntebracoDireito.length = numPontosAntebracoDireito ∧
  g.pontosAntebracoEsquerdo.length = numPontosAntebracoEsquerdo ∧
  g.pontosMaoDireita.length = numPontosMaoDireita ∧
  g.pontosMaoEsquerda.length = numPontosMaoEsquerda ∧
  g.pontosCoxaDireita.length = numPontosCoxaDireita ∧
  g.pontosCoxaEsquerda.length = numPontosCoxaEsquerda ∧
  g.pontosPantDireita.length = numPontosPantDireita ∧
  g.pontosPantEsquerda.length = numPontosPantEsquerda ∧
  g.pontosPataDireita.length = numPontosPataDireita ∧
  g.pontosPataEsquerda.length = numPontosPataEsquerda


/-! ## Vocabulary of the statements -/

/-- The value `a` lies in the closed range of the limit `l`. -/
def dentro (a : ℚ) (l : tpLimite) : Prop :=
  l.min ≤ a ∧ a ≤ l.max

instance (a : ℚ) (l : tpLimite) : Decidable (dentro a l) := by
  unfold dentro
  infer_instance

/-- The 17 joint-angle variables, in declaration order. -/
def Estado.angulos (s : Estado) : List ℚ :=
  [s.anguloQuadril, s.anguloCoxaDireita, s.anguloCoxaEsquerda, s.anguloPantDireita,
    s.anguloPantEsquerda, s.anguloPataDireita, s.anguloPataEsquerda, s.anguloOmbroDireito,
    s.anguloOmbroEsquerdo, s.anguloBracoDireito, s.anguloBracoEsquerdo,
    s.anguloAntebracoDireito, s.anguloAntebracoEsquerdo, s.anguloMaoDireita,
    s.anguloMaoEsquerda, s.anguloCabeca, s.anguloTronco]

/-- Every joint angle with a declared limit (lines 858-878) lies inside it. -/
def dentroDosLimites (s : Estado) : Prop :=
  dentro s.anguloOmbroEsquerdo limOmbroEsq ∧
  dentro s.anguloOmbroDireito limOmbroDir ∧
  dentro s.anguloAntebracoEsquerdo limAntebracoEsq ∧
  dentro s.anguloAntebracoDireito limAntebracoDir ∧
  dentro s.anguloMaoEsquerda limMaoEsq ∧
  dentro s.anguloMaoDireita limMaoDir ∧
  dentro s.anguloCoxaEsquerda limCoxaEsq ∧
  dentro s.anguloCoxaDireita limCoxaDir ∧
  dentro s.anguloPantEsquerda limPantEsq ∧
  dentro s.anguloPantDireita limPantDir ∧
  dentro s.anguloPataEsquerda limPataEsq ∧
  dentro s.anguloPataDireita limPataDir ∧
  dentro s.anguloQuadril limQuadril ∧
  dentro s.anguloTronco limTronco ∧
  dentro s.anguloCabeca limCabeca

instance (s : Estado) : Decidable (dentroDosLimites s) := by
  unfold dentroDosLimites
  infer_instance

/-- The joint limits as the gestures respect them: every joint angle lies inside
its declared limit, except that the forearm of an arm that is waving ranges over
`[0, 120]` (right) or `[-120, 0]` (left) and the shin of a leg that is kicking
ranges over `[-45, 15]` (right) or `[-20, 50]` (left). -/
def limitesSalvoGesto (s : Estado) : Prop :=
  dentro s.anguloOmbroEsquerdo limOmbroEsq ∧
  dentro s.anguloOmbroDireito limOmbroDir ∧
  (dentro s.anguloAntebracoEsquerdo limAntebracoEsq ∨
    (s.acenando = true ∧ s.esq = true ∧ dentro s.anguloAntebracoEsquerdo ⟨-120, 0⟩)) ∧
  (dentro s.anguloAntebracoDireito limAntebracoDir ∨
    (s.acenando = true ∧ s.dir = true ∧ dentro s.anguloAntebracoDireito ⟨0, 120⟩)) ∧
  dentro s.anguloMaoEsquerda limMaoEsq ∧
  dentro s.anguloMaoDireita limMaoDir ∧
  dentro s.anguloCoxaEsquerda limCoxaEsq ∧
  dentro s.anguloCoxaDireita limCoxaDir ∧
  (dentro s.anguloPantEsquerda limPantEsq ∨
    (s.chutando = true ∧ s.esq = true ∧ dentro s.anguloPantEsquerda ⟨-20, 50⟩)) ∧
  (dentro s.anguloPantDireita limPantDir ∨
    (s.chutando = true ∧ s.dir = true ∧ dentro s.anguloPantDireita ⟨-45, 15⟩)) ∧
  dentro s.anguloPataEsquerda limPataEsq ∧
  dentro s.anguloPataDireita limPataDir ∧
  dentro s.anguloQuadril limQuadril ∧
  dentro s.anguloTronco limTronco ∧
  dentro s.anguloCabeca limCabeca

instance (s : Estado) : Decidable (limitesSalvoGesto s) := by
  unfold limitesSalvoGesto
  infer_instance

/-- The four gestures, by trigger key. -/
inductive Gesto where
  | acenoEsq
  | acenoDir
  | chuteEsq
  | chuteDir
deriving DecidableEq, Repr

/-- The special key that triggers the gesture (lines 2225-2269). -/
def Gesto.tecla : Gesto → Int
  | .acenoEsq => GLUT_KEY_F1
  | .acenoDir => GLUT_KEY_F2
  | .chuteEsq => GLUT_KEY_F3
  | .chuteDir => GLUT_KEY_F4

/-- The state the trigger key of `g` leaves (the state itself where the
callback ends the process). -/
def disparar (s : Estado) (g : Gesto) : Estado :=
  (tecladoEspecial s g.tecla).getD s

/-- Number of idle ticks the gesture takes. -/
def duracao : Gesto → Nat
  | .acenoEsq => 141
  | .acenoDir => 141
  | .chuteEsq => 44
  | .chuteDir => 40

/-- No gesture is running: all flags are down, both phases are 0 and the four
static pairs hold their initial `(1, 0)`. -/
def Repouso (s : Estado) : Prop :=
  s.esq = false ∧ s.dir = false ∧ s.animando = false ∧
  s.acenando = false ∧ s.etapaAceno = 0 ∧ s.chutando = false ∧ s.etapaChute = 0 ∧
  s.chuteDirDirecao = 1 ∧ s.chuteDirCiclo = 0 ∧ s.chuteEsqDirecao = 1 ∧ s.chuteEsqCiclo = 0 ∧
  s.acenoDirDirecao = 1 ∧ s.acenoDirCiclo = 0 ∧ s.acenoEsqDirecao = 1 ∧ s.acenoEsqCiclo = 0

instance (s : Estado) : Decidable (Repouso s) := by
  unfold Repouso
  infer_instance

/-- The flags, phases and static pairs of `c` over the angles, pan and scale of `r`. -/
def controleDe (c r : Estado) : Estado :=
  { r with
    esq := c.esq, dir := c.dir, animando := c.animando,
    acenando := c.acenando, etapaAceno := c.etapaAceno,
    chutando := c.chutando, etapaChute := c.etapaChute,
    chuteDirDirecao := c.chuteDirDirecao, chuteDirCiclo := c.chuteDirCiclo,
    chuteEsqDirecao := c.chuteEsqDirecao, chuteEsqCiclo := c.chuteEsqCiclo,
    acenoDirDirecao := c.acenoDirDirecao, acenoDirCiclo := c.acenoDirCiclo,
    acenoEsqDirecao := c.acenoEsqDirecao, acenoEsqCiclo := c.acenoEsqCiclo }

/-- The part of `c` the gesture `g` reads and writes (flags, phases, static pairs
and the angles `g` drives) over the rest of `r`. -/
def enxerto : Gesto → Estado → Estado → Estado
  | .acenoEsq, c, r =>
    { controleDe c r with
      anguloOmbroEsquerdo := c.anguloOmbroEsquerdo,
      anguloAntebracoEsquerdo := c.anguloAntebracoEsquerdo,
      anguloCabeca := c.anguloCabeca }
  | .acenoDir, c, r =>
    { controleDe c r with
      anguloOmbroDireito := c.anguloOmbroDireito,
      anguloAntebracoDireito := c.anguloAntebracoDireito,
      anguloCabeca := c.anguloCabeca }
  | .chuteEsq, c, r =>
    { controleDe c r with
      anguloCoxaEsquerda := c.anguloCoxaEsquerda,
      anguloPantEsquerda := c.anguloPantEsquerda }
  | .chuteDir, c, r =>
    { controleDe c r with
      anguloCoxaDireita := c.anguloCoxaDireita,
      anguloPantDireita := c.anguloPantDireita }

/-- The flags of `c` say that the gesture `g`, and no other, is running. -/
def bandeirasDe (g : Gesto) (c : Estado) : Prop :=
  match g with
  | .acenoEsq => c.acenando = true ∧ c.chutando = false ∧ c.esq = true ∧ c.dir = false
  | .acenoDir => c.acenando = true ∧ c.chutando = false ∧ c.esq = false ∧ c.dir = true
  | .chuteEsq => c.acenando = false ∧ c.chutando = true ∧ c.esq = true ∧ c.dir = false
  | .chuteDir => c.acenando = false ∧ c.chutando = true ∧ c.esq = false ∧ c.dir = true

instance (g : Gesto) (c : Estado) : Decidable (bandeirasDe g c) := by
  unfold bandeirasDe
  cases g <;> infer_instance

/-- The flags of `c` select the gesture `g` and no other, or select no gesture. -/
def Selecionado (g : Gesto) (c : Estado) : Prop :=
  (c.acenando = false ∧ c.chutando = false) ∨ bandeirasDe g c

instance (g : Gesto) (c : Estado) : Decidable (Selecionado g c) := by
  unfold Selecionado
  infer_instance

/-- The gesture `g` triggered on the initialisers. -/
def inicioGesto (g : Gesto) : Estado :=
  disparar estadoInicial g

/-- What holds of a state in the middle of the gesture `g`. -/
def EmGesto (g : Gesto) (c : Estado) : Prop :=
  bandeirasDe g c ∧ c.animando = true ∧ limitesSalvoGesto c

instance (g : Gesto) (c : Estado) : Decidable (EmGesto g c) := by
  unfold EmGesto
  infer_instance

/-- Shape of the states the event loop can reach: at rest within the joint
limits, or a number of ticks into a gesture that was triggered at rest within
the joint limits. -/
def Inv (s : Estado) : Prop :=
  (Repouso s ∧ dentroDosLimites s) ∨
  ∃ (g : Gesto) (r : Estado) (i : Nat),
    Repouso r ∧ dentroDosLimites r ∧ i < duracao g ∧ s = idle^[i] (disparar r g)

/-- The seam invariant for the angles of `s`: each of the 26 dependent points
of `g` is `calcularPosicaoAtual` of its source point in `g`, about the source
part's pivot, by the source part's angle. -/
def costurasLigadas {K : Type} [Field K] (T : Trig K) (s : Estado) (g : Pontos K) : Prop :=
  lerPonto g.pontosTronco 4 =
    calcularPosicaoAtual T (lerPonto g.pontosQuadril 5)
      pivoQuadril (s.anguloQuadril : K) ∧
  lerPonto g.pontosTronco 6 =
    calcularPosicaoAtual T (lerPonto g.pontosQuadril 0)
      pivoQuadril (s.anguloQuadril : K) ∧
  lerPonto g.pontosTronco 9 =
    calcularPosicaoAtual T (lerPonto g.pontosOmbroEsquerdo 0)
      pivoOmbroEsquerdo (s.anguloOmbroEsquerdo : K) ∧
  lerPonto g.pontosTronco 7 =
    calcularPosicaoAtual T (lerPonto g.pontosOmbroEsquerdo 7)
      pivoOmbroEsquerdo (s.anguloOmbroEsquerdo : K) ∧
  lerPonto g.pontosTronco 1 =
    calcularPosicaoAtual T (lerPonto g.pontosOmbroDireito 0)
      pivoOmbroDireito (s.anguloOmbroDireito : K) ∧
  lerPonto g.pontosTronco 3 =
    calcularPosicaoAtual T (lerPonto g.pontosOmbroDireito 7)
      pivoOmbroDireito (s.anguloOmbroDireito : K) ∧
  lerPonto g.pontosQuadril 1 =
    calcularPosicaoAtual T (lerPonto g.pontosCoxaEsquerda 5)
      pivoCoxaEsquerda (s.anguloCoxaEsquerda : K) ∧
  lerPonto g.pontosQuadril 2 =
    calcularPosicaoAtual T (lerPonto g.pontosCoxaEsquerda 2)
      pivoCoxaEsquerda (s.anguloCoxaEsquerda : K) ∧
  lerPonto g.pontosQuadril 4 =
    calcularPosicaoAtual T (lerPonto g.pontosCoxaDireita 6)
      pivoCoxaDireita (s.anguloCoxaDireita : K) ∧
  lerPonto g.pontosQuadril 3 =
    calcularPosicaoAtual T (lerPonto g.pontosCoxaDireita 2)
      pivoCoxaDireita (s.anguloCoxaDireita : K) ∧
  lerPonto g.pontosOmbroDireito 4 =
    calcularPosicaoAtual T (lerPonto g.pontosBracoDireito 0)
      pivoBracoDireito (s.anguloBracoDireito : K) ∧
  lerPonto g.pontosOmbroDireito 5 =
    calcularPosicaoAtual T (lerPonto g.pontosBracoDireito 3)
      pivoBracoDireito (s.anguloBracoDireito : K) ∧
  lerPonto g.pontosOmbroEsquerdo 4 =
    calcularPosicaoAtual T (lerPonto g.pontosBracoEsquerdo 0)
      pivoBracoEsquerdo (s.anguloBracoEsquerdo : K) ∧
  lerPonto g.pontosOmbroEsquerdo 5 =
    calcularPosicaoAtual T (lerPonto g.pontosBracoEsquerdo 3)
      pivoBracoEsquerdo (s.anguloBracoEsquerdo : K) ∧
  lerPonto g.pontosBracoDireito 1 =
    calcularPosicaoAtual T (if s.anguloAntebracoDireito ≤ -34 then lerPonto g.pontosAntebracoDireito 5
        else lerPonto g.pontosAntebracoDireito 0)
      pivoAntebracoDireito (s.anguloAntebracoDireito : K) ∧
  lerPonto g.pontosBracoEsquerdo 1 =
    calcularPosicaoAtual T (if s.anguloAntebracoEsquerdo ≥ 34 then lerPonto g.pontosAntebracoEsquerdo 5
        else lerPonto g.pontosAntebracoEsquerdo 0)
      pivoAntebracoEsquerdo (s.anguloAntebracoEsquerdo : K) ∧
  lerPonto g.pontosAntebracoDireito 1 =
    calcularPosicaoAtual T (lerPonto g.pontosMaoDireita 0)
      pivoMaoDireita (s.anguloMaoDireita : K) ∧
  lerPonto g.pontosAntebracoEsquerdo 1 =
    calcularPosicaoAtual T (lerPonto g.pontosMaoEsquerda 8)
      pivoMaoEsquerda (s.anguloMaoEsquerda : K) ∧
  lerPonto g.pontosCoxaDireita 3 =
    calcularPosicaoAtual T (lerPonto g.pontosPantDireita 1)
      pivoPantDireita (s.anguloPantDireita : K) ∧
  lerPonto g.pontosCoxaDireita 4 =
    calcularPosicaoAtual T (lerPonto g.pontosPantDireita 0)
      pivoPantDireita (s.anguloPantDireita : K) ∧
  lerPonto g.pontosCoxaEsquerda 3 =
    calcularPosicaoAtual T (lerPonto g.pontosPantEsquerda 1)
      pivoPantEsquerda (s.anguloPantEsquerda : K) ∧
  lerPonto g.pontosCoxaEsquerda 4 =
    calcularPosicaoAtual T (lerPonto g.pontosPantEsquerda 0)
      pivoPantEsquerda (s.anguloPantEsquerda : K) ∧
  lerPonto g.pontosPantDireita 2 =
    calcularPosicaoAtual T (lerPonto g.pontosPataDireita 1)
      pivoPataDireita (s.anguloPataDireita : K) ∧
  lerPonto g.pontosPantDireita 3 =
    calcularPosicaoAtual T (lerPonto g.pontosPataDireita 0)
      pivoPataDireita (s.anguloPataDireita : K) ∧
  lerPonto g.pontosPantEsquerda 2 =
    calcularPosicaoAtual T (lerPonto g.pontosPataEsquerda 1)
      pivoPataEsquerda (s.anguloPataEsquerda : K) ∧
  lerPonto g.pontosPantEsquerda 3 =
    calcularPosicaoAtual T (lerPonto g.pontosPataEsquerda 0)
      pivoPataEsquerda (s.anguloPataEsquerda : K)

/-- A rational stand-in for `math.h`, to run the geometry on concrete inputs:
Taylor polynomials for `cos` and `sin`, and `355 / 113` for `M_PI`. -/
def trigRacional : Trig ℚ where
  cos := fun x => 1 - x ^ 2 / 2 + x ^ 4 / 24 - x ^ 6 / 720
  sin := fun x => x - x ^ 3 / 6 + x ^ 5 / 120 - x ^ 7 / 5040
  pi := 355 / 113

/-- The gesture `g` is over in `t`: `animando`, the gesture flag and the side
flag are down, the phase is 0 and the two angles the gesture drove are 0. -/
def gestoTerminado (g : Gesto) (t : Estado) : Prop :=
  match g with
  | .acenoEsq =>
    t.animando = false ∧ t.acenando = false ∧ t.esq = false ∧ t.etapaAceno = 0 ∧
      t.anguloOmbroEsquerdo = 0 ∧ t.anguloAntebracoEsquerdo = 0
  | .acenoDir =>
    t.animando = false ∧ t.acenando = false ∧ t.dir = false ∧ t.etapaAceno = 0 ∧
      t.anguloOmbroDireito = 0 ∧ t.anguloAntebracoDireito = 0
  | .chuteEsq =>
    t.animando = false ∧ t.chutando = false ∧ t.esq = false ∧ t.etapaChute = 0 ∧
      t.anguloCoxaEsquerda = 0 ∧ t.anguloPantEsquerda = 0
  | .chuteDir =>
    t.animando = false ∧ t.chutando = false ∧ t.dir = false ∧ t.etapaChute = 0 ∧
      t.anguloCoxaDireita = 0 ∧ t.anguloPantDireita = 0

instance (g : Gesto) (t : Estado) : Decidable (gestoTerminado g t) := by
  unfold gestoTerminado
  cases g <;> infer_instance

/-- The trigger key of `g` has done its work in `t`: the joint angles of the
limb are 0, the gesture's phase is 0, and the side flag, the gesture flag and
`animando` are up. -/
def gestoDisparado (g : Gesto) (t : Estado) : Prop :=
  match g with
  | .acenoEsq =>
    t.anguloOmbroEsquerdo = 0 ∧ t.anguloBracoEsquerdo = 0 ∧ t.anguloAntebracoEsquerdo = 0 ∧
      t.anguloMaoEsquerda = 0 ∧ t.etapaAceno = 0 ∧
      t.esq = true ∧ t.acenando = true ∧ t.animando = true
  | .acenoDir =>
    t.anguloOmbroDireito = 0 ∧ t.anguloBracoDireito = 0 ∧ t.anguloAntebracoDireito = 0 ∧
      t.anguloMaoDireita = 0 ∧ t.etapaAceno = 0 ∧
      t.dir = true ∧ t.acenando = true ∧ t.animando = true
  | .chuteEsq =>
    t.anguloCoxaEsquerda = 0 ∧ t.anguloPantEsquerda = 0 ∧ t.anguloPataEsquerda = 0 ∧
      t.etapaChute = 0 ∧ t.esq = true ∧ t.chutando = true ∧ t.animando = true
  | .chuteDir =>
    t.anguloCoxaDireita = 0 ∧ t.anguloPantDireita = 0 ∧ t.anguloPataDireita = 0 ∧
      t.etapaChute = 0 ∧ t.dir = true ∧ t.chutando = true ∧ t.animando = true

instance (g : Gesto) (t : Estado) : Decidable (gestoDisparado g t) := by
  unfold gestoDisparado
  cases g <;> infer_instance

/-- The 17 joints, one per joint-angle variable (lines 819-839). -/
inductive Articulacao where
  | quadril
  | coxaDireita
  | coxaEsquerda
  | pantDireita
  | pantEsquerda
  | pataDireita
  | pataEsquerda
  | ombroDireito
  | ombroEsquerdo
  | bracoDireito
  | bracoEsquerdo
  | antebracoDireito
  | antebracoEsquerdo
  | maoDireita
  | maoEsquerda
  | cabeca
  | tronco
deriving DecidableEq, Repr

/-- The angle variable of a joint. -/
def Estado.angulo (s : Estado) : Articulacao → ℚ
  | .quadril => s.anguloQuadril
  | .coxaDireita => s.anguloCoxaDireita
  | .coxaEsquerda => s.anguloCoxaEsquerda
  | .pantDireita => s.anguloPantDireita
  | .pantEsquerda => s.anguloPantEsquerda
  | .pataDireita => s.anguloPataDireita
  | .pataEsquerda => s.anguloPataEsquerda
  | .ombroDireito => s.anguloOmbroDireito
  | .ombroEsquerdo => s.anguloOmbroEsquerdo
  | .bracoDireito => s.anguloBracoDireito
  | .bracoEsquerdo => s.anguloBracoEsquerdo
  | .antebracoDireito => s.anguloAntebracoDireito
  | .antebracoEsquerdo => s.anguloAntebracoEsquerdo
  | .maoDireita => s.anguloMaoDireita
  | .maoEsquerda => s.anguloMaoEsquerda
  | .cabeca => s.anguloCabeca
  | .tronco => s.anguloTronco

/-- The joints a wave tick may move: shoulder and forearm of the active side
and the head.  The right side is active when `dir` is up, and the left side
when `dir` is down and `esq` is up (the `if (dir) … else if (esq)` of
`animarAceno`). -/
def articulacoesDoAceno (s : Estado) : List Articulacao :=
  if s.dir then [.ombroDireito, .antebracoDireito, .cabeca]
  else if s.esq then [.ombroEsquerdo, .antebracoEsquerdo, .cabeca]
  else []

/-- The joints a kick tick may move: thigh and shin of each side whose flag is
up (the `if (dir) … if (esq)` of `animarChute`). -/
def articulacoesDoChute (s : Estado) : List Articulacao :=
  (if s.dir then [.coxaDireita, .pantDireita] else []) ++
    (if s.esq then [.coxaEsquerda, .pantEsquerda] else [])

/-- Pan and scale lie inside their limits (lines 880-882). -/
def panEscalaDentro (s : Estado) : Prop :=
  dentro s.xGroot limXGroot ∧ dentro s.yGroot limYGroot ∧ dentro s.escalaGroot limEscalaGroot

instance (s : Estado) : Decidable (panEscalaDentro s) := by
  unfold panEscalaDentro
  infer_instance

/-- The declared movement limit of a joint (lines 858-878), by name; the two
upper arms have none. -/
def limiteDe : Articulacao → Option tpLimite
  | .quadril => some limQuadril
  | .coxaDireita => some limCoxaDir
  | .coxaEsquerda => some limCoxaEsq
  | .pantDireita => some limPantDir
  | .pantEsquerda => some limPantEsq
  | .pataDireita => some limPataDir
  | .pataEsquerda => some limPataEsq
  | .ombroDireito => some limOmbroDir
  | .ombroEsquerdo => some limOmbroEsq
  | .bracoDireito => none
  | .bracoEsquerdo => none
  | .antebracoDireito => some limAntebracoDir
  | .antebracoEsquerdo => some limAntebracoEsq
  | .maoDireita => some limMaoDir
  | .maoEsquerda => some limMaoEsq
  | .cabeca => some limCabeca
  | .tronco => some limTronco

/-- The per-joint keys of `teclado`, in the order of its `switch`. -/
def teclasDeArticulacao : List Char :=
  ['q', 'w', 'e', 'r', 't', 'y', 'u', 'i', 'o', 'p', 'a', 's', 'd', 'f', 'g', 'h', 'j', 'k', 'l', 'z', 'x', 'c', 'v', 'b', 'n', 'm', '1', '2', '3', '4']

/-- The joint a per-joint key of `teclado` addresses and the signed step it
applies (lines 2092-2187). -/
def teclaArticulacao : Char → Option (Articulacao × ℚ)
  | 'q' => some (.ombroDireito, MOVESPEED)
  | 'w' => some (.ombroDireito, -MOVESPEED)
  | 'e' => some (.antebracoDireito, MOVESPEED)
  | 'r' => some (.antebracoDireito, -MOVESPEED)
  | 't' => some (.maoDireita, MOVESPEED)
  | 'y' => some (.maoDireita, -MOVESPEED)
  | 'u' => some (.ombroEsquerdo, MOVESPEED)
  | 'i' => some (.ombroEsquerdo, -MOVESPEED)
  | 'o' => some (.antebracoEsquerdo, MOVESPEED)
  | 'p' => some (.antebracoEsquerdo, -MOVESPEED)
  | 'a' => some (.maoEsquerda, MOVESPEED)
  | 's' => some (.maoEsquerda, -MOVESPEED)
  | 'd' => some (.coxaDireita, MOVESPEED)
  | 'f' => some (.coxaDireita, -MOVESPEED)
  | 'g' => some (.pantDireita, MOVESPEED)
  | 'h' => some (.pantDireita, -MOVESPEED)
  | 'j' => some (.pataDireita, MOVESPEED)
  | 'k' => some (.pataDireita, -MOVESPEED)
  | 'l' => some (.coxaEsquerda, MOVESPEED)
  | 'z' => some (.coxaEsquerda, -MOVESPEED)
  | 'x' => some (.pantEsquerda, MOVESPEED)
  | 'c' => some (.pantEsquerda, -MOVESPEED)
  | 'v' => some (.pataEsquerda, MOVESPEED)
  | 'b' => some (.pataEsquerda, -MOVESPEED)
  | 'n' => some (.quadril, MOVESPEED)
  | 'm' => some (.quadril, -MOVESPEED)
  | '1' => some (.tronco, MOVESPEED)
  | '2' => some (.tronco, -MOVESPEED)
  | '3' => some (.cabeca, MOVESPEED)
  | '4' => some (.cabeca, -MOVESPEED)
  | _ => none

/-- The whole mutable program state `ligarPartes` runs in: the scalar globals
and the point arrays. -/
structure Mundo (K : Type) where
  estado : Estado
  pontos : Pontos K

/-- The call `ligarPartes()` as a step of the whole program state: the function
assigns to entries of the point arrays and to nothing else. -/
def ligarPartesNoMundo {K : Type} [Field K] (T : Trig K) (m : Mundo K) : Mundo K :=
  { m with pontos := ligarPartes T m.estado m.pontos }

/-- The array `b` has the size of `a` and agrees with it at every index outside `ds`. -/
def mesmoForaDe {K : Type} [Zero K] (ds : List Nat) (a b : List (tpPonto2D K)) : Prop :=
  b.length = a.length ∧ ∀ i : Nat, i ∉ ds → lerPonto b i = lerPonto a i

/-- The point arrays `h` differ from `g` at most in the 26 seam destinations:
`pontosTronco[1,3,4,6,7,9]`, `pontosQuadril[1..4]`, `pontosOmbro*[4,5]`,
`pontosBraco*[1]`, `pontosAntebraco*[1]`, `pontosCoxa*[3,4]`, `pontosPant*[2,3]`. -/
def soCosturasMudam {K : Type} [Zero K] (g h : Pontos K) : Prop :=
  mesmoForaDe [1, 3, 4, 6, 7, 9] g.pontosTronco h.pontosTronco ∧
  mesmoForaDe [1, 2, 3, 4] g.pontosQuadril h.pontosQuadril ∧
  mesmoForaDe [4, 5] g.pontosOmbroEsquerdo h.pontosOmbroEsquerdo ∧
  mesmoForaDe [4, 5] g.pontosOmbroDireito h.pontosOmbroDireito ∧
  mesmoForaDe [1] g.pontosBracoDireito h.pontosBracoDireito ∧
  mesmoForaDe [1] g.pontosBracoEsquerdo h.pontosBracoEsquerdo ∧
  mesmoForaDe [1] g.pontosAntebracoDireito h.pontosAntebracoDireito ∧
  mesmoForaDe [1] g.pontosAntebracoEsquerdo h.pontosAntebracoEsquerdo ∧
  mesmoForaDe [] g.pontosMaoDireita h.pontosMaoDireita ∧
  mesmoForaDe [] g.pontosMaoEsquerda h.pontosMaoEsquerda ∧
  mesmoForaDe [3, 4] g.pontosCoxaDireita h.pontosCoxaDireita ∧
  mesmoForaDe [3, 4] g.pontosCoxaEsquerda h.pontosCoxaEsquerda ∧
  mesmoForaDe [2, 3] g.pontosPantDireita h.pontosPantDireita ∧
  mesmoForaDe [2, 3] g.pontosPantEsquerda h.pontosPantEsquerda ∧
  mesmoForaDe [] g.pontosPataDireita h.pontosPataDireita ∧
  mesmoForaDe [] g.pontosPataEsquerda h.pontosPataEsquerda

/-- One tick of the right wave in phase 2, from `s` to `t`: the forearm moves
by 5 in the current direction and stays between 40 and 120; the direction
becomes -1 at 120, 1 at 40 and is kept in between; the cycle counter counts the
ticks on which 40 is struck, and on the tick it reaches 3 the phase becomes 3
and the counter is reset. -/
def oscilaDireita (s t : Estado) : Prop :=
  (s.acenoDirDirecao = 1 ∨ s.acenoDirDirecao = -1) ∧
  t.anguloAntebracoDireito = s.anguloAntebracoDireito + (s.acenoDirDirecao : ℚ) * 5 ∧
  (40 ≤ t.anguloAntebracoDireito ∧ t.anguloAntebracoDireito ≤ 120) ∧
  (t.anguloAntebracoDireito = 120 → t.acenoDirDirecao = -1) ∧
  (t.anguloAntebracoDireito = 40 → t.acenoDirDirecao = 1) ∧
  (40 < t.anguloAntebracoDireito ∧ t.anguloAntebracoDireito < 120 →
    t.acenoDirDirecao = s.acenoDirDirecao) ∧
  (t.anguloAntebracoDireito = 40 ∧ s.acenoDirCiclo + 1 = 3 →
    t.etapaAceno = 3 ∧ t.acenoDirCiclo = 0) ∧
  (t.anguloAntebracoDireito = 40 ∧ s.acenoDirCiclo + 1 ≠ 3 →
    t.etapaAceno = 2 ∧ t.acenoDirCiclo = s.acenoDirCiclo + 1) ∧
  (t.anguloAntebracoDireito ≠ 40 → t.etapaAceno = 2 ∧ t.acenoDirCiclo = s.acenoDirCiclo)

instance (s t : Estado) : Decidable (oscilaDireita s t) := by
  unfold oscilaDireita
  infer_instance

/-- One tick of the left wave in phase 2, from `s` to `t`: the mirror image of
`oscilaDireita`, between -120 and -40, counting the ticks on which -40 is
struck. -/
def oscilaEsquerda (s t : Estado) : Prop :=
  (s.acenoEsqDirecao = 1 ∨ s.acenoEsqDirecao = -1) ∧
  t.anguloAntebracoEsquerdo = s.anguloAntebracoEsquerdo - (s.acenoEsqDirecao : ℚ) * 5 ∧
  (-120 ≤ t.anguloAntebracoEsquerdo ∧ t.anguloAntebracoEsquerdo ≤ -40) ∧
  (t.anguloAntebracoEsquerdo = -120 → t.acenoEsqDirecao = -1) ∧
  (t.anguloAntebracoEsquerdo = -40 → t.acenoEsqDirecao = 1) ∧
  (-120 < t.anguloAntebracoEsquerdo ∧ t.anguloAntebracoEsquerdo < -40 →
    t.acenoEsqDirecao = s.acenoEsqDirecao) ∧
  (t.anguloAntebracoEsquerdo = -40 ∧ s.acenoEsqCiclo + 1 = 3 →
    t.etapaAceno = 3 ∧ t.acenoEsqCiclo = 0) ∧
  (t.anguloAntebracoEsquerdo = -40 ∧ s.acenoEsqCiclo + 1 ≠ 3 →
    t.etapaAceno = 2 ∧ t.acenoEsqCiclo = s.acenoEsqCiclo + 1) ∧
  (t.anguloAntebracoEsquerdo ≠ -40 → t.etapaAceno = 2 ∧ t.acenoEsqCiclo = s.acenoEsqCiclo)

instance (s t : Estado) : Decidable (oscilaEsquerda s t) := by
  unfold oscilaEsquerda
  infer_instance

/-- The four function-local static pairs `(direcao, ciclo)` of `animarChute`
and `animarAceno` hold `(1, 0)`, the value of their initialisers. -/
def paresIniciais (s : Estado) : Prop :=
  (s.chuteDirDirecao = 1 ∧ s.chuteDirCiclo = 0) ∧ (s.chuteEsqDirecao = 1 ∧ s.chuteEsqCiclo = 0) ∧
  (s.acenoDirDirecao = 1 ∧ s.acenoDirCiclo = 0) ∧ (s.acenoEsqDirecao = 1 ∧ s.acenoEsqCiclo = 0)

instance (s : Estado) : Decidable (paresIniciais s) := by
  unfold paresIniciais
  infer_instance

/-- The joints the gesture functions drive while `g` runs (lines 1776-2048). -/
def articulacoesMovidas : Gesto → List Articulacao
  | .acenoEsq => [.ombroEsquerdo, .antebracoEsquerdo, .cabeca]
  | .acenoDir => [.ombroDireito, .antebracoDireito, .cabeca]
  | .chuteEsq => [.coxaEsquerda, .pantEsquerda]
  | .chuteDir => [.coxaDireita, .pantDireita]

/-- The joints whose angle the trigger key of `g` sets to 0 (lines 2225-2269). -/
def articulacoesZeradas : Gesto → List Articulacao
  | .acenoEsq =>
    [.ombroEsquerdo, .antebracoEsquerdo, .bracoEsquerdo, .maoEsquerda, .tronco, .cabeca]
  | .acenoDir =>
    [.ombroDireito, .antebracoDireito, .bracoDireito, .maoDireita, .tronco, .cabeca]
  | .chuteEsq => [.quadril, .coxaEsquerda, .pantEsquerda, .pataEsquerda, .tronco]
  | .chuteDir => [.quadril, .coxaDireita, .pantDireita, .pataDireita, .tronco]

/-- The arguments of `gluOrtho2D(left, right, bottom, top)`; the `float`
arguments convert to `GLdouble` without change. -/
structure Projecao where
  esquerda : ℚ
  direita : ℚ
  baixo : ℚ
  cima : ℚ

/-- Function `remodelar` (lines 1646-1664): the orthographic projection it
sets for a window of `largura` by `altura` pixels, computed in `float`. -/
def remodelar (largura altura : Int) : Projecao :=
  let proporcao : ℚ := arredondar32 (arredondar32 largura / arredondar32 altura)
  let zoom : ℚ := 12
  if proporcao > 1 then
    ⟨arredondar32 (-zoom * proporcao), arredondar32 (zoom * proporcao), -zoom, zoom⟩
  else
    ⟨-zoom, zoom, arredondar32 (-zoom / proporcao), arredondar32 (zoom / proporcao)⟩

/-- The 16 body parts whose point arrays `ligarPartes` reads or writes. -/
inductive Parte where
  | tronco
  | quadril
  | ombroEsquerdo
  | ombroDireito
  | bracoDireito
  | bracoEsquerdo
  | antebracoDireito
  | antebracoEsquerdo
  | maoDireita
  | maoEsquerda
  | coxaDireita
  | coxaEsquerda
  | pantDireita
  | pantEsquerda
  | pataDireita
  | pataEsquerda
deriving DecidableEq, Repr

/-- The declared point count of a body part (`numPontos...`). -/
def numPontosDe : Parte → Nat
  | .tronco => numPontosTronco
  | .quadril => numPontosQuadril
  | .ombroEsquerdo => numPontosOmbroEsquerdo
  | .ombroDireito => numPontosOmbroDireito
  | .bracoDireito => numPontosBracoDireito
  | .bracoEsquerdo => numPontosBracoEsquerdo
  | .antebracoDireito => numPontosAntebracoDireito
  | .antebracoEsquerdo => numPontosAntebracoEsquerdo
  | .maoDireita => numPontosMaoDireita
  | .maoEsquerda => numPontosMaoEsquerda
  | .coxaDireita => numPontosCoxaDireita
  | .coxaEsquerda => numPontosCoxaEsquerda
  | .pantDireita => numPontosPantDireita
  | .pantEsquerda => numPontosPantEsquerda
  | .pataDireita => numPontosPataDireita
  | .pataEsquerda => numPontosPataEsquerda

/-- The point array of a body part. -/
def Pontos.parte {K : Type} (g : Pontos K) : Parte → List (tpPonto2D K)
  | .tronco => g.pontosTronco
  | .quadril => g.pontosQuadril
  | .ombroEsquerdo => g.pontosOmbroEsquerdo
  | .ombroDireito => g.pontosOmbroDireito
  | .bracoDireito => g.pontosBracoDireito
  | .bracoEsquerdo => g.pontosBracoEsquerdo
  | .antebracoDireito => g.pontosAntebracoDireito
  | .antebracoEsquerdo => g.pontosAntebracoEsquerdo
  | .maoDireita => g.pontosMaoDireita
  | .maoEsquerda => g.pontosMaoEsquerda
  | .coxaDireita => g.pontosCoxaDireita
  | .coxaEsquerda => g.pontosCoxaEsquerda
  | .pantDireita => g.pontosPantDireita
  | .pantEsquerda => g.pontosPantEsquerda
  | .pataDireita => g.pontosPataDireita
  | .pataEsquerda => g.pontosPataEsquerda

/-- The arrays `g` with the array of the part `p` replaced by `l`. -/
def Pontos.comParte {K : Type} (g : Pontos K) (p : Parte) (l : List (tpPonto2D K)) :
    Pontos K :=
  match p with
  | .tronco => { g with pontosTronco := l }
  | .quadril => { g with pontosQuadril := l }
  | .ombroEsquerdo => { g with pontosOmbroEsquerdo := l }
  | .ombroDireito => { g with pontosOmbroDireito := l }
  | .bracoDireito => { g with pontosBracoDireito := l }
  | .bracoEsquerdo => { g with pontosBracoEsquerdo := l }
  | .antebracoDireito => { g with pontosAntebracoDireito := l }
  | .antebracoEsquerdo => { g with pontosAntebracoEsquerdo := l }
  | .maoDireita => { g with pontosMaoDireita := l }
  | .maoEsquerda => { g with pontosMaoEsquerda := l }
  | .coxaDireita => { g with pontosCoxaDireita := l }
  | .coxaEsquerda => { g with pontosCoxaEsquerda := l }
  | .pantDireita => { g with pontosPantDireita := l }
  | .pantEsquerda => { g with pontosPantEsquerda := l }
  | .pataDireita => { g with pontosPataDireita := l }
  | .pataEsquerda => { g with pontosPataEsquerda := l }

/-- The pivot of a body part (`pivo...`). -/
def pivoDe {K : Type} [Field K] : Parte → tpPonto2D K
  | .tronco => pivoTronco
  | .quadril => pivoQuadril
  | .ombroEsquerdo => pivoOmbroEsquerdo
  | .ombroDireito => pivoOmbroDireito
  | .bracoDireito => pivoBracoDireito
  | .bracoEsquerdo => pivoBracoEsquerdo
  | .antebracoDireito => pivoAntebracoDireito
  | .antebracoEsquerdo => pivoAntebracoEsquerdo
  | .maoDireita => pivoMaoDireita
  | .maoEsquerda => pivoMaoEsquerda
  | .coxaDireita => pivoCoxaDireita
  | .coxaEsquerda => pivoCoxaEsquerda
  | .pantDireita => pivoPantDireita
  | .pantEsquerda => pivoPantEsquerda
  | .pataDireita => pivoPataDireita
  | .pataEsquerda => pivoPataEsquerda

/-- The joint angle of a body part (`angulo...`). -/
def anguloDe (s : Estado) : Parte → ℚ
  | .tronco => s.anguloTronco
  | .quadril => s.anguloQuadril
  | .ombroEsquerdo => s.anguloOmbroEsquerdo
  | .ombroDireito => s.anguloOmbroDireito
  | .bracoDireito => s.anguloBracoDireito
  | .bracoEsquerdo => s.anguloBracoEsquerdo
  | .antebracoDireito => s.anguloAntebracoDireito
  | .antebracoEsquerdo => s.anguloAntebracoEsquerdo
  | .maoDireita => s.anguloMaoDireita
  | .maoEsquerda => s.anguloMaoEsquerda
  | .coxaDireita => s.anguloCoxaDireita
  | .coxaEsquerda => s.anguloCoxaEsquerda
  | .pantDireita => s.anguloPantDireita
  | .pantEsquerda => s.anguloPantEsquerda
  | .pataDireita => s.anguloPataDireita
  | .pataEsquerda => s.anguloPataEsquerda

/-- One assignment of `ligarPartes`: `destino[iDestino]` becomes
`calcularPosicaoAtual` of `fonte[iFonte]` about the pivot of `fonte` by the
angle of `fonte`. -/
structure Costura where
  destino : Parte
  iDestino : Nat
  fonte : Parte
  iFonte : Nat
deriving DecidableEq, Repr

/-- The 26 assignments of `ligarPartes` in source order (lines 1704-1750), with
`iDir` and `iEsq` the source indices the two conditional forearm seams read. -/
def costurasCom (iDir iEsq : Nat) : List Costura :=
  [⟨.tronco, 4, .quadril, 5⟩, ⟨.tronco, 6, .quadril, 0⟩, ⟨.tronco, 9, .ombroEsquerdo, 0⟩,
    ⟨.tronco, 7, .ombroEsquerdo, 7⟩, ⟨.tronco, 1, .ombroDireito, 0⟩,
    ⟨.tronco, 3, .ombroDireito, 7⟩, ⟨.quadril, 1, .coxaEsquerda, 5⟩,
    ⟨.quadril, 2, .coxaEsquerda, 2⟩, ⟨.quadril, 4, .coxaDireita, 6⟩,
    ⟨.quadril, 3, .coxaDireita, 2⟩, ⟨.ombroDireito, 4, .bracoDireito, 0⟩,
    ⟨.ombroDireito, 5, .bracoDireito, 3⟩, ⟨.ombroEsquerdo, 4, .bracoEsquerdo, 0⟩,
    ⟨.ombroEsquerdo, 5, .bracoEsquerdo, 3⟩, ⟨.bracoDireito, 1, .antebracoDireito, iDir⟩,
    ⟨.bracoEsquerdo, 1, .antebracoEsquerdo, iEsq⟩, ⟨.antebracoDireito, 1, .maoDireita, 0⟩,
    ⟨.antebracoEsquerdo, 1, .maoEsquerda, 8⟩, ⟨.coxaDireita, 3, .pantDireita, 1⟩,
    ⟨.coxaDireita, 4, .pantDireita, 0⟩, ⟨.coxaEsquerda, 3, .pantEsquerda, 1⟩,
    ⟨.coxaEsquerda, 4, .pantEsquerda, 0⟩, ⟨.pantDireita, 2, .pataDireita, 1⟩,
    ⟨.pantDireita, 3, .pataDireita, 0⟩, ⟨.pantEsquerda, 2, .pataEsquerda, 1⟩,
    ⟨.pantEsquerda, 3, .pataEsquerda, 0⟩]

/-- The 26 assignments of `ligarPartes` for the angles of `s`: the right forearm
seam reads index 5 when `anguloAntebracoDireito <= -34` and index 0 otherwise,
the left one index 5 when `anguloAntebracoEsquerdo >= 34` and index 0
otherwise (lines 1728-1731). -/
def costuras (s : Estado) : List Costura :=
  costurasCom (if s.anguloAntebracoDireito ≤ -34 then 5 else 0)
    (if s.anguloAntebracoEsquerdo ≥ 34 then 5 else 0)

/-- One assignment of `ligarPartes` carried out on the arrays `g`. -/
def aplicarCostura {K : Type} [Field K] (T : Trig K) (s : Estado) (g : Pontos K)
    (c : Costura) : Pontos K :=
  g.comParte c.destino
    (escreverPonto (g.parte c.destino) c.iDestino
      (calcularPosicaoAtual T (lerPonto (g.parte c.fonte) c.iFonte) (pivoDe c.fonte)
        (anguloDe s c.fonte : K)))

/-- Two assignments write different array entries and neither writes the
entry the other reads. -/
def Costura.independente (c d : Costura) : Prop :=
  (c.destino, c.iDestino) ≠ (d.destino, d.iDestino) ∧
  (c.destino, c.iDestino) ≠ (d.fonte, d.iFonte) ∧
  (d.destino, d.iDestino) ≠ (c.fonte, c.iFonte)

instance (c d : Costura) : Decidable (c.independente d) := by
  unfold Costura.independente
  infer_instance

end Groot

/-! ## The chroma key program (`Atividade 1/chromakeyFinal.c`)

The state after `abrirArquivos` and `lerCabecalhos` is the input; `exit(n)`
is the result `.error n`. -/

namespace ChromaKey

/-- Struct `tpPixel` (lines 23-28); the components are `unsigned char` values. -/
structure tpPixel where
  R : Nat
  G : Nat
  B : Nat
deriving DecidableEq, Repr

/-- The globals `validarDados` reads (lines 32-40): the two header magic
strings, maximum intensities and sizes as `lerCabecalhos` read them, and the
four numeric arguments as `abrirArquivos` stored them. -/
structure Entrada where
  infoB : String
  infoF : String
  maxValB : Nat
  maxValF : Nat
  nLinB : Int
  nLinF : Int
  nColB : Int
  nColF : Int
  provR : Int
  provG : Int
  provB : Int
  provTol : Int

/-- The globals `validarDados` sets (lines 38-39). -/
structure Chave where
  chaveR : Nat
  chaveG : Nat
  chaveB : Nat
  tolerancia : Int
deriving DecidableEq, Repr

/-- Function `validarDados` (lines 112-145). -/
def validarDados (e : Entrada) : Except Nat Chave :=
  if e.provR > 255 ∨ e.provR < 0 ∨ e.provG > 255 ∨ e.provG < 0 ∨ e.provB > 255 ∨ e.provB < 0 then
    .error 1
  else
    let chaveR := e.provR.toNat % 256
    let chaveG := e.provG.toNat % 256
    let chaveB := e.provB.toNat % 256
    let tolerancia : Int :=
      if e.provTol > 441 then 441 else if e.provTol < 0 then 0 else e.provTol
    if e.infoB ≠ e.infoF then .error 1
    else if e.nColF > e.nColB ∨ e.nLinF > e.nLinB then .error 1
    else if e.maxValB ≠ e.maxValF then .error 1
    else .ok ⟨chaveR, chaveG, chaveB, tolerancia⟩

/-- The image `criarImagem` writes: the three header lines and the pixel
lines, row by row. -/
structure Imagem where
  info : String
  nCol : Int
  nLin : Int
  maxVal : Nat
  linhas : List (List tpPixel)
deriving DecidableEq, Repr

/-- The pixel `criarImagem` prints at a position inside the foreground (lines
243-266), with `tolerancia` already squared. -/
def combinar (c : Chave) (tolerancia : Int) (fore back : tpPixel) : tpPixel :=
  let atualR : Int := fore.R
  let atualG : Int := fore.G
  let atualB : Int := fore.B
  let distancia : Int :=
    (atualR - c.chaveR) * (atualR - c.chaveR) + (atualG - c.chaveG) * (atualG - c.chaveG)
      + (atualB - c.chaveB) * (atualB - c.chaveB)
  if distancia < tolerancia then back
  else if distancia > tolerancia then fore
  else
    ⟨((back.R + fore.R) / 2) % 256, ((back.G + fore.G) / 2) % 256,
      ((back.B + fore.B) / 2) % 256⟩

/-- Function `criarImagem` (lines 229-281) on the two images as `guardaImagens`
stored them, `fore2D[i][j]` and `back2D[i][j]`. -/
def criarImagem (e : Entrada) (c : Chave) (fore2D back2D : Nat → Nat → tpPixel) : Imagem :=
  let tolerancia := c.tolerancia * c.tolerancia
  { info := "P3", nCol := e.nColB, nLin := e.nLinB, maxVal := e.maxValB,
    linhas := (List.range e.nLinB.toNat).map fun (i : Nat) =>
      (List.range e.nColB.toNat).map fun (j : Nat) =>
        if (i : Int) < e.nLinF ∧ (j : Int) < e.nColF then
          combinar c tolerancia (fore2D i j) (back2D i j)
        else back2D i j }

/-- Function `main` (lines 301-312) from `validarDados` on. -/
def principal (e : Entrada) (fore2D back2D : Nat → Nat → tpPixel) : Except Nat Imagem :=
  match validarDados e with
  | .error n => .error n
  | .ok c => .ok (criarImagem e c fore2D back2D)

/-- The pixel of the image at row `i`, column `j`, if the image has one there. -/
def Imagem.pixel (m : Imagem) (i j : Nat) : Option tpPixel :=
  match m.linhas[i]? with
  | some linha => linha[j]?
  | none => none

/-- Conversion of an `int` to `short int` (16 bits, two's complement), as the
assignments `provR = atoi(argv[4])` ... `provTol = atoi(argv[7])` perform it
(lines 40, 85-88). -/
def paraShort (n : Int) : Int :=
  (n + 32768) % 65536 - 32768

/-- The values `atoi` returns for the four numeric arguments `argv[4]`,
`argv[5]`, `argv[6]` and `argv[7]` (lines 85-88). -/
structure Argumentos where
  argR : Int
  argG : Int
  argB : Int
  argTol : Int

/-- What `lerCabecalhos` reads from the two files (lines 96-105). -/
structure Cabecalhos where
  infoB : String
  infoF : String
  maxValB : Nat
  maxValF : Nat
  nLinB : Int
  nLinF : Int
  nColB : Int
  nColF : Int

/-- The globals after `abrirArquivos` and `lerCabecalhos` (lines 85-88 and
96-105): the four arguments stored in the `short` globals, the headers as read. -/
def entradaDe (a : Argumentos) (h : Cabecalhos) : Entrada :=
  { infoB := h.infoB, infoF := h.infoF, maxValB := h.maxValB, maxValF := h.maxValF,
    nLinB := h.nLinB, nLinF := h.nLinF, nColB := h.nColB, nColF := h.nColF,
    provR := paraShort a.argR, provG := paraShort a.argG, provB := paraShort a.argB,
    provTol := paraShort a.argTol }

/-- Function `main` (lines 301-312) from the arguments and headers on. -/
def programa (a : Argumentos) (h : Cabecalhos) (fore2D back2D : Nat → Nat → tpPixel) :
    Except Nat Imagem :=
  principal (entradaDe a h) fore2D back2D

end ChromaKey

namespace Groot

/-! ## Theorems -/

/-! ### Frame of the gesture blocks -/

/-- The block `acenoDireito` reads and writes only what `enxerto .acenoDir` takes from its
first argument. -/
theorem acenoDireito_enxerto (c r : Estado) :
    acenoDireito (enxerto .acenoDir c r) = enxerto .acenoDir (acenoDireito c) r := by
  by_cases h0 : c.etapaAceno = 0
  · by_cases h : c.anguloOmbroDireito + MOVESPEED_ESPECIAL ≥ 90 <;>
      simp [acenoDireito, enxerto, controleDe, h0, h]
  by_cases h1 : c.etapaAceno = 1
  · by_cases h : c.anguloAntebracoDireito + MOVESPEED_ESPECIAL > 79 <;>
      simp [acenoDireito, enxerto, controleDe, h1, h]
  by_cases h2 : c.etapaAceno = 2
  · by_cases ha : c.anguloAntebracoDireito + (c.acenoDirDirecao : ℚ) * MOVESPEED_ESPECIAL ≥ 120 <;>
    by_cases hb : c.anguloAntebracoDireito + (c.acenoDirDirecao : ℚ) * MOVESPEED_ESPECIAL ≤ 40 <;>
    by_cases hc : c.acenoDirCiclo + 1 = 3 <;>
    by_cases hd : c.acenoDirCiclo = 3 <;>
      simp [acenoDireito, enxerto, controleDe, h2, ha, hb, hc, hd]
  by_cases h3 : c.etapaAceno = 3
  · by_cases ha : c.anguloOmbroDireito > 0 <;>
    by_cases hb : c.anguloOmbroDireito - MOVESPEED_ESPECIAL < 0 <;>
    by_cases hc : c.anguloAntebracoDireito > 0 <;>
    by_cases hd : c.anguloAntebracoDireito - MOVESPEED_ESPECIAL < 0 <;>
      simp [acenoDireito, enxerto, controleDe, h3, ha, hb, hc, hd]
  simp [acenoDireito, enxerto, controleDe, h0, h1, h2, h3]

/-- The block `acenoDireito` leaves `chutando` and, unless it ends the gesture, the side
flags as they are. -/
theorem acenoDireito_outros (c : Estado) :
    (acenoDireito c).chutando = c.chutando ∧ (acenoDireito c).esq = c.esq := by
  by_cases h0 : c.etapaAceno = 0
  · by_cases h : c.anguloOmbroDireito + MOVESPEED_ESPECIAL ≥ 90 <;>
      simp [acenoDireito, h0, h]
  by_cases h1 : c.etapaAceno = 1
  · by_cases h : c.anguloAntebracoDireito + MOVESPEED_ESPECIAL > 79 <;>
      simp [acenoDireito, h1, h]
  by_cases h2 : c.etapaAceno = 2
  · by_cases ha : c.anguloAntebracoDireito + (c.acenoDirDirecao : ℚ) * MOVESPEED_ESPECIAL ≥ 120 <;>
    by_cases hb : c.anguloAntebracoDireito + (c.acenoDirDirecao : ℚ) * MOVESPEED_ESPECIAL ≤ 40 <;>
    by_cases hc : c.acenoDirCiclo + 1 = 3 <;>
    by_cases hd : c.acenoDirCiclo = 3 <;>
      simp [acenoDireito, h2, ha, hb, hc, hd]
  by_cases h3 : c.etapaAceno = 3
  · by_cases ha : c.anguloOmbroDireito > 0 <;>
    by_cases hb : c.anguloOmbroDireito - MOVESPEED_ESPECIAL < 0 <;>
    by_cases hc : c.anguloAntebracoDireito > 0 <;>
    by_cases hd : c.anguloAntebracoDireito - MOVESPEED_ESPECIAL < 0 <;>
      simp [acenoDireito, h3, ha, hb, hc, hd]
  simp [acenoDireito, h0, h1, h2, h3]

/-- The block `acenoEsquerdo` reads and writes only what `enxerto .acenoEsq` takes from its
first argument. -/
theorem acenoEsquerdo_enxerto (c r : Estado) :
    acenoEsquerdo (enxerto .acenoEsq c r) = enxerto .acenoEsq (acenoEsquerdo c) r := by
  by_cases h0 : c.etapaAceno = 0
  · by_cases h : c.anguloOmbroEsquerdo - MOVESPEED_ESPECIAL ≤ -90 <;>
      simp [acenoEsquerdo, enxerto, controleDe, h0, h]
  by_cases h1 : c.etapaAceno = 1
  · by_cases h : c.anguloAntebracoEsquerdo - MOVESPEED_ESPECIAL < -80 <;>
      simp [acenoEsquerdo, enxerto, controleDe, h1, h]
  by_cases h2 : c.etapaAceno = 2
  · by_cases ha : c.anguloAntebracoEsquerdo - (c.acenoEsqDirecao : ℚ) * MOVESPEED_ESPECIAL ≤ -120 <;>
    by_cases hb : c.anguloAntebracoEsquerdo - (c.acenoEsqDirecao : ℚ) * MOVESPEED_ESPECIAL ≥ -40 <;>
    by_cases hc : c.acenoEsqCiclo + 1 = 3 <;>
    by_cases hd : c.acenoEsqCiclo = 3 <;>
      simp [acenoEsquerdo, enxerto, controleDe, h2, ha, hb, hc, hd]
  by_cases h3 : c.etapaAceno = 3
  · by_cases ha : c.anguloOmbroEsquerdo < 0 <;>
    by_cases hb : c.anguloOmbroEsquerdo + MOVESPEED_ESPECIAL > 0 <;>
    by_cases hc : c.anguloAntebracoEsquerdo < 0 <;>
    by_cases hd : c.anguloAntebracoEsquerdo + MOVESPEED_ESPECIAL > 0 <;>
      simp [acenoEsquerdo, enxerto, controleDe, h3, ha, hb, hc, hd]
  simp [acenoEsquerdo, enxerto, controleDe, h0, h1, h2, h3]

/-- The block `acenoEsquerdo` leaves `chutando` and, unless it ends the gesture, the side
flags as they are. -/
theorem acenoEsquerdo_outros (c : Estado) :
    (acenoEsquerdo c).chutando = c.chutando ∧ (acenoEsquerdo c).dir = c.dir := by
  by_cases h0 : c.etapaAceno = 0
  · by_cases h : c.anguloOmbroEsquerdo - MOVESPEED_ESPECIAL ≤ -90 <;>
      simp [acenoEsquerdo, h0, h]
  by_cases h1 : c.etapaAceno = 1
  · by_cases h : c.anguloAntebracoEsquerdo - MOVESPEED_ESPECIAL < -80 <;>
      simp [acenoEsquerdo, h1, h]
  by_cases h2 : c.etapaAceno = 2
  · by_cases ha : c.anguloAntebracoEsquerdo - (c.acenoEsqDirecao : ℚ) * MOVESPEED_ESPECIAL ≤ -120 <;>
    by_cases hb : c.anguloAntebracoEsquerdo - (c.acenoEsqDirecao : ℚ) * MOVESPEED_ESPECIAL ≥ -40 <;>
    by_cases hc : c.acenoEsqCiclo + 1 = 3 <;>
    by_cases hd : c.acenoEsqCiclo = 3 <;>
      simp [acenoEsquerdo, h2, ha, hb, hc, hd]
  by_cases h3 : c.etapaAceno = 3
  · by_cases ha : c.anguloOmbroEsquerdo < 0 <;>
    by_cases hb : c.anguloOmbroEsquerdo + MOVESPEED_ESPECIAL > 0 <;>
    by_cases hc : c.anguloAntebracoEsquerdo < 0 <;>
    by_cases hd : c.anguloAntebracoEsquerdo + MOVESPEED_ESPECIAL > 0 <;>
      simp [acenoEsquerdo, h3, ha, hb, hc, hd]
  simp [acenoEsquerdo, h0, h1, h2, h3]

/-- The block `chuteDireito` reads and writes only what `enxerto .chuteDir` takes from its
first argument. -/
theorem chuteDireito_enxerto (c r : Estado) :
    chuteDireito (enxerto .chuteDir c r) = enxerto .chuteDir (chuteDireito c) r := by
  by_cases h0 : c.etapaChute = 0
  · by_cases h : c.anguloCoxaDireita + MOVESPEED_ESPECIAL ≥ 45 <;>
      simp [chuteDireito, enxerto, controleDe, h0, h]
  by_cases h1 : c.etapaChute = 1
  · by_cases h : c.anguloPantDireita + MOVESPEED_ESPECIAL ≥ 10 <;>
      simp [chuteDireito, enxerto, controleDe, h1, h]
  by_cases h2 : c.etapaChute = 2
  · by_cases ha : c.anguloPantDireita + (c.chuteDirDirecao : ℚ) * MOVESPEED_ESPECIAL ≥ 10 <;>
    by_cases hb : c.anguloPantDireita + (c.chuteDirDirecao : ℚ) * MOVESPEED_ESPECIAL ≤ -30 <;>
    by_cases hc : c.chuteDirCiclo + 1 = 1 <;>
    by_cases hd : c.chuteDirCiclo = 1 <;>
      simp [chuteDireito, enxerto, controleDe, h2, ha, hb, hc, hd]
  by_cases h3 : c.etapaChute = 3
  · by_cases ha : c.anguloCoxaDireita > 0 <;>
    by_cases hb : c.anguloCoxaDireita - MOVESPEED_ESPECIAL < 0 <;>
    by_cases hc : c.anguloPantDireita < 0 <;>
    by_cases hd : c.anguloPantDireita + MOVESPEED_ESPECIAL > 0 <;>
      simp [chuteDireito, enxerto, controleDe, h3, ha, hb, hc, hd]
  simp [chuteDireito, enxerto, controleDe, h0, h1, h2, h3]

/-- The block `chuteDireito` leaves `acenando` and, unless it ends the gesture, the side
flags as they are. -/
theorem chuteDireito_outros (c : Estado) :
    (chuteDireito c).acenando = c.acenando ∧ (chuteDireito c).esq = c.esq := by
  by_cases h0 : c.etapaChute = 0
  · by_cases h : c.anguloCoxaDireita + MOVESPEED_ESPECIAL ≥ 45 <;>
      simp [chuteDireito, h0, h]
  by_cases h1 : c.etapaChute = 1
  · by_cases h : c.anguloPantDireita + MOVESPEED_ESPECIAL ≥ 10 <;>
      simp [chuteDireito, h1, h]
  by_cases h2 : c.etapaChute = 2
  · by_cases ha : c.anguloPantDireita + (c.chuteDirDirecao : ℚ) * MOVESPEED_ESPECIAL ≥ 10 <;>
    by_cases hb : c.anguloPantDireita + (c.chuteDirDirecao : ℚ) * MOVESPEED_ESPECIAL ≤ -30 <;>
    by_cases hc : c.chuteDirCiclo + 1 = 1 <;>
    by_cases hd : c.chuteDirCiclo = 1 <;>
      simp [chuteDireito, h2, ha, hb, hc, hd]
  by_cases h3 : c.etapaChute = 3
  · by_cases ha : c.anguloCoxaDireita > 0 <;>
    by_cases hb : c.anguloCoxaDireita - MOVESPEED_ESPECIAL < 0 <;>
    by_cases hc : c.anguloPantDireita < 0 <;>
    by_cases hd : c.anguloPantDireita + MOVESPEED_ESPECIAL > 0 <;>
      simp [chuteDireito, h3, ha, hb, hc, hd]
  simp [chuteDireito, h0, h1, h2, h3]

/-- The block `chuteEsquerdo` reads and writes only what `enxerto .chuteEsq` takes from its
first argument. -/
theorem chuteEsquerdo_enxerto (c r : Estado) :
    chuteEsquerdo (enxerto .chuteEsq c r) = enxerto .chuteEsq (chuteEsquerdo c) r := by
  by_cases h0 : c.etapaChute = 0
  · by_cases h : c.anguloCoxaEsquerda - MOVESPEED_ESPECIAL ≤ -45 <;>
      simp [chuteEsquerdo, enxerto, controleDe, h0, h]
  by_cases h1 : c.etapaChute = 1
  · by_cases h : c.anguloPantEsquerda + MOVESPEED_ESPECIAL ≥ 30 <;>
      simp [chuteEsquerdo, enxerto, controleDe, h1, h]
  by_cases h2 : c.etapaChute = 2
  · by_cases ha : c.anguloPantEsquerda - (c.chuteEsqDirecao : ℚ) * MOVESPEED_ESPECIAL ≤ -20 <;>
    by_cases hb : c.anguloPantEsquerda - (c.chuteEsqDirecao : ℚ) * MOVESPEED_ESPECIAL ≥ 30 <;>
    by_cases hc : c.chuteEsqCiclo + 1 = 5 <;>
    by_cases hd : c.chuteEsqCiclo = 5 <;>
      simp [chuteEsquerdo, enxerto, controleDe, h2, ha, hb, hc, hd]
  by_cases h3 : c.etapaChute = 3
  · by_cases ha : c.anguloCoxaEsquerda < 0 <;>
    by_cases hb : c.anguloCoxaEsquerda + MOVESPEED_ESPECIAL > 0 <;>
    by_cases hc : c.anguloPantEsquerda > 0 <;>
    by_cases hd : c.anguloPantEsquerda - MOVESPEED_ESPECIAL < 0 <;>
      simp [chuteEsquerdo, enxerto, controleDe, h3, ha, hb, hc, hd]
  simp [chuteEsquerdo, enxerto, controleDe, h0, h1, h2, h3]

/-- The block `chuteEsquerdo` leaves `acenando` and, unless it ends the gesture, the side
flags as they are. -/
theorem chuteEsquerdo_outros (c : Estado) :
    (chuteEsquerdo c).acenando = c.acenando ∧ (chuteEsquerdo c).dir = c.dir := by
  by_cases h0 : c.etapaChute = 0
  · by_cases h : c.anguloCoxaEsquerda - MOVESPEED_ESPECIAL ≤ -45 <;>
      simp [chuteEsquerdo, h0, h]
  by_cases h1 : c.etapaChute = 1
  · by_cases h : c.anguloPantEsquerda + MOVESPEED_ESPECIAL ≥ 30 <;>
      simp [chuteEsquerdo, h1, h]
  by_cases h2 : c.etapaChute = 2
  · by_cases ha : c.anguloPantEsquerda - (c.chuteEsqDirecao : ℚ) * MOVESPEED_ESPECIAL ≤ -20 <;>
    by_cases hb : c.anguloPantEsquerda - (c.chuteEsqDirecao : ℚ) * MOVESPEED_ESPECIAL ≥ 30 <;>
    by_cases hc : c.chuteEsqCiclo + 1 = 5 <;>
    by_cases hd : c.chuteEsqCiclo = 5 <;>
      simp [chuteEsquerdo, h2, ha, hb, hc, hd]
  by_cases h3 : c.etapaChute = 3
  · by_cases ha : c.anguloCoxaEsquerda < 0 <;>
    by_cases hb : c.anguloCoxaEsquerda + MOVESPEED_ESPECIAL > 0 <;>
    by_cases hc : c.anguloPantEsquerda > 0 <;>
    by_cases hd : c.anguloPantEsquerda - MOVESPEED_ESPECIAL < 0 <;>
      simp [chuteEsquerdo, h3, ha, hb, hc, hd]
  simp [chuteEsquerdo, h0, h1, h2, h3]

theorem animarAceno_inativo (s : Estado) (h : s.acenando = false) : animarAceno s = s := by
  simp [animarAceno, h]

theorem animarChute_inativo (s : Estado) (h : s.chutando = false) : animarChute s = s := by
  simp [animarChute, h]

theorem idle_inativo (s : Estado) (ha : s.acenando = false) (hc : s.chutando = false) :
    idle s = s := by
  rw [idle, animarAceno_inativo s ha, animarChute_inativo s hc]

theorem enxerto_controle (g : Gesto) (c r : Estado) :
    (enxerto g c r).esq = c.esq ∧ (enxerto g c r).dir = c.dir ∧
      (enxerto g c r).animando = c.animando ∧ (enxerto g c r).acenando = c.acenando ∧
      (enxerto g c r).etapaAceno = c.etapaAceno ∧ (enxerto g c r).chutando = c.chutando ∧
      (enxerto g c r).etapaChute = c.etapaChute := by
  cases g <;> exact ⟨rfl, rfl, rfl, rfl, rfl, rfl, rfl⟩

/-- One idle tick acts on the part of the state the selected gesture owns. -/
theorem idle_enxerto (g : Gesto) (c r : Estado) (h : Selecionado g c) :
    idle (enxerto g c r) = enxerto g (idle c) r := by
  obtain ⟨e1, e2, -, e4, -, e6, -⟩ := enxerto_controle g c r
  rcases h with ⟨ha, hc⟩ | h
  · rw [idle_inativo c ha hc, idle_inativo _ (e4.trans ha) (e6.trans hc)]
  · cases g
    · obtain ⟨ha, hc, he, hd⟩ := h
      have k1 : animarAceno c = acenoEsquerdo c := by simp [animarAceno, ha, he, hd]
      have k2 : animarAceno (enxerto .acenoEsq c r) = acenoEsquerdo (enxerto .acenoEsq c r) := by
        simp [animarAceno, e1, e2, e4, ha, he, hd]
      have k3 := (acenoEsquerdo_outros c).1
      rw [idle, idle, k1, k2, acenoEsquerdo_enxerto, animarChute_inativo _ (k3.trans hc),
        animarChute_inativo _ (((enxerto_controle _ _ r).2.2.2.2.2.1.trans k3).trans hc)]
    · obtain ⟨ha, hc, he, hd⟩ := h
      have k1 : animarAceno c = acenoDireito c := by simp [animarAceno, ha, hd]
      have k2 : animarAceno (enxerto .acenoDir c r) = acenoDireito (enxerto .acenoDir c r) := by
        simp [animarAceno, e1, e2, e4, ha, hd]
      have k3 := (acenoDireito_outros c).1
      rw [idle, idle, k1, k2, acenoDireito_enxerto, animarChute_inativo _ (k3.trans hc),
        animarChute_inativo _ (((enxerto_controle _ _ r).2.2.2.2.2.1.trans k3).trans hc)]
    · obtain ⟨ha, hc, he, hd⟩ := h
      have k1 : animarChute c = chuteEsquerdo c := by simp [animarChute, hc, he, hd]
      have k2 : animarChute (enxerto .chuteEsq c r) = chuteEsquerdo (enxerto .chuteEsq c r) := by
        simp [animarChute, e1, e2, e6, hc, he, hd]
      rw [idle, idle, animarAceno_inativo c ha, animarAceno_inativo _ (e4.trans ha), k1, k2,
        chuteEsquerdo_enxerto]
    · obtain ⟨ha, hc, he, hd⟩ := h
      have k3 := (chuteDireito_outros c).2
      have k1 : animarChute c = chuteDireito c := by simp [animarChute, hc, hd, k3, he]
      have k2 : animarChute (enxerto .chuteDir c r) = chuteDireito (enxerto .chuteDir c r) := by
        have k4 := (chuteDireito_outros (enxerto .chuteDir c r)).2
        simp [animarChute, e1, e2, e6, hc, hd, k4, he]
      rw [idle, idle, animarAceno_inativo c ha, animarAceno_inativo _ (e4.trans ha), k1, k2,
        chuteDireito_enxerto]

/-- Iterated form of `idle_enxerto`. -/
theorem idle_iterate_enxerto (g : Gesto) (c r : Estado) (n : Nat)
    (h : ∀ i < n, Selecionado g (idle^[i] c)) :
    idle^[n] (enxerto g c r) = enxerto g (idle^[n] c) r := by
  induction n with
  | zero => rfl
  | succ n ih =>
    rw [Function.iterate_succ_apply', Function.iterate_succ_apply',
      ih (fun i hi => h i (Nat.lt_succ_of_lt hi)), idle_enxerto g _ r (h n (Nat.lt_succ_self n))]

/-! ### The four gestures, run on the initialisers -/

theorem trajetoria_emGesto (g : Gesto) :
    ∀ i < duracao g, EmGesto g (idle^[i] (inicioGesto g)) := by
  cases g <;> decide!

theorem trajetoria_fim (g : Gesto) :
    Repouso (idle^[duracao g] (inicioGesto g)) ∧
      dentroDosLimites (idle^[duracao g] (inicioGesto g)) ∧
      (idle^[duracao g] (inicioGesto g)).angulos = List.replicate 17 0 := by
  cases g <;> decide!

/-! ### Triggering a gesture at rest -/

theorem tecladoEspecial_disparar (r : Estado) (g : Gesto) (h : r.animando = false) :
    tecladoEspecial r g.tecla = some (disparar r g) := by
  cases g <;> simp [disparar, tecladoEspecial, h, Gesto.tecla, GLUT_KEY_F1, GLUT_KEY_F2,
    GLUT_KEY_F3, GLUT_KEY_F4]

theorem disparar_enxerto (r : Estado) (g : Gesto) (h : Repouso r) :
    disparar r g = enxerto g (inicioGesto g) (disparar r g) := by
  obtain ⟨h1, h2, h3, h4, h5, h6, h7, h8, h9, h10, h11, h12, h13, h14, h15⟩ := h
  cases r
  simp only at h1 h2 h3 h4 h5 h6 h7 h8 h9 h10 h11 h12 h13 h14 h15
  subst h1 h2 h3 h4 h5 h6 h7 h8 h9 h10 h11 h12 h13 h14 h15
  cases g <;> rfl

theorem repouso_enxerto (g : Gesto) (c r : Estado) (h : Repouso c) :
    Repouso (enxerto g c r) := by
  cases g <;> exact h

theorem dentroDosLimites_enxerto (g : Gesto) (c r : Estado) (hc : dentroDosLimites c)
    (hr : dentroDosLimites r) : dentroDosLimites (enxerto g c r) := by
  obtain ⟨c1, c2, c3, c4, c5, c6, c7, c8, c9, c10, c11, c12, c13, c14, c15⟩ := hc
  obtain ⟨r1, r2, r3, r4, r5, r6, r7, r8, r9, r10, r11, r12, r13, r14, r15⟩ := hr
  cases g
  · exact ⟨c1, r2, c3, r4, r5, r6, r7, r8, r9, r10, r11, r12, r13, r14, c15⟩
  · exact ⟨r1, c2, r3, c4, r5, r6, r7, r8, r9, r10, r11, r12, r13, r14, c15⟩
  · exact ⟨r1, r2, r3, r4, r5, r6, c7, r8, c9, r10, r11, r12, r13, r14, r15⟩
  · exact ⟨r1, r2, r3, r4, r5, r6, r7, c8, r9, c10, r11, r12, r13, r14, r15⟩

theorem limitesSalvoGesto_enxerto (g : Gesto) (c r : Estado) (hc : limitesSalvoGesto c)
    (hr : dentroDosLimites r) : limitesSalvoGesto (enxerto g c r) := by
  obtain ⟨c1, c2, c3, c4, c5, c6, c7, c8, c9, c10, c11, c12, c13, c14, c15⟩ := hc
  obtain ⟨r1, r2, r3, r4, r5, r6, r7, r8, r9, r10, r11, r12, r13, r14, r15⟩ := hr
  cases g
  · exact ⟨c1, r2, c3, .inl r4, r5, r6, r7, r8, .inl r9, .inl r10, r11, r12, r13, r14, c15⟩
  · exact ⟨r1, c2, .inl r3, c4, r5, r6, r7, r8, .inl r9, .inl r10, r11, r12, r13, r14, c15⟩
  · exact ⟨r1, r2, .inl r3, .inl r4, r5, r6, c7, r8, c9, .inl r10, r11, r12, r13, r14, r15⟩
  · exact ⟨r1, r2, .inl r3, .inl r4, r5, r6, r7, c8, .inl r9, c10, r11, r12, r13, r14, r15⟩

theorem dentroDosLimites_limitesSalvoGesto (s : Estado) (h : dentroDosLimites s) :
    limitesSalvoGesto s := by
  obtain ⟨r1, r2, r3, r4, r5, r6, r7, r8, r9, r10, r11, r12, r13, r14, r15⟩ := h
  exact ⟨r1, r2, .inl r3, .inl r4, r5, r6, r7, r8, .inl r9, .inl r10, r11, r12, r13, r14, r15⟩

theorem dentro_zero :
    dentro 0 limOmbroEsq ∧ dentro 0 limOmbroDir ∧ dentro 0 limAntebracoEsq ∧
      dentro 0 limAntebracoDir ∧ dentro 0 limMaoEsq ∧ dentro 0 limMaoDir ∧
      dentro 0 limCoxaEsq ∧ dentro 0 limCoxaDir ∧ dentro 0 limPantEsq ∧ dentro 0 limPantDir ∧
      dentro 0 limPataEsq ∧ dentro 0 limPataDir ∧ dentro 0 limQuadril ∧ dentro 0 limTronco ∧
      dentro 0 limCabeca := by
  decide!

theorem dentroDosLimites_disparar (r : Estado) (g : Gesto) (h : dentroDosLimites r) :
    dentroDosLimites (disparar r g) := by
  by_cases ha : r.animando = true
  · have : disparar r g = r := by simp [disparar, tecladoEspecial, ha]
    rw [this]
    exact h
  · have ha' : r.animando = false := by simpa using ha
    have e := tecladoEspecial_disparar r g ha'
    obtain ⟨r1, r2, r3, r4, r5, r6, r7, r8, r9, r10, r11, r12, r13, r14, r15⟩ := h
    obtain ⟨z1, z2, z3, z4, z5, z6, z7, z8, z9, z10, z11, z12, z13, z14, z15⟩ := dentro_zero
    cases g <;>
      simp only [tecladoEspecial, ha', Gesto.tecla, GLUT_KEY_F1, GLUT_KEY_F2, GLUT_KEY_F3,
        GLUT_KEY_F4, Bool.false_eq_true, if_false, if_true, Option.some.injEq] at e <;>
      norm_num at e <;>
      rw [← e] <;>
      refine ⟨?_, ?_, ?_, ?_, ?_, ?_, ?_, ?_, ?_, ?_, ?_, ?_, ?_, ?_, ?_⟩ <;>
      assumption

/-- The state `i` ticks into a gesture triggered at rest: the gesture's own part
is that of the run on the initialisers, the rest is as the trigger left it. -/
theorem gesto_enxerto (r : Estado) (g : Gesto) (i : Nat) (hr : Repouso r)
    (hi : i ≤ duracao g) :
    idle^[i] (disparar r g) = enxerto g (idle^[i] (inicioGesto g)) (disparar r g) := by
  have e := idle_iterate_enxerto g (inicioGesto g) (disparar r g) i
    (fun j hj => Or.inr (trajetoria_emGesto g j (lt_of_lt_of_le hj hi)).1)
  rw [← disparar_enxerto r g hr] at e
  exact e

/-- The end of a gesture triggered at rest. -/
theorem gesto_termina (r : Estado) (g : Gesto) (hr : Repouso r) :
    gestoTerminado g (idle^[duracao g] (disparar r g)) := by
  rw [gesto_enxerto r g _ hr (Nat.le_refl _)]
  obtain ⟨h1, -, h3⟩ := trajetoria_fim g
  generalize idle^[duracao g] (inicioGesto g) = c at h1 h3 ⊢
  generalize disparar r g = u
  obtain ⟨f1, f2, f3, f4, f5, f6, f7, -⟩ := h1
  simp only [Estado.angulos, List.replicate, List.cons.injEq, and_true] at h3
  obtain ⟨-, a2, a3, a4, a5, -, -, a8, a9, -, -, a12, a13, -, -, -, -⟩ := h3
  cases g
  · exact ⟨f3, f4, f1, f5, a9, a13⟩
  · exact ⟨f3, f4, f2, f5, a8, a12⟩
  · exact ⟨f3, f6, f1, f7, a3, a5⟩
  · exact ⟨f3, f6, f2, f7, a2, a4⟩

/-! ### Keys at rest and during a gesture -/

theorem dentro_restringirMov (v : ℚ) (l : tpLimite) (h : l.min ≤ l.max) :
    dentro (restringirMov v l) l := by
  unfold restringirMov dentro
  split_ifs with h1 h2
  · exact ⟨h, le_refl _⟩
  · exact ⟨le_refl _, h⟩
  · exact ⟨not_lt.mp h2, not_lt.mp h1⟩

theorem limites_ordenados :
    limOmbroEsq.min ≤ limOmbroEsq.max ∧ limOmbroDir.min ≤ limOmbroDir.max ∧
      limAntebracoEsq.min ≤ limAntebracoEsq.max ∧ limAntebracoDir.min ≤ limAntebracoDir.max ∧
      limMaoEsq.min ≤ limMaoEsq.max ∧ limMaoDir.min ≤ limMaoDir.max ∧
      limCoxaEsq.min ≤ limCoxaEsq.max ∧ limCoxaDir.min ≤ limCoxaDir.max ∧
      limPantEsq.min ≤ limPantEsq.max ∧ limPantDir.min ≤ limPantDir.max ∧
      limPataEsq.min ≤ limPataEsq.max ∧ limPataDir.min ≤ limPataDir.max ∧
      limQuadril.min ≤ limQuadril.max ∧ limTronco.min ≤ limTronco.max ∧
      limCabeca.min ≤ limCabeca.max := by
  decide!

theorem teclado_animando (s : Estado) (c : Char) (h : s.animando = true) :
    teclado s c = some s := by
  simp [teclado, h]

theorem tecladoEspecial_animando (s : Estado) (k : Int) (h : s.animando = true) :
    tecladoEspecial s k = some s := by
  simp [tecladoEspecial, h]

theorem teclado_repouso (s t : Estado) (c : Char) (hr : Repouso s) (hl : dentroDosLimites s)
    (h : teclado s c = some t) : Repouso t ∧ dentroDosLimites t := by
  have ha : s.animando = false := hr.2.2.1
  have hl' := hl
  obtain ⟨r1, r2, r3, r4, r5, r6, r7, r8, r9, r10, r11, r12, r13, r14, r15⟩ := hl'
  obtain ⟨z1, z2, z3, z4, z5, z6, z7, z8, z9, z10, z11, z12, z13, z14, z15⟩ := dentro_zero
  obtain ⟨o1, o2, o3, o4, o5, o6, o7, o8, o9, o10, o11, o12, o13, o14, o15⟩ := limites_ordenados
  unfold teclado at h
  rw [if_neg (by simp [ha])] at h
  split at h
  · obtain rfl := Option.some.inj h
    exact ⟨hr, r1, dentro_restringirMov _ _ o2, r3, r4, r5, r6, r7, r8, r9, r10, r11, r12, r13,
      r14, r15⟩
  · obtain rfl := Option.some.inj h
    exact ⟨hr, r1, dentro_restringirMov _ _ o2, r3, r4, r5, r6, r7, r8, r9, r10, r11, r12, r13,
      r14, r15⟩
  · obtain rfl := Option.some.inj h
    exact ⟨hr, r1, r2, r3, dentro_restringirMov _ _ o4, r5, r6, r7, r8, r9, r10, r11, r12, r13,
      r14, r15⟩
  · obtain rfl := Option.some.inj h
    exact ⟨hr, r1, r2, r3, dentro_restringirMov _ _ o4, r5, r6, r7, r8, r9, r10, r11, r12, r13,
      r14, r15⟩
  · obtain rfl := Option.some.inj h
    exact ⟨hr, r1, r2, r3, r4, r5, dentro_restringirMov _ _ o6, r7, r8, r9, r10, r11, r12, r13,
      r14, r15⟩
  · obtain rfl := Option.some.inj h
    exact ⟨hr, r1, r2, r3, r4, r5, dentro_restringirMov _ _ o6, r7, r8, r9, r10, r11, r12, r13,
      r14, r15⟩
  · obtain rfl := Option.some.inj h
    exact ⟨hr, dentro_restringirMov _ _ o1, r2, r3, r4, r5, r6, r7, r8, r9, r10, r11, r12, r13,
      r14, r15⟩
  · obtain rfl := Option.some.inj h
    exact ⟨hr, dentro_restringirMov _ _ o1, r2, r3, r4, r5, r6, r7, r8, r9, r10, r11, r12, r13,
      r14, r15⟩
  · obtain rfl := Option.some.inj h
    exact ⟨hr, r1, r2, dentro_restringirMov _ _ o3, r4, r5, r6, r7, r8, r9, r10, r11, r12, r13,
      r14, r15⟩
  · obtain rfl := Option.some.inj h
    exact ⟨hr, r1, r2, dentro_restringirMov _ _ o3, r4, r5, r6, r7, r8, r9, r10, r11, r12, r13,
      r14, r15⟩
  · obtain rfl := Option.some.inj h
    exact ⟨hr, r1, r2, r3, r4, dentro_restringirMov _ _ o5, r6, r7, r8, r9, r10, r11, r12, r13,
      r14, r15⟩
  · obtain rfl := Option.some.inj h
    exact ⟨hr, r1, r2, r3, r4, dentro_restringirMov _ _ o5, r6, r7, r8, r9, r10, r11, r12, r13,
      r14, r15⟩
  · obtain rfl := Option.some.inj h
    exact ⟨hr, r1, r2, r3, r4, r5, r6, r7, dentro_restringirMov _ _ o8, r9, r10, r11, r12, r13,
      r14, r15⟩
  · obtain rfl := Option.some.inj h
    exact ⟨hr, r1, r2, r3, r4, r5, r6, r7, dentro_restringirMov _ _ o8, r9, r10, r11, r12, r13,
      r14, r15⟩
  · obtain rfl := Option.some.inj h
    exact ⟨hr, r1, r2, r3, r4, r5, r6, r7, r8, r9, dentro_restringirMov _ _ o10, r11, r12, r13,
      r14, r15⟩
  · obtain rfl := Option.some.inj h
    exact ⟨hr, r1, r2, r3, r4, r5, r6, r7, r8, r9, dentro_restringirMov _ _ o10, r11, r12, r13,
      r14, r15⟩
  · obtain rfl := Option.some.inj h
    exact ⟨hr, r1, r2, r3, r4, r5, r6, r7, r8, r9, r10, r11, dentro_restringirMov _ _ o12, r13,
      r14, r15⟩
  · obtain rfl := Option.some.inj h
    exact ⟨hr, r1, r2, r3, r4, r5, r6, r7, r8, r9, r10, r11, dentro_restringirMov _ _ o12, r13,
      r14, r15⟩
  · obtain rfl := Option.some.inj h
    exact ⟨hr, r1, r2, r3, r4, r5, r6, dentro_restringirMov _ _ o7, r8, r9, r10, r11, r12, r13,
      r14, r15⟩
  · obtain rfl := Option.some.inj h
    exact ⟨hr, r1, r2, r3, r4, r5, r6, dentro_restringirMov _ _ o7, r8, r9, r10, r11, r12, r13,
      r14, r15⟩
  · obtain rfl := Option.some.inj h
    exact ⟨hr, r1, r2, r3, r4, r5, r6, r7, r8, dentro_restringirMov _ _ o9, r10, r11, r12, r13,
      r14, r15⟩
  · obtain rfl := Option.some.inj h
    exact ⟨hr, r1, r2, r3, r4, r5, r6, r7, r8, dentro_restringirMov _ _ o9, r10, r11, r12, r13,
      r14, r15⟩
  · obtain rfl := Option.some.inj h
    exact ⟨hr, r1, r2, r3, r4, r5, r6, r7, r8, r9, r10, dentro_restringirMov _ _ o11, r12, r13,
      r14, r15⟩
  · obtain rfl := Option.some.inj h
    exact ⟨hr, r1, r2, r3, r4, r5, r6, r7, r8, r9, r10, dentro_restringirMov _ _ o11, r12, r13,
      r14, r15⟩
  · obtain rfl := Option.some.inj h
    exact ⟨hr, r1, r2, r3, r4, r5, r6, r7, r8, r9, r10, r11, r12, dentro_restringirMov _ _ o13,
      r14, r15⟩
  · obtain rfl := Option.some.inj h
    exact ⟨hr, r1, r2, r3, r4, r5, r6, r7, r8, r9, r10, r11, r12, dentro_restringirMov _ _ o13,
      r14, r15⟩
  · obtain rfl := Option.some.inj h
    exact ⟨hr, r1, r2, r3, r4, r5, r6, r7, r8, r9, r10, r11, r12, r13,
      dentro_restringirMov _ _ o14, r15⟩
  · obtain rfl := Option.some.inj h
    exact ⟨hr, r1, r2, r3, r4, r5, r6, r7, r8, r9, r10, r11, r12, r13,
      dentro_restringirMov _ _ o14, r15⟩
  · obtain rfl := Option.some.inj h
    exact ⟨hr, r1, r2, r3, r4, r5, r6, r7, r8, r9, r10, r11, r12, r13, r14,
      dentro_restringirMov _ _ o15⟩
  · obtain rfl := Option.some.inj h
    exact ⟨hr, r1, r2, r3, r4, r5, r6, r7, r8, r9, r10, r11, r12, r13, r14,
      dentro_restringirMov _ _ o15⟩
  · obtain rfl := Option.some.inj h
    exact ⟨hr, z1, z2, z3, z4, z5, z6, z7, z8, z9, z10, z11, z12, z13, z14, z15⟩
  · cases h
  · obtain rfl := Option.some.inj h
    exact ⟨hr, hl⟩

theorem tecladoEspecial_repouso (s t : Estado) (k : Int) (hr : Repouso s)
    (hl : dentroDosLimites s) (h : tecladoEspecial s k = some t) :
    (Repouso t ∧ dentroDosLimites t) ∨ ∃ g : Gesto, t = disparar s g := by
  have ha : s.animando = false := hr.2.2.1
  by_cases k1 : k = GLUT_KEY_F1
  · exact .inr ⟨.acenoEsq, Option.some.inj
      ((h.symm.trans (by rw [k1]; rfl)).trans (tecladoEspecial_disparar s .acenoEsq ha))⟩
  by_cases k2 : k = GLUT_KEY_F2
  · exact .inr ⟨.acenoDir, Option.some.inj
      ((h.symm.trans (by rw [k2]; rfl)).trans (tecladoEspecial_disparar s .acenoDir ha))⟩
  by_cases k3 : k = GLUT_KEY_F3
  · exact .inr ⟨.chuteEsq, Option.some.inj
      ((h.symm.trans (by rw [k3]; rfl)).trans (tecladoEspecial_disparar s .chuteEsq ha))⟩
  by_cases k4 : k = GLUT_KEY_F4
  · exact .inr ⟨.chuteDir, Option.some.inj
      ((h.symm.trans (by rw [k4]; rfl)).trans (tecladoEspecial_disparar s .chuteDir ha))⟩
  left
  unfold tecladoEspecial at h
  rw [if_neg (by simp [ha]), if_neg k1, if_neg k2, if_neg k3, if_neg k4] at h
  split_ifs at h <;>
    (obtain rfl := Option.some.inj h
     exact ⟨hr, hl⟩)

/-! ### The invariant of the event loop -/

theorem inv_emGesto (r : Estado) (g : Gesto) (i : Nat) (hr : Repouso r)
    (hl : dentroDosLimites r) (hi : i < duracao g) :
    EmGesto g (idle^[i] (disparar r g)) := by
  rw [gesto_enxerto r g i hr (Nat.le_of_lt hi)]
  obtain ⟨hb, ha, hlim⟩ := trajetoria_emGesto g i hi
  refine ⟨?_, ?_, limitesSalvoGesto_enxerto g _ _ hlim (dentroDosLimites_disparar r g hl)⟩
  · cases g <;> exact hb
  · cases g <;> exact ha

theorem inv_fim (r : Estado) (g : Gesto) (hr : Repouso r) (hl : dentroDosLimites r) :
    Repouso (idle^[duracao g] (disparar r g)) ∧
      dentroDosLimites (idle^[duracao g] (disparar r g)) := by
  rw [gesto_enxerto r g _ hr (Nat.le_refl _)]
  obtain ⟨h1, h2, -⟩ := trajetoria_fim g
  exact ⟨repouso_enxerto g _ _ h1,
    dentroDosLimites_enxerto g _ _ h2 (dentroDosLimites_disparar r g hl)⟩

theorem duracao_pos (g : Gesto) : 0 < duracao g := by
  cases g <;> decide

theorem inv_animando (s : Estado) (h : Inv s) (ha : s.animando = true) :
    ∃ (g : Gesto) (r : Estado) (i : Nat),
      Repouso r ∧ dentroDosLimites r ∧ i < duracao g ∧ s = idle^[i] (disparar r g) := by
  rcases h with ⟨hr, -⟩ | h
  · rw [hr.2.2.1] at ha
    cases ha
  · exact h

theorem inv_parado (s : Estado) (h : Inv s) (ha : s.animando = false) :
    Repouso s ∧ dentroDosLimites s := by
  rcases h with h | ⟨g, r, i, hr, hl, hi, rfl⟩
  · exact h
  · rw [(inv_emGesto r g i hr hl hi).2.1] at ha
    cases ha

theorem inv_passo (s t : Estado) (e : Evento) (h : Inv s) (hp : passo s e = some t) :
    Inv t := by
  cases e with
  | tecla c =>
    cases ha : s.animando with
    | true =>
      rw [passo, teclado_animando s c ha] at hp
      obtain rfl := Option.some.inj hp
      exact h
    | false =>
      obtain ⟨hr, hl⟩ := inv_parado s h ha
      exact .inl (teclado_repouso s t c hr hl hp)
  | especial k =>
    cases ha : s.animando with
    | true =>
      rw [passo, tecladoEspecial_animando s k ha] at hp
      obtain rfl := Option.some.inj hp
      exact h
    | false =>
      obtain ⟨hr, hl⟩ := inv_parado s h ha
      rcases tecladoEspecial_repouso s t k hr hl hp with h' | ⟨g, rfl⟩
      · exact .inl h'
      · exact .inr ⟨g, s, 0, hr, hl, duracao_pos g, rfl⟩
  | ocioso =>
    obtain rfl : idle s = t := Option.some.inj hp
    rcases h with ⟨hr, hl⟩ | ⟨g, r, i, hr, hl, hi, rfl⟩
    · rw [idle_inativo s hr.2.2.2.1 hr.2.2.2.2.2.1]
      exact .inl ⟨hr, hl⟩
    · rw [← Function.iterate_succ_apply' idle i]
      rcases Nat.lt_or_ge (i + 1) (duracao g) with hlt | hge
      · exact .inr ⟨g, r, i.succ, hr, hl, hlt, rfl⟩
      · have e : i.succ = duracao g := Nat.le_antisymm hi hge
        rw [e]
        exact .inl (inv_fim r g hr hl)

theorem inv_executar (es : List Evento) (s t : Estado) (h : Inv s)
    (he : executar s es = some t) : Inv t := by
  induction es generalizing s with
  | nil =>
    obtain rfl := Option.some.inj he
    exact h
  | cons e es ih =>
    rw [executar] at he
    cases hp : passo s e with
    | none =>
      rw [hp] at he
      cases he
    | some u =>
      rw [hp] at he
      exact ih u (inv_passo s u e h hp) he

theorem inv_inicial : Inv estadoInicial :=
  .inl (by decide!)

/-- Every state the event loop reaches is at rest within the joint limits or
part-way through a gesture triggered at rest within the joint limits. -/
theorem inv_alcancavel (s : Estado) (h : Alcancavel s) : Inv s := by
  obtain ⟨es, he⟩ := h
  exact inv_executar es estadoInicial s inv_inicial he

theorem executar_ociosos (s : Estado) (n : Nat) :
    executar s (List.replicate n Evento.ocioso) = some (idle^[n] s) := by
  induction n generalizing s with
  | zero => rfl
  | succ n ih =>
    rw [List.replicate_succ, executar, passo, Option.some_bind, ih, Function.iterate_succ_apply]

/-- A gesture triggered at rest and run for `n` ticks, as an event sequence. -/
theorem executar_gesto (s : Estado) (g : Gesto) (n : Nat) (h : s.animando = false) :
    executar s (Evento.especial g.tecla :: List.replicate n Evento.ocioso) =
      some (idle^[n] (disparar s g)) := by
  rw [executar, passo, tecladoEspecial_disparar s g h, Option.some_bind, executar_ociosos]

/-! ### Array reads and writes, rotation by coordinates -/

theorem lerPonto_escreverPonto_mesmo {K : Type} [Zero K] (a : List (tpPonto2D K)) (i : Nat)
    (p : tpPonto2D K) (h : i < a.length) : lerPonto (escreverPonto a i p) i = p := by
  simp [lerPonto, escreverPonto, List.getD_eq_getElem?_getD, List.getElem?_set, h]

theorem lerPonto_escreverPonto_outro {K : Type} [Zero K] (a : List (tpPonto2D K)) (i j : Nat)
    (p : tpPonto2D K) (h : i ≠ j) : lerPonto (escreverPonto a i p) j = lerPonto a j := by
  simp [lerPonto, escreverPonto, List.getD_eq_getElem?_getD, List.getElem?_set, h]

theorem length_escreverPonto {K : Type} (a : List (tpPonto2D K)) (i : Nat)
    (p : tpPonto2D K) : (escreverPonto a i p).length = a.length := by
  simp [escreverPonto]

/-- C1 (seam invariant): for every assignment of the joint angles and every
prior content of the point arrays (of their declared sizes), after one call of
`ligarPartes` each of the 26 seam pairs holds: the dependent point equals
`calcularPosicaoAtual` of the source point as it stands after the call, about
the source part's pivot by the source part's current angle. -/
theorem ligarPartes_costuras {K : Type} [Field K] (T : Trig K) (s : Estado) (g : Pontos K)
    (h : g.tamanhosDeclarados) : costurasLigadas T s (ligarPartes T s g) := by
  obtain ⟨h1, h2, h3, h4, h5, h6, h7, h8, h9, h10, h11, h12, h13, h14, h15, h16⟩ := h
  simp only [numPontosTronco, numPontosQuadril, numPontosOmbroEsquerdo, numPontosOmbroDireito,
    numPontosBracoDireito, numPontosBracoEsquerdo, numPontosAntebracoDireito,
    numPontosAntebracoEsquerdo, numPontosMaoDireita, numPontosMaoEsquerda, numPontosCoxaDireita,
    numPontosCoxaEsquerda, numPontosPantDireita, numPontosPantEsquerda, numPontosPataDireita,
    numPontosPataEsquerda] at *
  simp [costurasLigadas, ligarPartes, lerPonto_escreverPonto_mesmo, lerPonto_escreverPonto_outro,
    length_escreverPonto, *]

/-- Witness for C1: the initial point arrays and angles. -/
theorem ligarPartes_costuras_witness :
    (pontosIniciais : Pontos ℚ).tamanhosDeclarados ∧
      costurasLigadas trigRacional estadoInicial
        (ligarPartes trigRacional estadoInicial pontosIniciais) :=
  ⟨⟨rfl, rfl, rfl, rfl, rfl, rfl, rfl, rfl, rfl, rfl, rfl, rfl, rfl, rfl, rfl, rfl⟩,
    ligarPartes_costuras trigRacional estadoInicial pontosIniciais
      ⟨rfl, rfl, rfl, rfl, rfl, rfl, rfl, rfl, rfl, rfl, rfl, rfl, rfl, rfl, rfl, rfl⟩⟩

/-- C3, as stated, fails: `main` starts with `tecladoEspecial(GLUT_KEY_F1)`; 20
idle ticks later the left forearm angle is -10, below the minimum -8 of
`limAntebracoEsq`. -/
theorem limites_violados_no_aceno :
    ∃ s : Estado,
      executar estadoInicial
          (Evento.especial GLUT_KEY_F1 :: List.replicate 20 Evento.ocioso) = some s ∧
        Alcancavel s ∧ s.anguloAntebracoEsquerdo = -10 ∧ limAntebracoEsq.min = -8 ∧
        ¬ dentroDosLimites s := by
  have e : executar estadoInicial
      (Evento.especial GLUT_KEY_F1 :: List.replicate 20 Evento.ocioso) =
      some (idle^[20] (disparar estadoInicial .acenoEsq)) :=
    executar_gesto estadoInicial .acenoEsq 20 rfl
  exact ⟨_, e, ⟨_, e⟩, by decide!, by decide!, by decide!⟩

/-- C3 (amended): in every reachable state every joint angle lies inside its
declared limit, except that the forearm of a waving arm ranges over `[0, 120]`
(right) or `[-120, 0]` (left) and the shin of a kicking leg over `[-45, 15]`
(right) or `[-20, 50]` (left); in every reachable state with `animando = false`
all of them lie inside their limits. -/
theorem limites_salvo_gesto (s : Estado) (h : Alcancavel s) :
    limitesSalvoGesto s ∧ (s.animando = false → dentroDosLimites s) := by
  have hi := inv_alcancavel s h
  refine ⟨?_, fun ha => (inv_parado s hi ha).2⟩
  rcases hi with ⟨-, hl⟩ | ⟨g, r, i, hr, hl, hlt, rfl⟩
  · exact dentroDosLimites_limitesSalvoGesto s hl
  · exact (inv_emGesto r g i hr hl hlt).2.2

/-- Witness for C3 (amended): the state 20 ticks into the left wave `main`
starts with, where the left forearm is outside its limit. -/
theorem limites_salvo_gesto_witness :
    Alcancavel (idle^[20] (disparar estadoInicial .acenoEsq)) ∧
      (idle^[20] (disparar estadoInicial .acenoEsq)).anguloAntebracoEsquerdo = -10 ∧
      limitesSalvoGesto (idle^[20] (disparar estadoInicial .acenoEsq)) ∧
      ((idle^[20] (disparar estadoInicial .acenoEsq)).animando = false →
        dentroDosLimites (idle^[20] (disparar estadoInicial .acenoEsq))) :=
  ⟨⟨_, executar_gesto estadoInicial .acenoEsq 20 rfl⟩, by decide!,
    limites_salvo_gesto _ ⟨_, executar_gesto estadoInicial .acenoEsq 20 rfl⟩⟩

/-! ### Gesture termination (C4, C5) -/

/-- C4 (gesture termination, wave right): from any reachable state with
`animando = false`, pressing F2 and then ticking reaches, after at most 141
ticks, a state with `animando`, `acenando` and `dir` false, `etapaAceno = 0` and
both `anguloOmbroDireito` and `anguloAntebracoDireito` exactly 0. -/
theorem aceno_direito_termina (s : Estado) (hs : Alcancavel s) (ha : s.animando = false) :
    ∃ s0 : Estado, tecladoEspecial s GLUT_KEY_F2 = some s0 ∧
      ∃ N : Nat, N ≤ 141 ∧
        (idle^[N] s0).animando = false ∧ (idle^[N] s0).acenando = false ∧
        (idle^[N] s0).dir = false ∧ (idle^[N] s0).etapaAceno = 0 ∧
        (idle^[N] s0).anguloOmbroDireito = 0 ∧ (idle^[N] s0).anguloAntebracoDireito = 0 := by
  obtain ⟨hr, -⟩ := inv_parado s (inv_alcancavel s hs) ha
  exact ⟨disparar s .acenoDir, tecladoEspecial_disparar s .acenoDir ha, 141, Nat.le_refl _,
    gesto_termina s .acenoDir hr⟩

/-- Witness for C4: the initial state. -/
theorem aceno_direito_termina_witness :
    Alcancavel estadoInicial ∧ estadoInicial.animando = false ∧
      ∃ s0 : Estado, tecladoEspecial estadoInicial GLUT_KEY_F2 = some s0 ∧
        ∃ N : Nat, N ≤ 141 ∧
          (idle^[N] s0).animando = false ∧ (idle^[N] s0).acenando = false ∧
          (idle^[N] s0).dir = false ∧ (idle^[N] s0).etapaAceno = 0 ∧
          (idle^[N] s0).anguloOmbroDireito = 0 ∧ (idle^[N] s0).anguloAntebracoDireito = 0 :=
  ⟨⟨[], rfl⟩, rfl, aceno_direito_termina estadoInicial ⟨[], rfl⟩ rfl⟩

/-- C5 (every gesture terminates): for each of the four triggers pressed in a
reachable state with `animando = false` there is a number `N` of idle ticks
after which `animando`, the gesture flag and the side flag are false, the phase
is 0 and the two joint angles the gesture drove are exactly 0. -/
theorem todo_gesto_termina (s : Estado) (g : Gesto) (hs : Alcancavel s)
    (ha : s.animando = false) :
    ∃ s0 : Estado, tecladoEspecial s g.tecla = some s0 ∧
      ∃ N : Nat, gestoTerminado g (idle^[N] s0) := by
  obtain ⟨hr, -⟩ := inv_parado s (inv_alcancavel s hs) ha
  exact ⟨disparar s g, tecladoEspecial_disparar s g ha, duracao g, gesto_termina s g hr⟩

/-- Witness for C5: the left kick from the initial state. -/
theorem todo_gesto_termina_witness :
    Alcancavel estadoInicial ∧ estadoInicial.animando = false ∧
      ∃ s0 : Estado, tecladoEspecial estadoInicial Gesto.chuteEsq.tecla = some s0 ∧
        ∃ N : Nat, gestoTerminado .chuteEsq (idle^[N] s0) :=
  ⟨⟨[], rfl⟩, rfl, todo_gesto_termina estadoInicial .chuteEsq ⟨[], rfl⟩ rfl⟩

/-! ### The rotation helper over the reals (C6 - C8) -/

/-- C9 (mutual exclusion of manual control): in a state with `animando = true`
every key leaves the state, and so all 17 joint angles, unchanged. -/
theorem teclado_nao_move_durante_gesto (s : Estado) (tecla : Char) (h : s.animando = true) :
    ∃ t : Estado, teclado s tecla = some t ∧ t.angulos = s.angulos ∧ t = s :=
  ⟨s, teclado_animando s tecla h, rfl, rfl⟩

/-- Witness for C9: key `q` in the state `main` leaves, the left wave triggered. -/
theorem teclado_nao_move_durante_gesto_witness :
    (inicioGesto .acenoEsq).animando = true ∧
      ∃ t : Estado, teclado (inicioGesto .acenoEsq) 'q' = some t ∧
        t.angulos = (inicioGesto .acenoEsq).angulos ∧ t = inicioGesto .acenoEsq :=
  ⟨by decide!, teclado_nao_move_durante_gesto (inicioGesto .acenoEsq) 'q' (by decide!)⟩

/-- C10 (at most one gesture at a time): in every reachable state `acenando`
and `chutando` are not both true, `esq` and `dir` are not both true, and
`animando` is true exactly when a gesture flag and a side flag are true. -/
theorem um_gesto_por_vez (s : Estado) (hs : Alcancavel s) :
    ¬ (s.acenando = true ∧ s.chutando = true) ∧
      ¬ (s.esq = true ∧ s.dir = true) ∧
      (s.animando = true ↔
        (s.acenando = true ∨ s.chutando = true) ∧ (s.esq = true ∨ s.dir = true)) := by
  rcases inv_alcancavel s hs with ⟨hr, -⟩ | ⟨g, r, i, hr, hl, hlt, rfl⟩
  · obtain ⟨f1, f2, f3, f4, -, f6, -⟩ := hr
    simp [f1, f2, f3, f4, f6]
  · obtain ⟨hb, ha, -⟩ := inv_emGesto r g i hr hl hlt
    cases g <;> obtain ⟨b1, b2, b3, b4⟩ := hb <;> simp [b1, b2, b3, b4, ha]

/-- Witness for C10: the state 25 ticks into the right kick, triggered in the
initial state. -/
theorem um_gesto_por_vez_witness :
    Alcancavel (idle^[25] (disparar estadoInicial .chuteDir)) ∧
      (idle^[25] (disparar estadoInicial .chuteDir)).animando = true ∧
      ¬ ((idle^[25] (disparar estadoInicial .chuteDir)).acenando = true ∧
        (idle^[25] (disparar estadoInicial .chuteDir)).chutando = true) ∧
      ¬ ((idle^[25] (disparar estadoInicial .chuteDir)).esq = true ∧
        (idle^[25] (disparar estadoInicial .chuteDir)).dir = true) ∧
      ((idle^[25] (disparar estadoInicial .chuteDir)).animando = true ↔
        ((idle^[25] (disparar estadoInicial .chuteDir)).acenando = true ∨
            (idle^[25] (disparar estadoInicial .chuteDir)).chutando = true) ∧
          ((idle^[25] (disparar estadoInicial .chuteDir)).esq = true ∨
            (idle^[25] (disparar estadoInicial .chuteDir)).dir = true)) :=
  ⟨⟨_, executar_gesto estadoInicial .chuteDir 25 rfl⟩, by decide!,
    um_gesto_por_vez _ ⟨_, executar_gesto estadoInicial .chuteDir 25 rfl⟩⟩

/-! ### Keys during a gesture, reset and triggers (C11, C12, C14) -/

/-- C11 (special keys are inert during a gesture): in every state with
`animando = true`, `tecladoEspecial` with any key code (the triggers F1-F4, the
arrows, F12 and every other code) leaves the whole state unchanged. -/
theorem tecladoEspecial_inerte_durante_gesto (s : Estado) (tecla : Int)
    (h : s.animando = true) : tecladoEspecial s tecla = some s :=
  tecladoEspecial_animando s tecla h

/-- Witness for C11: F2 pressed while the left wave `main` triggered is running. -/
theorem tecladoEspecial_inerte_durante_gesto_witness :
    (inicioGesto .acenoEsq).animando = true ∧
      tecladoEspecial (inicioGesto .acenoEsq) GLUT_KEY_F2 = some (inicioGesto .acenoEsq) :=
  ⟨by decide!,
    tecladoEspecial_inerte_durante_gesto (inicioGesto .acenoEsq) GLUT_KEY_F2 (by decide!)⟩

/-- C12 (reset): in every state with `animando = false`, key `0` sets each of
the 17 joint angles to 0 and leaves `xGroot`, `yGroot` and `escalaGroot` as they
were. -/
theorem teclado_zero_reinicia (s : Estado) (h : s.animando = false) :
    ∃ t : Estado, teclado s '0' = some t ∧ t.angulos = List.replicate 17 0 ∧
      t.xGroot = s.xGroot ∧ t.yGroot = s.yGroot ∧ t.escalaGroot = s.escalaGroot := by
  have e : teclado s '0' = some { s with
      anguloOmbroDireito := 0, anguloOmbroEsquerdo := 0,
      anguloBracoDireito := 0, anguloBracoEsquerdo := 0,
      anguloAntebracoDireito := 0, anguloAntebracoEsquerdo := 0,
      anguloMaoDireita := 0, anguloMaoEsquerda := 0,
      anguloCoxaDireita := 0, anguloCoxaEsquerda := 0,
      anguloPantDireita := 0, anguloPantEsquerda := 0,
      anguloPataDireita := 0, anguloPataEsquerda := 0,
      anguloQuadril := 0, anguloTronco := 0, anguloCabeca := 0 } := by
    simp [teclado, h]
  exact ⟨_, e, rfl, rfl, rfl, rfl⟩

/-- Witness for C12: three presses of `q` and a pan to the left, then key `0`. -/
theorem teclado_zero_reinicia_witness :
    ({ estadoInicial with anguloOmbroDireito := 9, xGroot := -1 / 2 } : Estado).animando = false ∧
      ∃ t : Estado,
        teclado { estadoInicial with anguloOmbroDireito := 9, xGroot := -1 / 2 } '0' = some t ∧
        t.angulos = List.replicate 17 0 ∧
        t.xGroot = ({ estadoInicial with anguloOmbroDireito := 9, xGroot := -1 / 2 } : Estado).xGroot ∧
        t.yGroot = ({ estadoInicial with anguloOmbroDireito := 9, xGroot := -1 / 2 } : Estado).yGroot ∧
        t.escalaGroot =
          ({ estadoInicial with anguloOmbroDireito := 9, xGroot := -1 / 2 } : Estado).escalaGroot :=
  ⟨rfl, teclado_zero_reinicia { estadoInicial with anguloOmbroDireito := 9, xGroot := -1 / 2 } rfl⟩

/-- C14 (gesture triggers reset the limb and activate): in every state with
`animando = false`, the trigger key of a gesture sets the joint angles of its
limb to 0 (wave: shoulder, arm, forearm and hand of the side; kick: thigh, shin
and foot of the side), sets the gesture's phase to 0 and raises the side flag,
the gesture flag and `animando`. -/
theorem gatilho_reinicia_e_ativa (s : Estado) (g : Gesto) (h : s.animando = false) :
    ∃ t : Estado, tecladoEspecial s g.tecla = some t ∧ gestoDisparado g t := by
  refine ⟨disparar s g, tecladoEspecial_disparar s g h, ?_⟩
  have e := tecladoEspecial_disparar s g h
  cases g <;>
    simp only [tecladoEspecial, h, Gesto.tecla, GLUT_KEY_F1, GLUT_KEY_F2, GLUT_KEY_F3,
      GLUT_KEY_F4, Bool.false_eq_true, if_false, if_true, Option.some.injEq] at e <;>
    norm_num at e <;>
    rw [← e] <;>
    simp [gestoDisparado]

/-- Witness for C14: F4 in a state at rest with the right leg posed. -/
theorem gatilho_reinicia_e_ativa_witness :
    ({ estadoInicial with anguloCoxaDireita := 6 } : Estado).animando = false ∧
      ∃ t : Estado,
        tecladoEspecial { estadoInicial with anguloCoxaDireita := 6 } Gesto.chuteDir.tecla =
          some t ∧ gestoDisparado .chuteDir t :=
  ⟨rfl, gatilho_reinicia_e_ativa { estadoInicial with anguloCoxaDireita := 6 } .chuteDir rfl⟩

/-! ### What the gesture functions leave alone -/

theorem enxerto_mesmo (g : Gesto) (s : Estado) : enxerto g s s = s := by
  cases g <;> rfl

/-- Fields outside the gesture's own part are those of the second argument. -/
theorem enxerto_pan (g : Gesto) (c r : Estado) :
    (enxerto g c r).xGroot = r.xGroot ∧ (enxerto g c r).yGroot = r.yGroot ∧
      (enxerto g c r).escalaGroot = r.escalaGroot := by
  cases g <;> exact ⟨rfl, rfl, rfl⟩

theorem animarAceno_dir (s : Estado) (h : s.dir = true) :
    animarAceno s = enxerto .acenoDir (animarAceno s) s := by
  cases ha : s.acenando with
  | false => rw [animarAceno_inativo s ha, enxerto_mesmo]
  | true =>
    have k : animarAceno s = acenoDireito s := by simp [animarAceno, ha, h]
    rw [k]
    conv_lhs => rw [← enxerto_mesmo .acenoDir s, acenoDireito_enxerto]

theorem animarAceno_esq (s : Estado) (h : s.dir = false) :
    animarAceno s = enxerto .acenoEsq (animarAceno s) s := by
  cases ha : s.acenando with
  | false => rw [animarAceno_inativo s ha, enxerto_mesmo]
  | true =>
    cases he : s.esq with
    | false =>
      have k : animarAceno s = s := by simp [animarAceno, ha, h, he]
      rw [k, enxerto_mesmo]
    | true =>
      have k : animarAceno s = acenoEsquerdo s := by simp [animarAceno, ha, h, he]
      rw [k]
      conv_lhs => rw [← enxerto_mesmo .acenoEsq s, acenoEsquerdo_enxerto]

theorem chuteDireito_quadro (s : Estado) :
    chuteDireito s = enxerto .chuteDir (chuteDireito s) s := by
  conv_lhs => rw [← enxerto_mesmo .chuteDir s, chuteDireito_enxerto]

theorem chuteEsquerdo_quadro (s : Estado) :
    chuteEsquerdo s = enxerto .chuteEsq (chuteEsquerdo s) s := by
  conv_lhs => rw [← enxerto_mesmo .chuteEsq s, chuteEsquerdo_enxerto]

/-- The four ways `animarChute` can run, by the side flags. -/
theorem animarChute_casos (s : Estado) :
    animarChute s = s ∨
      (s.dir = true ∧ s.esq = false ∧ animarChute s = chuteDireito s) ∨
      (s.dir = false ∧ s.esq = true ∧ animarChute s = chuteEsquerdo s) ∨
      (s.dir = true ∧ s.esq = true ∧ animarChute s = chuteEsquerdo (chuteDireito s)) := by
  cases hc : s.chutando with
  | false => exact .inl (animarChute_inativo s hc)
  | true =>
    have k := (chuteDireito_outros s).2
    cases hd : s.dir <;> cases he : s.esq
    · exact .inl (by simp [animarChute, hc, hd, he])
    · exact .inr (.inr (.inl ⟨rfl, rfl, by simp [animarChute, hc, hd, he]⟩))
    · exact .inr (.inl ⟨rfl, rfl, by simp [animarChute, hc, hd, he, k]⟩)
    · exact .inr (.inr (.inr ⟨rfl, rfl, by simp [animarChute, hc, hd, he, k]⟩))

theorem animarAceno_pan (s : Estado) :
    (animarAceno s).xGroot = s.xGroot ∧ (animarAceno s).yGroot = s.yGroot ∧
      (animarAceno s).escalaGroot = s.escalaGroot := by
  cases hd : s.dir with
  | true =>
    rw [animarAceno_dir s hd]
    exact enxerto_pan _ _ _
  | false =>
    rw [animarAceno_esq s hd]
    exact enxerto_pan _ _ _

theorem animarChute_pan (s : Estado) :
    (animarChute s).xGroot = s.xGroot ∧ (animarChute s).yGroot = s.yGroot ∧
      (animarChute s).escalaGroot = s.escalaGroot := by
  rcases animarChute_casos s with k | ⟨-, -, k⟩ | ⟨-, -, k⟩ | ⟨-, -, k⟩
  · rw [k]
    exact ⟨rfl, rfl, rfl⟩
  · rw [k, chuteDireito_quadro]
    exact enxerto_pan _ _ _
  · rw [k, chuteEsquerdo_quadro]
    exact enxerto_pan _ _ _
  · rw [k, chuteEsquerdo_quadro]
    obtain ⟨e1, e2, e3⟩ := enxerto_pan .chuteEsq (chuteEsquerdo (chuteDireito s)) (chuteDireito s)
    rw [e1, e2, e3, chuteDireito_quadro]
    exact enxerto_pan _ _ _

theorem animarAceno_articulacoes (s : Estado) (a : Articulacao)
    (h : a ∉ articulacoesDoAceno s) : (animarAceno s).angulo a = s.angulo a := by
  cases hd : s.dir with
  | true =>
    rw [animarAceno_dir s hd]
    simp only [articulacoesDoAceno, hd, if_true] at h
    cases a <;> first | rfl | exact absurd (by simp) h
  | false =>
    cases he : s.esq with
    | true =>
      rw [animarAceno_esq s hd]
      simp only [articulacoesDoAceno, hd, he, if_true, Bool.false_eq_true, if_false] at h
      cases a <;> first | rfl | exact absurd (by simp) h
    | false =>
      have k : animarAceno s = s := by
        cases ha : s.acenando with
        | false => exact animarAceno_inativo s ha
        | true => simp [animarAceno, ha, hd, he]
      rw [k]

theorem chuteDireito_articulacoes (s : Estado) (a : Articulacao)
    (h : a ∉ [Articulacao.coxaDireita, Articulacao.pantDireita]) :
    (chuteDireito s).angulo a = s.angulo a := by
  rw [chuteDireito_quadro]
  cases a <;> first | rfl | exact absurd (by simp) h

theorem chuteEsquerdo_articulacoes (s : Estado) (a : Articulacao)
    (h : a ∉ [Articulacao.coxaEsquerda, Articulacao.pantEsquerda]) :
    (chuteEsquerdo s).angulo a = s.angulo a := by
  rw [chuteEsquerdo_quadro]
  cases a <;> first | rfl | exact absurd (by simp) h

theorem animarChute_articulacoes (s : Estado) (a : Articulacao)
    (h : a ∉ articulacoesDoChute s) : (animarChute s).angulo a = s.angulo a := by
  rcases animarChute_casos s with k | ⟨hd, he, k⟩ | ⟨hd, he, k⟩ | ⟨hd, he, k⟩
  · rw [k]
  · rw [k]
    simp only [articulacoesDoChute, hd, he, if_true, Bool.false_eq_true, if_false,
      List.append_nil] at h
    exact chuteDireito_articulacoes s a h
  · rw [k]
    simp only [articulacoesDoChute, hd, he, if_true, Bool.false_eq_true, if_false,
      List.nil_append] at h
    exact chuteEsquerdo_articulacoes s a h
  · rw [k]
    simp only [articulacoesDoChute, hd, he, if_true, List.mem_append, not_or] at h
    rw [chuteEsquerdo_articulacoes _ a h.2, chuteDireito_articulacoes s a h.1]

/-! ### Gesture functions: frame and inactivity (C17, C18) -/

/-- C17 (wave and kick drive disjoint joints): in every state `animarAceno`
changes no joint angle other than shoulder and forearm of the active side and
the head, `animarChute` changes no joint angle other than thigh and shin of the
active side (of each side whose flag is up), the two sets of joints are
disjoint, and neither function changes `xGroot`, `yGroot` or `escalaGroot`. -/
theorem aceno_e_chute_separados (s : Estado) :
    (∀ a : Articulacao, a ∉ articulacoesDoAceno s → (animarAceno s).angulo a = s.angulo a) ∧
      (∀ a : Articulacao, a ∉ articulacoesDoChute s → (animarChute s).angulo a = s.angulo a) ∧
      (∀ u v : Estado, List.Disjoint (articulacoesDoAceno u) (articulacoesDoChute v)) ∧
      ((animarAceno s).xGroot = s.xGroot ∧ (animarAceno s).yGroot = s.yGroot ∧
        (animarAceno s).escalaGroot = s.escalaGroot) ∧
      ((animarChute s).xGroot = s.xGroot ∧ (animarChute s).yGroot = s.yGroot ∧
        (animarChute s).escalaGroot = s.escalaGroot) := by
  refine ⟨animarAceno_articulacoes s, animarChute_articulacoes s, ?_, animarAceno_pan s,
    animarChute_pan s⟩
  intro u v
  unfold articulacoesDoAceno articulacoesDoChute
  cases u.dir <;> cases u.esq <;> cases v.dir <;> cases v.esq <;> simp [List.Disjoint]

/-- C18 (advance is a no-op when inactive): with `acenando = false`,
`animarAceno` returns the state unchanged; with `chutando = false`,
`animarChute` returns the state unchanged. -/
theorem avanco_inativo_nao_muda (s : Estado) :
    (s.acenando = false → animarAceno s = s) ∧ (s.chutando = false → animarChute s = s) :=
  ⟨animarAceno_inativo s, animarChute_inativo s⟩

/-- Witness for C18: the initial state, where both gesture flags are down. -/
theorem avanco_inativo_nao_muda_witness :
    estadoInicial.acenando = false ∧ estadoInicial.chutando = false ∧
      animarAceno estadoInicial = estadoInicial ∧ animarChute estadoInicial = estadoInicial :=
  ⟨rfl, rfl, (avanco_inativo_nao_muda estadoInicial).1 rfl,
    (avanco_inativo_nao_muda estadoInicial).2 rfl⟩

/-- Witness for C17: the hip during the right wave and during the right kick. -/
theorem aceno_e_chute_separados_witness :
    Articulacao.quadril ∉ articulacoesDoAceno (inicioGesto .acenoDir) ∧
      (animarAceno (inicioGesto .acenoDir)).angulo .quadril =
        (inicioGesto .acenoDir).angulo .quadril ∧
      Articulacao.quadril ∉ articulacoesDoChute (inicioGesto .acenoDir) ∧
      (animarChute (inicioGesto .acenoDir)).angulo .quadril =
        (inicioGesto .acenoDir).angulo .quadril :=
  ⟨by decide!, (aceno_e_chute_separados (inicioGesto .acenoDir)).1 .quadril (by decide!),
    by decide!, (aceno_e_chute_separados (inicioGesto .acenoDir)).2.1 .quadril (by decide!)⟩

/-! ### Pan and scale (C19) -/

theorem teclado_pan (s t : Estado) (c : Char) (h : teclado s c = some t) :
    t.xGroot = s.xGroot ∧ t.yGroot = s.yGroot ∧ t.escalaGroot = s.escalaGroot := by
  cases ha : s.animando with
  | true =>
    rw [teclado_animando s c ha] at h
    obtain rfl := Option.some.inj h
    exact ⟨rfl, rfl, rfl⟩
  | false =>
    unfold teclado at h
    rw [if_neg (by simp [ha])] at h
    split at h <;>
      first
      | (obtain rfl := Option.some.inj h
         exact ⟨rfl, rfl, rfl⟩)
      | cases h

theorem idle_pan (s : Estado) :
    (idle s).xGroot = s.xGroot ∧ (idle s).yGroot = s.yGroot ∧
      (idle s).escalaGroot = s.escalaGroot := by
  obtain ⟨a1, a2, a3⟩ := animarAceno_pan s
  obtain ⟨c1, c2, c3⟩ := animarChute_pan (animarAceno s)
  exact ⟨c1.trans a1, c2.trans a2, c3.trans a3⟩

theorem panEscala_ordenados :
    limXGroot.min ≤ limXGroot.max ∧ limYGroot.min ≤ limYGroot.max ∧
      limEscalaGroot.min ≤ limEscalaGroot.max ∧
      dentro 0 limXGroot ∧ dentro (-1) limYGroot ∧ dentro 1 limEscalaGroot := by
  decide!

theorem disparar_pan (r : Estado) (g : Gesto) :
    (disparar r g).xGroot = r.xGroot ∧ (disparar r g).yGroot = r.yGroot ∧
      (disparar r g).escalaGroot = r.escalaGroot := by
  cases ha : r.animando with
  | true =>
    have k : disparar r g = r := by simp [disparar, tecladoEspecial, ha]
    rw [k]
    exact ⟨rfl, rfl, rfl⟩
  | false =>
    have e := tecladoEspecial_disparar r g ha
    cases g <;>
      simp only [tecladoEspecial, ha, Gesto.tecla, GLUT_KEY_F1, GLUT_KEY_F2, GLUT_KEY_F3,
        GLUT_KEY_F4, Bool.false_eq_true, if_false, if_true, Option.some.injEq] at e <;>
      norm_num at e <;>
      rw [← e] <;>
      exact ⟨rfl, rfl, rfl⟩

theorem tecladoEspecial_panEscala (s t : Estado) (k : Int) (hp : panEscalaDentro s)
    (h : tecladoEspecial s k = some t) : panEscalaDentro t := by
  obtain ⟨ox, oy, oe, zx, zy, ze⟩ := panEscala_ordenados
  cases ha : s.animando with
  | true =>
    rw [tecladoEspecial_animando s k ha] at h
    obtain rfl := Option.some.inj h
    exact hp
  | false =>
    have gatilho : ∀ g : Gesto, k = g.tecla → panEscalaDentro t := by
      intro g hk
      rw [hk, tecladoEspecial_disparar s g ha] at h
      obtain rfl := Option.some.inj h
      obtain ⟨e1, e2, e3⟩ := disparar_pan s g
      unfold panEscalaDentro
      rw [e1, e2, e3]
      exact hp
    by_cases k1 : k = GLUT_KEY_F1
    · exact gatilho .acenoEsq k1
    by_cases k2 : k = GLUT_KEY_F2
    · exact gatilho .acenoDir k2
    by_cases k3 : k = GLUT_KEY_F3
    · exact gatilho .chuteEsq k3
    by_cases k4 : k = GLUT_KEY_F4
    · exact gatilho .chuteDir k4
    obtain ⟨px, py, pe⟩ := hp
    unfold tecladoEspecial at h
    rw [if_neg (by simp [ha]), if_neg k1, if_neg k2, if_neg k3, if_neg k4] at h
    split_ifs at h
    · obtain rfl := Option.some.inj h
      exact ⟨dentro_restringirMov _ _ ox, py, pe⟩
    · obtain rfl := Option.some.inj h
      exact ⟨dentro_restringirMov _ _ ox, py, pe⟩
    · obtain rfl := Option.some.inj h
      exact ⟨px, dentro_restringirMov _ _ oy, dentro_restringirMov _ _ oe⟩
    · obtain rfl := Option.some.inj h
      exact ⟨px, dentro_restringirMov _ _ oy, dentro_restringirMov _ _ oe⟩
    · obtain rfl := Option.some.inj h
      exact ⟨zx, zy, ze⟩
    · obtain rfl := Option.some.inj h
      exact ⟨px, py, pe⟩

theorem panEscala_passo (s t : Estado) (e : Evento) (hp : panEscalaDentro s)
    (h : passo s e = some t) : panEscalaDentro t := by
  cases e with
  | tecla c =>
    obtain ⟨e1, e2, e3⟩ := teclado_pan s t c h
    unfold panEscalaDentro
    rw [e1, e2, e3]
    exact hp
  | especial k => exact tecladoEspecial_panEscala s t k hp h
  | ocioso =>
    obtain rfl : idle s = t := Option.some.inj h
    obtain ⟨e1, e2, e3⟩ := idle_pan s
    unfold panEscalaDentro
    rw [e1, e2, e3]
    exact hp

theorem panEscala_executar (es : List Evento) (s t : Estado) (hp : panEscalaDentro s)
    (he : executar s es = some t) : panEscalaDentro t := by
  induction es generalizing s with
  | nil =>
    obtain rfl := Option.some.inj he
    exact hp
  | cons e es ih =>
    rw [executar] at he
    cases hq : passo s e with
    | none =>
      rw [hq] at he
      cases he
    | some u =>
      rw [hq] at he
      exact ih u (panEscala_passo s u e hp hq) he

/-- C19, as stated, fails: after the wave `main` starts with, three presses of
the up arrow leave `escalaGroot` at the `float` `0.7f` = 11744051 / 16777216 =
0.69999998..., which is below 0.7. -/
theorem escala_abaixo_de_sete_decimos :
    (executar estadoInicial
        (Evento.especial GLUT_KEY_F1 ::
          (List.replicate 141 Evento.ocioso ++
            List.replicate 3 (Evento.especial GLUT_KEY_UP)))).isSome = true ∧
      ((executar estadoInicial
        (Evento.especial GLUT_KEY_F1 ::
          (List.replicate 141 Evento.ocioso ++
            List.replicate 3 (Evento.especial GLUT_KEY_UP)))).getD estadoInicial).escalaGroot =
        11744051 / 16777216 ∧
      ((executar estadoInicial
        (Evento.especial GLUT_KEY_F1 ::
          (List.replicate 141 Evento.ocioso ++
            List.replicate 3 (Evento.especial GLUT_KEY_UP)))).getD estadoInicial).escalaGroot <
        0.7 := by
  decide!

/-- C19 (amended): the initial state has `xGroot = 0`, `yGroot = -1`,
`escalaGroot = 1`, and in every state reachable from it by key events and idle
ticks `xGroot` is in `[-23, 23]`, `yGroot` in `[-7.5, 0.5]` and `escalaGroot`
between the `float` values of the literals `0.7f` and `2.3f`, which are
11744051 / 16777216 and 9646899 / 4194304. -/
theorem pan_e_escala_dentro (s : Estado) (h : Alcancavel s) :
    (estadoInicial.xGroot = 0 ∧ estadoInicial.yGroot = -1 ∧ estadoInicial.escalaGroot = 1) ∧
      (-23 ≤ s.xGroot ∧ s.xGroot ≤ 23) ∧ (-7.5 ≤ s.yGroot ∧ s.yGroot ≤ 0.5) ∧
      (11744051 / 16777216 ≤ s.escalaGroot ∧ s.escalaGroot ≤ 9646899 / 4194304) ∧
      (limEscalaGroot.min = 11744051 / 16777216 ∧ limEscalaGroot.max = 9646899 / 4194304 ∧
        arredondar32 0.7 = 11744051 / 16777216 ∧ arredondar32 2.3 = 9646899 / 4194304) := by
  obtain ⟨es, he⟩ := h
  have hp := panEscala_executar es estadoInicial s (by decide!) he
  have v : limEscalaGroot.min = 11744051 / 16777216 ∧ limEscalaGroot.max = 9646899 / 4194304 ∧
      arredondar32 0.7 = 11744051 / 16777216 ∧ arredondar32 2.3 = 9646899 / 4194304 := by
    decide!
  obtain ⟨⟨x1, x2⟩, ⟨y1, y2⟩, ⟨e1, e2⟩⟩ := hp
  rw [v.1] at e1
  rw [v.2.1] at e2
  simp only [limXGroot, limYGroot] at x1 x2 y1 y2
  refine ⟨⟨rfl, rfl, rfl⟩, ⟨x1, x2⟩, ⟨?_, ?_⟩, ⟨e1, e2⟩, v⟩
  · norm_num at y1 ⊢
    linarith
  · norm_num at y2 ⊢
    linarith

/-- Witness for C19 (amended): the state after three presses of the up arrow,
where the scale has stopped at `0.7f`. -/
theorem pan_e_escala_dentro_witness :
    Alcancavel
        ((executar estadoInicial (List.replicate 3 (Evento.especial GLUT_KEY_UP))).getD
          estadoInicial) ∧
      ((executar estadoInicial (List.replicate 3 (Evento.especial GLUT_KEY_UP))).getD
          estadoInicial).escalaGroot = 11744051 / 16777216 ∧
      (11744051 / 16777216 ≤
        ((executar estadoInicial (List.replicate 3 (Evento.especial GLUT_KEY_UP))).getD
          estadoInicial).escalaGroot) := by
  have hr : Alcancavel
      ((executar estadoInicial (List.replicate 3 (Evento.especial GLUT_KEY_UP))).getD
        estadoInicial) := by
    refine ⟨List.replicate 3 (Evento.especial GLUT_KEY_UP), ?_⟩
    have hs : (executar estadoInicial
        (List.replicate 3 (Evento.especial GLUT_KEY_UP))).isSome = true := by decide!
    obtain ⟨u, hu⟩ := Option.isSome_iff_exists.mp hs
    rw [hu]
    rfl
  exact ⟨hr, by decide!, (pan_e_escala_dentro _ hr).2.2.2.1.1⟩

/-! ### Manual keys (C13) -/

set_option maxHeartbeats 2000000 in
/-- C13 (manual keys are clamp-checked): in every state with `animando = false`,
each per-joint key addresses one joint; after `teclado` that joint's angle is
`restringirMov` of the old angle plus or minus 3 with that joint's declared
limit, so it lies within that limit, and every other joint angle is unchanged. -/
theorem teclas_de_articulacao (s : Estado) (c : Char) (h : s.animando = false)
    (hc : c ∈ teclasDeArticulacao) :
    ∃ (a : Articulacao) (d : ℚ) (l : tpLimite) (t : Estado),
      teclaArticulacao c = some (a, d) ∧ (d = 3 ∨ d = -3) ∧ limiteDe a = some l ∧
        teclado s c = some t ∧
        t.angulo a = restringirMov (s.angulo a + d) l ∧ dentro (t.angulo a) l ∧
        ∀ b : Articulacao, b ≠ a → t.angulo b = s.angulo b := by
  unfold teclado
  rw [if_neg (by simp [h])]
  split
  · exact ⟨.ombroDireito, MOVESPEED, limOmbroDir, _, rfl, by norm_num [MOVESPEED], rfl, rfl, rfl,
      dentro_restringirMov _ _ (by decide!),
      fun b hb => by cases b <;> first | exact absurd rfl hb | rfl⟩
  · exact ⟨.ombroDireito, -MOVESPEED, limOmbroDir, _, rfl, by norm_num [MOVESPEED], rfl, rfl, congrArg (fun x => restringirMov x limOmbroDir) (sub_eq_add_neg _ _),
      dentro_restringirMov _ _ (by decide!),
      fun b hb => by cases b <;> first | exact absurd rfl hb | rfl⟩
  · exact ⟨.antebracoDireito, MOVESPEED, limAntebracoDir, _, rfl, by norm_num [MOVESPEED], rfl, rfl, rfl,
      dentro_restringirMov _ _ (by decide!),
      fun b hb => by cases b <;> first | exact absurd rfl hb | rfl⟩
  · exact ⟨.antebracoDireito, -MOVESPEED, limAntebracoDir, _, rfl, by norm_num [MOVESPEED], rfl, rfl, congrArg (fun x => restringirMov x limAntebracoDir) (sub_eq_add_neg _ _),
      dentro_restringirMov _ _ (by decide!),
      fun b hb => by cases b <;> first | exact absurd rfl hb | rfl⟩
  · exact ⟨.maoDireita, MOVESPEED, limMaoDir, _, rfl, by norm_num [MOVESPEED], rfl, rfl, rfl,
      dentro_restringirMov _ _ (by decide!),
      fun b hb => by cases b <;> first | exact absurd rfl hb | rfl⟩
  · exact ⟨.maoDireita, -MOVESPEED, limMaoDir, _, rfl, by norm_num [MOVESPEED], rfl, rfl, congrArg (fun x => restringirMov x limMaoDir) (sub_eq_add_neg _ _),
      dentro_restringirMov _ _ (by decide!),
      fun b hb => by cases b <;> first | exact absurd rfl hb | rfl⟩
  · exact ⟨.ombroEsquerdo, MOVESPEED, limOmbroEsq, _, rfl, by norm_num [MOVESPEED], rfl, rfl, rfl,
      dentro_restringirMov _ _ (by decide!),
      fun b hb => by cases b <;> first | exact absurd rfl hb | rfl⟩
  · exact ⟨.ombroEsquerdo, -MOVESPEED, limOmbroEsq, _, rfl, by norm_num [MOVESPEED], rfl, rfl, congrArg (fun x => restringirMov x limOmbroEsq) (sub_eq_add_neg _ _),
      dentro_restringirMov _ _ (by decide!),
      fun b hb => by cases b <;> first | exact absurd rfl hb | rfl⟩
  · exact ⟨.antebracoEsquerdo, MOVESPEED, limAntebracoEsq, _, rfl, by norm_num [MOVESPEED], rfl, rfl, rfl,
      dentro_restringirMov _ _ (by decide!),
      fun b hb => by cases b <;> first | exact absurd rfl hb | rfl⟩
  · exact ⟨.antebracoEsquerdo, -MOVESPEED, limAntebracoEsq, _, rfl, by norm_num [MOVESPEED], rfl, rfl, congrArg (fun x => restringirMov x limAntebracoEsq) (sub_eq_add_neg _ _),
      dentro_restringirMov _ _ (by decide!),
      fun b hb => by cases b <;> first | exact absurd rfl hb | rfl⟩
  · exact ⟨.maoEsquerda, MOVESPEED, limMaoEsq, _, rfl, by norm_num [MOVESPEED], rfl, rfl, rfl,
      dentro_restringirMov _ _ (by decide!),
      fun b hb => by cases b <;> first | exact absurd rfl hb | rfl⟩
  · exact ⟨.maoEsquerda, -MOVESPEED, limMaoEsq, _, rfl, by norm_num [MOVESPEED], rfl, rfl, congrArg (fun x => restringirMov x limMaoEsq) (sub_eq_add_neg _ _),
      dentro_restringirMov _ _ (by decide!),
      fun b hb => by cases b <;> first | exact absurd rfl hb | rfl⟩
  · exact ⟨.coxaDireita, MOVESPEED, limCoxaDir, _, rfl, by norm_num [MOVESPEED], rfl, rfl, rfl,
      dentro_restringirMov _ _ (by decide!),
      fun b hb => by cases b <;> first | exact absurd rfl hb | rfl⟩
  · exact ⟨.coxaDireita, -MOVESPEED, limCoxaDir, _, rfl, by norm_num [MOVESPEED], rfl, rfl, congrArg (fun x => restringirMov x limCoxaDir) (sub_eq_add_neg _ _),
      dentro_restringirMov _ _ (by decide!),
      fun b hb => by cases b <;> first | exact absurd rfl hb | rfl⟩
  · exact ⟨.pantDireita, MOVESPEED, limPantDir, _, rfl, by norm_num [MOVESPEED], rfl, rfl, rfl,
      dentro_restringirMov _ _ (by decide!),
      fun b hb => by cases b <;> first | exact absurd rfl hb | rfl⟩
  · exact ⟨.pantDireita, -MOVESPEED, limPantDir, _, rfl, by norm_num [MOVESPEED], rfl, rfl, congrArg (fun x => restringirMov x limPantDir) (sub_eq_add_neg _ _),
      dentro_restringirMov _ _ (by decide!),
      fun b hb => by cases b <;> first | exact absurd rfl hb | rfl⟩
  · exact ⟨.pataDireita, MOVESPEED, limPataDir, _, rfl, by norm_num [MOVESPEED], rfl, rfl, rfl,
      dentro_restringirMov _ _ (by decide!),
      fun b hb => by cases b <;> first | exact absurd rfl hb | rfl⟩
  · exact ⟨.pataDireita, -MOVESPEED, limPataDir, _, rfl, by norm_num [MOVESPEED], rfl, rfl, congrArg (fun x => restringirMov x limPataDir) (sub_eq_add_neg _ _),
      dentro_restringirMov _ _ (by decide!),
      fun b hb => by cases b <;> first | exact absurd rfl hb | rfl⟩
  · exact ⟨.coxaEsquerda, MOVESPEED, limCoxaEsq, _, rfl, by norm_num [MOVESPEED], rfl, rfl, rfl,
      dentro_restringirMov _ _ (by decide!),
      fun b hb => by cases b <;> first | exact absurd rfl hb | rfl⟩
  · exact ⟨.coxaEsquerda, -MOVESPEED, limCoxaEsq, _, rfl, by norm_num [MOVESPEED], rfl, rfl, congrArg (fun x => restringirMov x limCoxaEsq) (sub_eq_add_neg _ _),
      dentro_restringirMov _ _ (by decide!),
      fun b hb => by cases b <;> first | exact absurd rfl hb | rfl⟩
  · exact ⟨.pantEsquerda, MOVESPEED, limPantEsq, _, rfl, by norm_num [MOVESPEED], rfl, rfl, rfl,
      dentro_restringirMov _ _ (by decide!),
      fun b hb => by cases b <;> first | exact absurd rfl hb | rfl⟩
  · exact ⟨.pantEsquerda, -MOVESPEED, limPantEsq, _, rfl, by norm_num [MOVESPEED], rfl, rfl, congrArg (fun x => restringirMov x limPantEsq) (sub_eq_add_neg _ _),
      dentro_restringirMov _ _ (by decide!),
      fun b hb => by cases b <;> first | exact absurd rfl hb | rfl⟩
  · exact ⟨.pataEsquerda, MOVESPEED, limPataEsq, _, rfl, by norm_num [MOVESPEED], rfl, rfl, rfl,
      dentro_restringirMov _ _ (by decide!),
      fun b hb => by cases b <;> first | exact absurd rfl hb | rfl⟩
  · exact ⟨.pataEsquerda, -MOVESPEED, limPataEsq, _, rfl, by norm_num [MOVESPEED], rfl, rfl, congrArg (fun x => restringirMov x limPataEsq) (sub_eq_add_neg _ _),
      dentro_restringirMov _ _ (by decide!),
      fun b hb => by cases b <;> first | exact absurd rfl hb | rfl⟩
  · exact ⟨.quadril, MOVESPEED, limQuadril, _, rfl, by norm_num [MOVESPEED], rfl, rfl, rfl,
      dentro_restringirMov _ _ (by decide!),
      fun b hb => by cases b <;> first | exact absurd rfl hb | rfl⟩
  · exact ⟨.quadril, -MOVESPEED, limQuadril, _, rfl, by norm_num [MOVESPEED], rfl, rfl, congrArg (fun x => restringirMov x limQuadril) (sub_eq_add_neg _ _),
      dentro_restringirMov _ _ (by decide!),
      fun b hb => by cases b <;> first | exact absurd rfl hb | rfl⟩
  · exact ⟨.tronco, MOVESPEED, limTronco, _, rfl, by norm_num [MOVESPEED], rfl, rfl, rfl,
      dentro_restringirMov _ _ (by decide!),
      fun b hb => by cases b <;> first | exact absurd rfl hb | rfl⟩
  · exact ⟨.tronco, -MOVESPEED, limTronco, _, rfl, by norm_num [MOVESPEED], rfl, rfl, congrArg (fun x => restringirMov x limTronco) (sub_eq_add_neg _ _),
      dentro_restringirMov _ _ (by decide!),
      fun b hb => by cases b <;> first | exact absurd rfl hb | rfl⟩
  · exact ⟨.cabeca, MOVESPEED, limCabeca, _, rfl, by norm_num [MOVESPEED], rfl, rfl, rfl,
      dentro_restringirMov _ _ (by decide!),
      fun b hb => by cases b <;> first | exact absurd rfl hb | rfl⟩
  · exact ⟨.cabeca, -MOVESPEED, limCabeca, _, rfl, by norm_num [MOVESPEED], rfl, rfl, congrArg (fun x => restringirMov x limCabeca) (sub_eq_add_neg _ _),
      dentro_restringirMov _ _ (by decide!),
      fun b hb => by cases b <;> first | exact absurd rfl hb | rfl⟩
  · exact absurd hc (by decide)
  · exact absurd hc (by decide)
  · simp only [teclasDeArticulacao, List.mem_cons, List.mem_singleton, List.not_mem_nil,
      or_false] at hc
    rcases hc with rfl | rfl | rfl | rfl | rfl | rfl | rfl | rfl | rfl | rfl | rfl | rfl | rfl | rfl | rfl | rfl | rfl | rfl | rfl | rfl | rfl | rfl | rfl | rfl | rfl | rfl | rfl | rfl | rfl | rfl <;>
      contradiction

/-- Witness for C13: key `w` at the lower shoulder limit. -/
theorem teclas_de_articulacao_witness :
    ({ estadoInicial with anguloOmbroDireito := -114 } : Estado).animando = false ∧
      'w' ∈ teclasDeArticulacao ∧
      ∃ (a : Articulacao) (d : ℚ) (l : tpLimite) (t : Estado),
        teclaArticulacao 'w' = some (a, d) ∧ (d = 3 ∨ d = -3) ∧ limiteDe a = some l ∧
          teclado { estadoInicial with anguloOmbroDireito := -114 } 'w' = some t ∧
          t.angulo a =
            restringirMov
              (({ estadoInicial with anguloOmbroDireito := -114 } : Estado).angulo a + d) l ∧
          dentro (t.angulo a) l ∧
          ∀ b : Articulacao, b ≠ a →
            t.angulo b = ({ estadoInicial with anguloOmbroDireito := -114 } : Estado).angulo b :=
  ⟨rfl, by decide,
    teclas_de_articulacao { estadoInicial with anguloOmbroDireito := -114 } 'w' rfl (by decide)⟩

/-! ### Frame of the seam binder (C20) -/

theorem lerPonto_escreverPonto_fora {K : Type} [Zero K] (a : List (tpPonto2D K)) (i j : Nat)
    (p : tpPonto2D K) (h : ¬ j = i) : lerPonto (escreverPonto a i p) j = lerPonto a j :=
  lerPonto_escreverPonto_outro a i j p (fun e => h e.symm)

/-- C20 (seam writes are confined): `ligarPartes` changes only the 26 declared
destination entries of the point arrays; every other point of every array (and
every array size) is left as it was, and so are the joint angles, pan, scale and
gesture state.  The pivots are constants of the program. -/
theorem ligarPartes_so_costuras {K : Type} [Field K] (T : Trig K) (m : Mundo K) :
    soCosturasMudam m.pontos (ligarPartesNoMundo T m).pontos ∧
      (ligarPartesNoMundo T m).estado = m.estado := by
  refine ⟨?_, rfl⟩
  unfold soCosturasMudam mesmoForaDe
  refine ⟨⟨?_, ?_⟩, ⟨?_, ?_⟩, ⟨?_, ?_⟩, ⟨?_, ?_⟩, ⟨?_, ?_⟩, ⟨?_, ?_⟩, ⟨?_, ?_⟩, ⟨?_, ?_⟩,
    ⟨?_, ?_⟩, ⟨?_, ?_⟩, ⟨?_, ?_⟩, ⟨?_, ?_⟩, ⟨?_, ?_⟩, ⟨?_, ?_⟩, ⟨?_, ?_⟩, ⟨?_, ?_⟩⟩
  all_goals
    first
    | (intro i hi
       simp only [List.mem_cons, List.mem_singleton, List.not_mem_nil, or_false, not_or,
         not_false_eq_true] at hi
       simp [ligarPartesNoMundo, ligarPartes, lerPonto_escreverPonto_fora, hi])
    | simp [ligarPartesNoMundo, ligarPartes, length_escreverPonto]

/-! ### Phase 2 of the wave (C15) -/

theorem trajetoria_oscilaDireita :
    ∀ i < 141, (idle^[i] (inicioGesto .acenoDir)).etapaAceno = 2 →
      oscilaDireita (idle^[i] (inicioGesto .acenoDir))
        (idle (idle^[i] (inicioGesto .acenoDir))) := by
  decide!

theorem trajetoria_oscilaEsquerda :
    ∀ i < 141, (idle^[i] (inicioGesto .acenoEsq)).etapaAceno = 2 →
      oscilaEsquerda (idle^[i] (inicioGesto .acenoEsq))
        (idle (idle^[i] (inicioGesto .acenoEsq))) := by
  decide!

/-- C15, as stated, fails: 41 ticks into the right wave the gesture is in phase
2; the next tick strikes the upper bound 120 and the cycle counter stays at 0;
16 ticks later the tick that strikes the lower bound 40 takes it from 0 to 1. -/
theorem ciclo_conta_o_limite_inferior :
    ∃ s u : Estado,
      executar estadoInicial
          (Evento.especial GLUT_KEY_F2 :: List.replicate 41 Evento.ocioso) = some s ∧
        executar estadoInicial
          (Evento.especial GLUT_KEY_F2 :: List.replicate 57 Evento.ocioso) = some u ∧
        (s.etapaAceno = 2 ∧ (idle s).anguloAntebracoDireito = 120 ∧
          s.acenoDirCiclo = 0 ∧ (idle s).acenoDirCiclo = 0) ∧
        (u.etapaAceno = 2 ∧ (idle u).anguloAntebracoDireito = 40 ∧
          u.acenoDirCiclo = 0 ∧ (idle u).acenoDirCiclo = 1) :=
  ⟨_, _, executar_gesto estadoInicial .acenoDir 41 rfl,
    executar_gesto estadoInicial .acenoDir 57 rfl, by decide!, by decide!⟩

/-- C15 (amended): while a wave is in phase 2 (`etapaAceno = 2`) in a reachable
state, each tick moves the forearm by 5 between its two bounds (40 and 120 on
the right, -40 and -120 on the left) with the direction reversing at each
bound; the cycle counter increases by one on exactly those ticks on which the
bound of magnitude 40 is struck, and the phase becomes 3 (the counter going
back to 0) on the tick the counter reaches 3. -/
theorem aceno_fase2_oscila (s : Estado) (hs : Alcancavel s) (ha : s.acenando = true)
    (he : s.etapaAceno = 2) :
    (s.dir = true → oscilaDireita s (idle s)) ∧ (s.esq = true → oscilaEsquerda s (idle s)) := by
  obtain ⟨g, r, i, hr, hl, hi, rfl⟩ :=
    inv_animando s (inv_alcancavel s hs) (by
      rcases inv_alcancavel s hs with ⟨hrep, -⟩ | ⟨g, r, i, hr, hl, hi, rfl⟩
      · rw [hrep.2.2.2.1] at ha
        cases ha
      · exact (inv_emGesto r g i hr hl hi).2.1)
  obtain ⟨hb, -, -⟩ := inv_emGesto r g i hr hl hi
  have e1 := gesto_enxerto r g i hr (Nat.le_of_lt hi)
  have e2 := gesto_enxerto r g (i + 1) hr hi
  rw [Function.iterate_succ_apply'] at e2
  have e3 := Function.iterate_succ_apply' idle i (inicioGesto g)
  cases g
  · obtain ⟨-, -, -, hd⟩ := hb
    rw [e1] at he hd
    rw [e2, e1, e3]
    have t := trajetoria_oscilaEsquerda i hi
    generalize idle^[i] (inicioGesto .acenoEsq) = c at he hd t ⊢
    generalize disparar r .acenoEsq = u at he hd ⊢
    refine ⟨fun h => ?_, fun _ => t he⟩
    rw [show (enxerto .acenoEsq c u).dir = c.dir from rfl] at h
    rw [show (enxerto .acenoEsq c u).dir = c.dir from rfl, h] at hd
    cases hd
  · obtain ⟨-, -, hq, -⟩ := hb
    rw [e1] at he hq
    rw [e2, e1, e3]
    have t := trajetoria_oscilaDireita i hi
    generalize idle^[i] (inicioGesto .acenoDir) = c at he hq t ⊢
    generalize disparar r .acenoDir = u at he hq ⊢
    refine ⟨fun _ => t he, fun h => ?_⟩
    rw [show (enxerto .acenoDir c u).esq = c.esq from rfl] at h
    rw [show (enxerto .acenoDir c u).esq = c.esq from rfl, h] at hq
    cases hq
  · rw [hb.1] at ha
    cases ha
  · rw [hb.1] at ha
    cases ha

theorem aceno_fase2_oscila_witness :
    Alcancavel (idle^[57] (disparar estadoInicial .acenoDir)) ∧
      (idle^[57] (disparar estadoInicial .acenoDir)).etapaAceno = 2 ∧
      oscilaDireita (idle^[57] (disparar estadoInicial .acenoDir))
        (idle (idle^[57] (disparar estadoInicial .acenoDir))) :=
  ⟨⟨_, executar_gesto estadoInicial .acenoDir 57 rfl⟩, by decide!,
    (aceno_fase2_oscila _ ⟨_, executar_gesto estadoInicial .acenoDir 57 rfl⟩
      (by decide!) (by decide!)).1 (by decide!)⟩

/-! ### Leaving phase 2 of the kick (C16) -/

/-- Phase 2 of the right kick, one tick: the shin, the phase and the counter afterwards. -/
theorem chuteDireito_fase2 (s : Estado) (he : s.etapaChute = 2) :
    (chuteDireito s).anguloPantDireita =
        s.anguloPantDireita + (s.chuteDirDirecao : ℚ) * MOVESPEED_ESPECIAL ∧
      (chuteDireito s).etapaChute =
        (if s.chuteDirCiclo + (if s.anguloPantDireita +
          (s.chuteDirDirecao : ℚ) * MOVESPEED_ESPECIAL ≤ -30 then 1 else 0) = 1 then 3 else 2) ∧
      (chuteDireito s).chuteDirCiclo =
        (if s.chuteDirCiclo + (if s.anguloPantDireita +
          (s.chuteDirDirecao : ℚ) * MOVESPEED_ESPECIAL ≤ -30 then 1 else 0) = 1 then 0
        else s.chuteDirCiclo + (if s.anguloPantDireita +
          (s.chuteDirDirecao : ℚ) * MOVESPEED_ESPECIAL ≤ -30 then 1 else 0)) := by
  by_cases ha : s.anguloPantDireita + (s.chuteDirDirecao : ℚ) * MOVESPEED_ESPECIAL ≥ 10 <;>
  by_cases hb : s.anguloPantDireita + (s.chuteDirDirecao : ℚ) * MOVESPEED_ESPECIAL ≤ -30 <;>
  by_cases hx : s.chuteDirCiclo + 1 = 1 <;>
  by_cases hy : s.chuteDirCiclo = 1 <;>
    simp [chuteDireito, he, ha, hb, hx, hy]

/-- Phase 2 of the left kick, one tick: the shin, the phase and the counter afterwards. -/
theorem chuteEsquerdo_fase2 (s : Estado) (he : s.etapaChute = 2) :
    (chuteEsquerdo s).anguloPantEsquerda =
        s.anguloPantEsquerda - (s.chuteEsqDirecao : ℚ) * MOVESPEED_ESPECIAL ∧
      (chuteEsquerdo s).etapaChute =
        (if s.chuteEsqCiclo + (if s.anguloPantEsquerda -
          (s.chuteEsqDirecao : ℚ) * MOVESPEED_ESPECIAL ≥ 30 then 1 else 0) = 5 then 3 else 2) ∧
      (chuteEsquerdo s).chuteEsqCiclo =
        (if s.chuteEsqCiclo + (if s.anguloPantEsquerda -
          (s.chuteEsqDirecao : ℚ) * MOVESPEED_ESPECIAL ≥ 30 then 1 else 0) = 5 then 0
        else s.chuteEsqCiclo + (if s.anguloPantEsquerda -
          (s.chuteEsqDirecao : ℚ) * MOVESPEED_ESPECIAL ≥ 30 then 1 else 0)) := by
  by_cases ha : s.anguloPantEsquerda - (s.chuteEsqDirecao : ℚ) * MOVESPEED_ESPECIAL ≤ -20 <;>
  by_cases hb : s.anguloPantEsquerda - (s.chuteEsqDirecao : ℚ) * MOVESPEED_ESPECIAL ≥ 30 <;>
  by_cases hx : s.chuteEsqCiclo + 1 = 5 <;>
  by_cases hy : s.chuteEsqCiclo = 5 <;>
    simp [chuteEsquerdo, he, ha, hb, hx, hy]

/-- C16, as stated, fails for the left side: 10 ticks into the left kick the
gesture is in phase 2 with its cycle counter at 0; the next tick takes the
counter to 1 and the kick stays in phase 2; it leaves phase 2 on tick 34, when
the counter goes from 4 to 5. -/
theorem chute_esquerdo_fica_na_fase2 :
    ∃ s u : Estado,
      executar estadoInicial
          (Evento.especial GLUT_KEY_F3 :: List.replicate 10 Evento.ocioso) = some s ∧
        executar estadoInicial
          (Evento.especial GLUT_KEY_F3 :: List.replicate 33 Evento.ocioso) = some u ∧
        (s.chutando = true ∧ s.esq = true ∧ s.etapaChute = 2 ∧ s.chuteEsqCiclo = 0 ∧
          (idle s).chuteEsqCiclo = 1 ∧ (idle s).etapaChute = 2) ∧
        (u.etapaChute = 2 ∧ u.chuteEsqCiclo = 4 ∧ (idle u).anguloPantEsquerda = 30 ∧
          (idle u).etapaChute = 3) :=
  ⟨_, _, executar_gesto estadoInicial .chuteEsq 10 rfl,
    executar_gesto estadoInicial .chuteEsq 33 rfl, by decide!, by decide!⟩

/-- C16 (amended): one tick of a kick in phase 2. The right kick moves the
right shin by 5 in its direction, counts the tick if the shin is then at or
below -30, and leaves phase 2 (etapaChute becomes 3, the counter going back to
0) exactly when the count is then 1. The left kick moves the left shin by 5
against its direction, counts the tick if the shin is then at or above 30, and
leaves phase 2 exactly when the count is then 5. -/
theorem chute_sai_da_fase2 (s : Estado) (hc : s.chutando = true) (he : s.etapaChute = 2) :
    (s.dir = true → s.esq = false →
      (animarChute s).anguloPantDireita =
          s.anguloPantDireita + (s.chuteDirDirecao : ℚ) * 5 ∧
        (s.chuteDirCiclo + (if (animarChute s).anguloPantDireita ≤ -30 then 1 else 0) = 1 →
          (animarChute s).etapaChute = 3 ∧ (animarChute s).chuteDirCiclo = 0) ∧
        (s.chuteDirCiclo + (if (animarChute s).anguloPantDireita ≤ -30 then 1 else 0) ≠ 1 →
          (animarChute s).etapaChute = 2 ∧
            (animarChute s).chuteDirCiclo =
              s.chuteDirCiclo + (if (animarChute s).anguloPantDireita ≤ -30 then 1 else 0))) ∧
    (s.esq = true → s.dir = false →
      (animarChute s).anguloPantEsquerda =
          s.anguloPantEsquerda - (s.chuteEsqDirecao : ℚ) * 5 ∧
        (s.chuteEsqCiclo + (if (animarChute s).anguloPantEsquerda ≥ 30 then 1 else 0) = 5 →
          (animarChute s).etapaChute = 3 ∧ (animarChute s).chuteEsqCiclo = 0) ∧
        (s.chuteEsqCiclo + (if (animarChute s).anguloPantEsquerda ≥ 30 then 1 else 0) ≠ 5 →
          (animarChute s).etapaChute = 2 ∧
            (animarChute s).chuteEsqCiclo =
              s.chuteEsqCiclo + (if (animarChute s).anguloPantEsquerda ≥ 30 then 1 else 0))) := by
  have m : MOVESPEED_ESPECIAL = 5 := rfl
  constructor
  · intro hd hq
    have e : animarChute s = chuteDireito s := by
      rcases animarChute_casos s with e | ⟨-, -, e⟩ | ⟨h, -, -⟩ | ⟨-, h, -⟩
      · simp [animarChute, hc, hd, hq, (chuteDireito_outros s).2]
      · exact e
      · rw [hd] at h
        cases h
      · rw [hq] at h
        cases h
    obtain ⟨p1, p2, p3⟩ := chuteDireito_fase2 s he
    rw [m] at p1 p2 p3
    rw [e, p1]
    refine ⟨rfl, fun h => ?_, fun h => ?_⟩
    · rw [p2, p3, if_pos h, if_pos h]
      exact ⟨rfl, rfl⟩
    · rw [p2, p3, if_neg h, if_neg h]
      exact ⟨rfl, rfl⟩
  · intro hq hd
    have e : animarChute s = chuteEsquerdo s := by
      rcases animarChute_casos s with e | ⟨h, -, -⟩ | ⟨-, -, e⟩ | ⟨h, -, -⟩
      · simp [animarChute, hc, hd, hq]
      · rw [hd] at h
        cases h
      · exact e
      · rw [hd] at h
        cases h
    obtain ⟨p1, p2, p3⟩ := chuteEsquerdo_fase2 s he
    rw [m] at p1 p2 p3
    rw [e, p1]
    refine ⟨rfl, fun h => ?_, fun h => ?_⟩
    · rw [p2, p3, if_pos h, if_pos h]
      exact ⟨rfl, rfl⟩
    · rw [p2, p3, if_neg h, if_neg h]
      exact ⟨rfl, rfl⟩

theorem chute_sai_da_fase2_witness :
    (idle^[33] (disparar estadoInicial .chuteEsq)).chutando = true ∧
      (idle^[33] (disparar estadoInicial .chuteEsq)).etapaChute = 2 ∧
      (idle^[33] (disparar estadoInicial .chuteEsq)).chuteEsqCiclo +
        (if (animarChute (idle^[33] (disparar estadoInicial .chuteEsq))).anguloPantEsquerda ≥ 30
          then 1 else 0) = 5 ∧
      (animarChute (idle^[33] (disparar estadoInicial .chuteEsq))).etapaChute = 3 ∧
      (animarChute (idle^[33] (disparar estadoInicial .chuteEsq))).chuteEsqCiclo = 0 :=
  ⟨by decide!, by decide!, by decide!,
    ((chute_sai_da_fase2 _ (by decide!) (by decide!)).2 (by decide!) (by decide!)).2.1
      (by decide!)⟩

/-! ### States at rest, hidden counters and durations (C28 - C30) -/

theorem idle_iterate_repouso (t : Estado) (h : Repouso t) (n : Nat) : idle^[n] t = t := by
  induction n with
  | zero => rfl
  | succ n ih =>
    rw [Function.iterate_succ_apply', ih]
    exact idle_inativo t h.2.2.2.1 h.2.2.2.2.2.1

/-- After its last tick a gesture triggered at rest stays where it ended. -/
theorem gesto_apos_fim (r : Estado) (g : Gesto) (i : Nat) (hr : Repouso r)
    (hl : dentroDosLimites r) (hi : duracao g ≤ i) :
    idle^[i] (disparar r g) = idle^[duracao g] (disparar r g) := by
  obtain ⟨k, rfl⟩ := Nat.exists_eq_add_of_le hi
  rw [Nat.add_comm, Function.iterate_add_apply]
  exact idle_iterate_repouso _ (inv_fim r g hr hl).1 k

/-- What the trigger key of `g` does to each joint angle. -/
theorem disparar_angulo (r : Estado) (g : Gesto) (a : Articulacao) (h : r.animando = false) :
    (disparar r g).angulo a = if a ∈ articulacoesZeradas g then 0 else r.angulo a := by
  have e := tecladoEspecial_disparar r g h
  cases g <;>
    simp only [tecladoEspecial, h, Gesto.tecla, GLUT_KEY_F1, GLUT_KEY_F2, GLUT_KEY_F3,
      GLUT_KEY_F4, Bool.false_eq_true, if_false, if_true, Option.some.injEq] at e <;>
    norm_num at e <;>
    rw [← e] <;>
    cases a <;> simp [articulacoesZeradas, Estado.angulo]

/-- The joint angles `i` ticks into a gesture triggered at rest: the driven
joints follow the run on the initialisers, the others stay as the trigger left
them. -/
theorem gesto_angulo (r : Estado) (g : Gesto) (i : Nat) (a : Articulacao) (hr : Repouso r)
    (hi : i ≤ duracao g) :
    (idle^[i] (disparar r g)).angulo a =
      if a ∈ articulacoesMovidas g then (idle^[i] (inicioGesto g)).angulo a
      else (disparar r g).angulo a := by
  rw [gesto_enxerto r g i hr hi]
  generalize idle^[i] (inicioGesto g) = c
  generalize disparar r g = u
  cases g <;> cases a <;> simp [articulacoesMovidas, Estado.angulo, enxerto, controleDe]

theorem trajetoria_pares (g : Gesto) :
    ∀ i < duracao g,
      ¬ ((idle^[i] (inicioGesto g)).acenando = true ∧ (idle^[i] (inicioGesto g)).etapaAceno = 2) →
      ¬ ((idle^[i] (inicioGesto g)).chutando = true ∧ (idle^[i] (inicioGesto g)).etapaChute = 2) →
      paresIniciais (idle^[i] (inicioGesto g)) := by
  cases g <;> decide!

theorem paresIniciais_repouso (s : Estado) (h : Repouso s) : paresIniciais s := by
  obtain ⟨-, -, -, -, -, -, -, h8, h9, h10, h11, h12, h13, h14, h15⟩ := h
  exact ⟨⟨h8, h9⟩, ⟨h10, h11⟩, ⟨h12, h13⟩, ⟨h14, h15⟩⟩

/-- C28 (idle states are always within limits): in every reachable state with
`animando = false` every joint angle that has a declared limit lies inside it;
and some reachable state in the middle of a gesture has an angle outside its
limit. -/
theorem repouso_dentro_dos_limites (s : Estado) (hs : Alcancavel s) (ha : s.animando = false) :
    (∀ (a : Articulacao) (l : tpLimite), limiteDe a = some l → dentro (s.angulo a) l) ∧
      ∃ t : Estado, Alcancavel t ∧ t.animando = true ∧
        ¬ dentro (t.angulo .antebracoDireito) limAntebracoDir := by
  obtain ⟨-, h1, h2, h3, h4, h5, h6, h7, h8, h9, h10, h11, h12, h13, h14, h15⟩ :=
    inv_parado s (inv_alcancavel s hs) ha
  refine ⟨fun a l e => ?_,
    idle^[30] (disparar estadoInicial .acenoDir),
    ⟨_, executar_gesto estadoInicial .acenoDir 30 rfl⟩, by decide!, by decide!⟩
  cases a <;> cases e <;> assumption

/-- Witness for C28: the state at the end of the wave `main` starts with. -/
theorem repouso_dentro_dos_limites_witness :
    Alcancavel (idle^[141] (disparar estadoInicial .acenoEsq)) ∧
      (idle^[141] (disparar estadoInicial .acenoEsq)).animando = false ∧
      ∀ (a : Articulacao) (l : tpLimite), limiteDe a = some l →
        dentro ((idle^[141] (disparar estadoInicial .acenoEsq)).angulo a) l :=
  ⟨⟨_, executar_gesto estadoInicial .acenoEsq 141 rfl⟩, by decide!,
    (repouso_dentro_dos_limites _ ⟨_, executar_gesto estadoInicial .acenoEsq 141 rfl⟩
      (by decide!)).1⟩

/-- C29 (hidden counters are restored): in every reachable state in which no
wave and no kick is in its phase 2, in particular in every reachable state with
`animando = false`, the four static pairs `(direcao, ciclo)` hold `(1, 0)`.
Consequently a gesture triggered in a reachable state `s` with
`animando = false` runs as it does from any other such state `r`: tick by
tick, every joint the trigger zeroes or the gesture drives, and every joint on
which `s` and `r` agree, has the same angle in both runs. -/
theorem contadores_restaurados (s : Estado) (hs : Alcancavel s) :
    (¬ (s.acenando = true ∧ s.etapaAceno = 2) → ¬ (s.chutando = true ∧ s.etapaChute = 2) →
        paresIniciais s) ∧
      (s.animando = false → paresIniciais s) ∧
      (s.animando = false → ∀ r : Estado, Alcancavel r → r.animando = false →
        ∀ (g : Gesto) (a : Articulacao), (a ∈ articulacoesZeradas g ∨ s.angulo a = r.angulo a) →
          ∀ i : Nat, (idle^[i] (disparar s g)).angulo a = (idle^[i] (disparar r g)).angulo a) := by
  refine ⟨fun h1 h2 => ?_, fun ha => ?_, fun ha r hr har g a hsr i => ?_⟩
  · rcases inv_alcancavel s hs with ⟨hrep, -⟩ | ⟨g, r, i, hr, hl, hi, rfl⟩
    · exact paresIniciais_repouso s hrep
    · rw [gesto_enxerto r g i hr (Nat.le_of_lt hi)] at h1 h2 ⊢
      have t := trajetoria_pares g i hi
      generalize idle^[i] (inicioGesto g) = c at h1 h2 t ⊢
      generalize disparar r g = u at h1 h2 ⊢
      cases g <;> exact t h1 h2
  · exact paresIniciais_repouso s (inv_parado s (inv_alcancavel s hs) ha).1
  · obtain ⟨ps, ls⟩ := inv_parado s (inv_alcancavel s hs) ha
    obtain ⟨pr, lr⟩ := inv_parado r (inv_alcancavel r hr) har
    have key : ∀ j ≤ duracao g,
        (idle^[j] (disparar s g)).angulo a = (idle^[j] (disparar r g)).angulo a := by
      intro j hj
      rw [gesto_angulo s g j a ps hj, gesto_angulo r g j a pr hj, disparar_angulo s g a ha,
        disparar_angulo r g a har]
      by_cases hm : a ∈ articulacoesMovidas g
      · rw [if_pos hm, if_pos hm]
      · rw [if_neg hm, if_neg hm]
        by_cases hz : a ∈ articulacoesZeradas g
        · rw [if_pos hz, if_pos hz]
        · rw [if_neg hz, if_neg hz]
          exact hsr.resolve_left hz
    by_cases hi : i ≤ duracao g
    · exact key i hi
    · rw [gesto_apos_fim s g i ps ls (Nat.le_of_not_le hi),
        gesto_apos_fim r g i pr lr (Nat.le_of_not_le hi)]
      exact key _ (Nat.le_refl _)

/-- Witness for C29: the right wave after the wave `main` starts with, against
the right wave from the initialisers, at tick 50 and the right forearm. -/
theorem contadores_restaurados_witness :
    Alcancavel (idle^[141] (disparar estadoInicial .acenoEsq)) ∧
      (idle^[141] (disparar estadoInicial .acenoEsq)).animando = false ∧
      paresIniciais (idle^[141] (disparar estadoInicial .acenoEsq)) ∧
      (idle^[50] (disparar (idle^[141] (disparar estadoInicial .acenoEsq)) .acenoDir)).angulo
          .antebracoDireito =
        (idle^[50] (disparar estadoInicial .acenoDir)).angulo .antebracoDireito :=
  ⟨⟨_, executar_gesto estadoInicial .acenoEsq 141 rfl⟩, by decide!,
    (contadores_restaurados _ ⟨_, executar_gesto estadoInicial .acenoEsq 141 rfl⟩).2.1
      (by decide!),
    (contadores_restaurados _ ⟨_, executar_gesto estadoInicial .acenoEsq 141 rfl⟩).2.2
      (by decide!) estadoInicial ⟨[], rfl⟩ rfl .acenoDir .antebracoDireito
      (Or.inl (by decide)) 50⟩

/-- C30 (exact gesture durations): in a reachable state with `animando = false`
the trigger key of a gesture leaves a state from which `animando` is true after
every number of idle ticks below the duration and false after exactly the
duration, which is 141 for the right wave (F2), 141 for the left wave (F1), 40
for the right kick (F4) and 44 for the left kick (F3). -/
theorem duracao_exata (s : Estado) (hs : Alcancavel s) (ha : s.animando = false) (g : Gesto) :
    (duracao .acenoDir = 141 ∧ duracao .acenoEsq = 141 ∧ duracao .chuteDir = 40 ∧
        duracao .chuteEsq = 44) ∧
      ∃ t : Estado, tecladoEspecial s g.tecla = some t ∧
        (idle^[duracao g] t).animando = false ∧
        (idle^[duracao g - 1] t).animando = true ∧
        ∀ i < duracao g, (idle^[i] t).animando = true := by
  obtain ⟨hr, hl⟩ := inv_parado s (inv_alcancavel s hs) ha
  refine ⟨⟨rfl, rfl, rfl, rfl⟩, disparar s g, tecladoEspecial_disparar s g ha,
    (inv_fim s g hr hl).1.2.2.1, ?_, fun i hi => (inv_emGesto s g i hr hl hi).2.1⟩
  exact (inv_emGesto s g _ hr hl (Nat.sub_lt (duracao_pos g) Nat.one_pos)).2.1

/-- Witness for C30: the left kick from the initial state. -/
theorem duracao_exata_witness :
    Alcancavel estadoInicial ∧ estadoInicial.animando = false ∧
      ∃ t : Estado, tecladoEspecial estadoInicial GLUT_KEY_F3 = some t ∧
        (idle^[44] t).animando = false ∧ (idle^[43] t).animando = true ∧
        ∀ i < 44, (idle^[i] t).animando = true :=
  ⟨⟨[], rfl⟩, rfl, (duracao_exata estadoInicial ⟨[], rfl⟩ rfl .chuteEsq).2⟩

/-! ### The quit key (C22) -/

/-- C22, as stated, fails: in the state `main` leaves, with the left wave
triggered and `animando = true`, `teclado` with ESC returns without ending the
process and leaves the state as it is. -/
theorem esc_ignorado_durante_gesto :
    Alcancavel (inicioGesto .acenoEsq) ∧ (inicioGesto .acenoEsq).animando = true ∧
      teclado (inicioGesto .acenoEsq) '\x1b' = some (inicioGesto .acenoEsq) ∧
      teclado (inicioGesto .acenoEsq) '\x1b' ≠ none :=
  ⟨⟨_, executar_gesto estadoInicial .acenoEsq 0 rfl⟩, by decide!,
    teclado_animando _ _ (by decide!), by
      rw [teclado_animando _ _ (by decide!)]
      exact Option.some_ne_none _⟩

/-- C22 (amended): in every state with `animando = false`, ESC (code 27) given
to `teclado` ends the process; in every state with `animando = true` the key
is ignored and the state is left unchanged. -/
theorem esc_termina_em_repouso (s : Estado) :
    (s.animando = false → teclado s '\x1b' = none) ∧
      (s.animando = true → teclado s '\x1b' = some s) :=
  ⟨fun h => by simp [teclado, h], fun h => teclado_animando s _ h⟩

/-- Witness for C22 (amended): ESC in the initial state, and ESC during the
left wave. -/
theorem esc_termina_em_repouso_witness :
    estadoInicial.animando = false ∧ teclado estadoInicial '\x1b' = none ∧
      (inicioGesto .acenoEsq).animando = true ∧
      teclado (inicioGesto .acenoEsq) '\x1b' = some (inicioGesto .acenoEsq) :=
  ⟨rfl, (esc_termina_em_repouso estadoInicial).1 rfl, by decide!,
    (esc_termina_em_repouso (inicioGesto .acenoEsq)).2 (by decide!)⟩

/-! ### Binary32 rounding -/

theorem log2Aux_spec (k n : Nat) (h : n ≤ k) (hn : 0 < n) :
    2 ^ log2Aux k n ≤ n ∧ n < 2 ^ (log2Aux k n + 1) := by
  induction k generalizing n with
  | zero => omega
  | succ k ih =>
    unfold log2Aux
    split_ifs with h2
    · obtain ⟨i1, i2⟩ := ih (n / 2) (by omega) (by omega)
      rw [pow_succ] at i2 ⊢
      rw [pow_succ]
      constructor <;> omega
    · simp only [pow_zero, zero_add, pow_one]
      constructor <;> omega

theorem expoente_spec (q : ℚ) (hq : 0 < q) :
    (2 : ℚ) ^ expoente q ≤ q ∧ q < (2 : ℚ) ^ (expoente q + 1) := by
  have hn : 0 < q.num := Rat.num_pos.mpr hq
  have hd : 0 < q.den := q.den_pos
  obtain ⟨ha1, ha2⟩ := log2Aux_spec q.num.natAbs q.num.natAbs (Nat.le_refl _) (by omega)
  obtain ⟨hb1, hb2⟩ := log2Aux_spec q.den q.den (Nat.le_refl _) hd
  have hnum : ((q.num.natAbs : Nat) : ℚ) = (q.num : ℚ) := by
    rw [← Int.cast_natCast, Int.natAbs_of_nonneg hn.le]
  have hq_eq : q = (q.num.natAbs : ℚ) / (q.den : ℚ) := by
    rw [hnum]
    exact (Rat.num_div_den q).symm
  unfold expoente
  generalize log2Aux q.num.natAbs q.num.natAbs = a at ha1 ha2 ⊢
  generalize log2Aux q.den q.den = b at hb1 hb2 ⊢
  generalize q.num.natAbs = N at ha1 ha2 hq_eq ⊢
  generalize q.den = D at hd hb1 hb2 hq_eq ⊢
  have hN1 : (2 : ℚ) ^ a ≤ (N : ℚ) := by exact_mod_cast ha1
  have hN2 : (N : ℚ) < (2 : ℚ) ^ (a + 1) := by exact_mod_cast ha2
  have hD1 : (2 : ℚ) ^ b ≤ (D : ℚ) := by exact_mod_cast hb1
  have hD2 : (D : ℚ) < (2 : ℚ) ^ (b + 1) := by exact_mod_cast hb2
  have hD0 : (0 : ℚ) < D := by exact_mod_cast hd
  have p2a : (0 : ℚ) < 2 ^ a := by positivity
  have p2b : (0 : ℚ) < 2 ^ b := by positivity
  have e1 : (2 : ℚ) ^ ((a : Int) - (b : Int) + 1) = 2 ^ (a + 1) / 2 ^ b := by
    rw [show (a : Int) - (b : Int) + 1 = ((a + 1 : Nat) : Int) - (b : Int) by push_cast; ring,
      zpow_sub₀ two_ne_zero, zpow_natCast, zpow_natCast]
  have e2 : (2 : ℚ) ^ ((a : Int) - (b : Int) - 1) = 2 ^ a / 2 ^ (b + 1) := by
    rw [show (a : Int) - (b : Int) - 1 = (a : Int) - ((b + 1 : Nat) : Int) by push_cast; ring,
      zpow_sub₀ two_ne_zero, zpow_natCast, zpow_natCast]
  have upper : q < (2 : ℚ) ^ ((a : Int) - (b : Int) + 1) := by
    rw [e1, hq_eq, div_lt_div_iff₀ hD0 p2b]
    calc (N : ℚ) * 2 ^ b < 2 ^ (a + 1) * 2 ^ b := by
          exact mul_lt_mul_of_pos_right hN2 p2b
      _ ≤ 2 ^ (a + 1) * D := by
          exact mul_le_mul_of_nonneg_left hD1 (by positivity)
  have lower : (2 : ℚ) ^ ((a : Int) - (b : Int) - 1) ≤ q := by
    rw [e2, hq_eq, div_le_div_iff₀ (by positivity) hD0]
    calc (2 : ℚ) ^ a * D ≤ 2 ^ a * 2 ^ (b + 1) := by
          exact mul_le_mul_of_nonneg_left hD2.le (by positivity)
      _ ≤ N * 2 ^ (b + 1) := by
          exact mul_le_mul_of_nonneg_right hN1 (by positivity)
  split_ifs with h
  · exact ⟨h, upper⟩
  · rw [sub_add_cancel]
    exact ⟨lower, not_le.mp h⟩

theorem arredondarInteiro_spec (m : ℚ) :
    m - 1 / 2 ≤ (arredondarInteiro m : ℚ) ∧ (arredondarInteiro m : ℚ) ≤ m + 1 / 2 := by
  have h1 : (⌊m⌋ : ℚ) ≤ m := Int.floor_le m
  have h2 : m < (⌊m⌋ : ℚ) + 1 := Int.lt_floor_add_one m
  unfold arredondarInteiro
  split_ifs with a b c
  · constructor <;> linarith
  · push_cast
    constructor <;> linarith
  · have e : m - ⌊m⌋ = 1 / 2 := le_antisymm (not_lt.mp b) (not_lt.mp a)
    constructor <;> linarith
  · have e : m - ⌊m⌋ = 1 / 2 := le_antisymm (not_lt.mp b) (not_lt.mp a)
    push_cast
    constructor <;> linarith

theorem arredondarInteiro_ge (m : ℚ) (k : Int) (h : (k : ℚ) ≤ m) : k ≤ arredondarInteiro m := by
  have h1 : k ≤ ⌊m⌋ := Int.le_floor.mpr h
  unfold arredondarInteiro
  split_ifs <;> omega

theorem arredondar32_positivo (q : ℚ) (hq : 0 < q) :
    arredondar32 q =
      arredondarInteiro (q / 2 ^ (expoente q - 23)) * 2 ^ (expoente q - 23) := by
  unfold arredondar32
  rw [if_neg (ne_of_gt hq), if_pos hq]

/-- Rounding is symmetric about 0. -/
theorem arredondar32_oposto (q : ℚ) : arredondar32 (-q) = -arredondar32 q := by
  rcases lt_trichotomy q 0 with h | h | h
  · have h1 : 0 < -q := neg_pos.mpr h
    rw [arredondar32_positivo (-q) h1]
    unfold arredondar32
    rw [if_neg (ne_of_lt h), if_neg (not_lt.mpr h.le), neg_neg]
  · subst h
    simp [arredondar32]
  · have h1 : -q < 0 := neg_lt_zero.mpr h
    rw [arredondar32_positivo q h]
    unfold arredondar32
    rw [if_neg (ne_of_lt h1), if_neg (not_lt.mpr h1.le), neg_neg]

/-- Rounding a positive value changes it by at most one part in `2 ^ 24`. -/
theorem arredondar32_erro (q : ℚ) (hq : 0 < q) :
    (1 - 1 / 16777216) * q ≤ arredondar32 q ∧ arredondar32 q ≤ (1 + 1 / 16777216) * q := by
  obtain ⟨he, -⟩ := expoente_spec q hq
  rw [arredondar32_positivo q hq]
  have hu : (0 : ℚ) < 2 ^ (expoente q - 23) := by positivity
  have eu : (2 : ℚ) ^ (expoente q - 23) = 2 ^ expoente q / 8388608 := by
    rw [zpow_sub₀ two_ne_zero]
    norm_num
  obtain ⟨r1, r2⟩ := arredondarInteiro_spec (q / 2 ^ (expoente q - 23))
  generalize (arredondarInteiro (q / 2 ^ (expoente q - 23)) : ℚ) = r at r1 r2
  have hm : q / 2 ^ (expoente q - 23) * 2 ^ (expoente q - 23) = q := div_mul_cancel₀ q (ne_of_gt hu)
  have b1 : (q / 2 ^ (expoente q - 23) - 1 / 2) * 2 ^ (expoente q - 23) ≤
      r * 2 ^ (expoente q - 23) := mul_le_mul_of_nonneg_right r1 hu.le
  have b2 : r * 2 ^ (expoente q - 23) ≤
      (q / 2 ^ (expoente q - 23) + 1 / 2) * 2 ^ (expoente q - 23) :=
    mul_le_mul_of_nonneg_right r2 hu.le
  rw [sub_mul, hm] at b1
  rw [add_mul, hm] at b2
  rw [eu] at b1 b2 ⊢
  constructor <;> linarith

theorem arredondar32_pos (q : ℚ) (hq : 0 < q) : 0 < arredondar32 q := by
  have h := (arredondar32_erro q hq).1
  have : 0 < (1 - 1 / 16777216) * q := by positivity
  linarith

/-- Rounding a value that is at least 12 gives at least 12. -/
theorem arredondar32_doze (q : ℚ) (hq : 12 ≤ q) : 12 ≤ arredondar32 q := by
  have hq0 : 0 < q := by linarith
  obtain ⟨he1, he2⟩ := expoente_spec q hq0
  rw [arredondar32_positivo q hq0]
  have hu : (0 : ℚ) < 2 ^ (expoente q - 23) := by positivity
  have he3 : (3 : Int) < expoente q + 1 := by
    have : (2 : ℚ) ^ (3 : Int) < 2 ^ (expoente q + 1) := by
      have : (2 : ℚ) ^ (3 : Int) = 8 := by norm_num
      linarith
    exact (zpow_lt_zpow_iff_right₀ (by norm_num : (1 : ℚ) < 2)).mp this
  rcases (by omega : expoente q = 3 ∨ 4 ≤ expoente q) with h3 | h4
  · rw [h3] at hu ⊢
    have eu : (2 : ℚ) ^ ((3 : Int) - 23) = 1 / 1048576 := by norm_num [zpow_neg]
    rw [eu] at hu ⊢
    have hk : ((12582912 : Int) : ℚ) ≤ q / (1 / 1048576) := by
      rw [le_div_iff₀ hu]
      push_cast
      linarith
    have := arredondarInteiro_ge _ _ hk
    have hc : ((12582912 : Int) : ℚ) ≤ (arredondarInteiro (q / (1 / 1048576)) : ℚ) := by
      exact_mod_cast this
    push_cast at hc
    linarith
  · have hk : ((8388608 : Int) : ℚ) ≤ q / 2 ^ (expoente q - 23) := by
      rw [le_div_iff₀ hu, zpow_sub₀ two_ne_zero]
      push_cast
      have : (8388608 : ℚ) * (2 ^ expoente q / 2 ^ (23 : Int)) = 2 ^ expoente q := by
        norm_num
        ring
      linarith
    have := arredondarInteiro_ge _ _ hk
    have hc : ((8388608 : Int) : ℚ) ≤
        (arredondarInteiro (q / 2 ^ (expoente q - 23)) : ℚ) := by
      exact_mod_cast this
    have h16 : (2 : ℚ) ^ (4 : Int) ≤ 2 ^ expoente q :=
      zpow_le_zpow_right₀ (by norm_num) h4
    have e16 : (2 : ℚ) ^ (4 : Int) = 16 := by norm_num
    have eu : (2 : ℚ) ^ (expoente q - 23) = 2 ^ expoente q / 8388608 := by
      rw [zpow_sub₀ two_ne_zero]
      norm_num
    push_cast at hc
    have := mul_le_mul_of_nonneg_right hc hu.le
    rw [eu] at this ⊢
    linarith

/-! ### The projection (C23) -/

theorem quociente_acima {a b x y c1 c2 c : ℚ} (hb : 0 < b) (hy : 0 < y) (hx : 0 ≤ x)
    (hc : 0 ≤ c) (ha : a ≤ c1 * x) (hb2 : c2 * y ≤ b) (hcc : c1 ≤ c * c2) :
    a / b ≤ c * (x / y) := by
  rw [div_le_iff₀ hb, mul_assoc, div_mul_eq_mul_div, mul_div_assoc']
  rw [le_div_iff₀ hy]
  calc a * y ≤ c1 * x * y := mul_le_mul_of_nonneg_right ha hy.le
    _ ≤ c * c2 * x * y := by
        have := mul_le_mul_of_nonneg_right hcc (mul_nonneg hx hy.le)
        linarith
    _ = c * (x * (c2 * y)) := by ring
    _ ≤ c * (x * b) := by
        exact mul_le_mul_of_nonneg_left (mul_le_mul_of_nonneg_left hb2 hx) hc

theorem quociente_abaixo {a b x y c1 c2 c : ℚ} (hb : 0 < b) (hy : 0 < y) (hx : 0 ≤ x)
    (hc : 0 ≤ c) (ha : c1 * x ≤ a) (hb2 : b ≤ c2 * y) (hcc : c * c2 ≤ c1) :
    c * (x / y) ≤ a / b := by
  rw [le_div_iff₀ hb, mul_assoc, div_mul_eq_mul_div, mul_div_assoc']
  rw [div_le_iff₀ hy]
  calc c * (x * b) ≤ c * (x * (c2 * y)) := by
        exact mul_le_mul_of_nonneg_left (mul_le_mul_of_nonneg_left hb2 hx) hc
    _ = c * c2 * x * y := by ring
    _ ≤ c1 * x * y := by
        have := mul_le_mul_of_nonneg_right hcc (mul_nonneg hx hy.le)
        linarith
    _ ≤ a * y := mul_le_mul_of_nonneg_right ha hy.le

/-- The aspect ratio `remodelar` computes, against the exact quotient. -/
theorem proporcao_erro (w h : Int) (hw : 0 < w) (hh : 0 < h) :
    0 < arredondar32 (arredondar32 w / arredondar32 h) ∧
      (1 - 5 / 16777216) * ((w : ℚ) / h) ≤ arredondar32 (arredondar32 w / arredondar32 h) ∧
      arredondar32 (arredondar32 w / arredondar32 h) ≤ (1 + 5 / 16777216) * ((w : ℚ) / h) := by
  have hw0 : (0 : ℚ) < w := by exact_mod_cast hw
  have hh0 : (0 : ℚ) < h := by exact_mod_cast hh
  obtain ⟨a1, a2⟩ := arredondar32_erro w hw0
  obtain ⟨b1, b2⟩ := arredondar32_erro h hh0
  have ha := arredondar32_pos w hw0
  have hb := arredondar32_pos h hh0
  have hq : 0 < arredondar32 w / arredondar32 h := div_pos ha hb
  obtain ⟨p1, p2⟩ := arredondar32_erro _ hq
  have q2 : arredondar32 w / arredondar32 h ≤ (1 + 3 / 16777216) * ((w : ℚ) / h) :=
    quociente_acima hb hh0 hw0.le (by norm_num) a2 b1 (by norm_num)
  have q1 : (1 - 3 / 16777216) * ((w : ℚ) / h) ≤ arredondar32 w / arredondar32 h :=
    quociente_abaixo hb hh0 hw0.le (by norm_num) a1 b2 (by norm_num)
  have hr : 0 < (w : ℚ) / h := div_pos hw0 hh0
  refine ⟨arredondar32_pos _ hq, ?_, ?_⟩
  · have := mul_le_mul_of_nonneg_left q1 (by norm_num : (0 : ℚ) ≤ 1 - 1 / 16777216)
    nlinarith
  · have := mul_le_mul_of_nonneg_left q2 (by norm_num : (0 : ℚ) ≤ 1 + 1 / 16777216)
    nlinarith

/-- The wide case of `remodelar`, on the numbers: `p` the rounded aspect ratio,
`r` the exact one, `H` the rounded product `12 * p`. -/
theorem caso_largo (p r H : ℚ) (hr : 0 < r) (hp : 1 < p)
    (hp1 : (1 - 5 / 16777216) * r ≤ p) (hp2 : p ≤ (1 + 5 / 16777216) * r)
    (f1 : (1 - 1 / 16777216) * (12 * p) ≤ H) (f2 : H ≤ (1 + 1 / 16777216) * (12 * p)) :
    |H - 12 * max 1 r| ≤ 1 / 2097152 * (12 * max 1 r) ∧
      |12 - 12 * max 1 (1 / r)| ≤ 1 / 2097152 * (12 * max 1 (1 / r)) ∧
      |H / 12 - r| ≤ 1 / 2097152 * r := by
  have g1 : (1 - 1 / 2097152) * (12 * r) ≤ H := by nlinarith
  have g2 : H ≤ (1 + 1 / 2097152) * (12 * r) := by nlinarith
  have hr1 : 1 - 1 / 2097152 ≤ r := by nlinarith
  refine ⟨?_, ?_, ?_⟩
  · rcases le_total 1 r with c | c
    · rw [max_eq_right c, abs_le]
      constructor <;> linarith
    · rw [max_eq_left c, abs_le]
      constructor <;> nlinarith
  · rcases le_total 1 (1 / r) with c | c
    · rw [max_eq_right c, abs_le]
      have : r * (1 / r) = 1 := by field_simp
      constructor <;> nlinarith
    · rw [max_eq_left c, abs_le]
      constructor <;> norm_num
  · rw [abs_le]
    constructor <;> linarith

/-- The tall case of `remodelar`, on the numbers: `p` the rounded aspect ratio,
`r` the exact one, `V` the rounded quotient `12 / p`. -/
theorem caso_alto (p r V : ℚ) (hr : 0 < r) (hp0 : 0 < p) (hp : p ≤ 1)
    (hp1 : (1 - 5 / 16777216) * r ≤ p) (hp2 : p ≤ (1 + 5 / 16777216) * r)
    (f1 : (1 - 1 / 16777216) * (12 / p) ≤ V) (f2 : V ≤ (1 + 1 / 16777216) * (12 / p))
    (h12 : 12 ≤ V) :
    |12 - 12 * max 1 r| ≤ 1 / 2097152 * (12 * max 1 r) ∧
      |V - 12 * max 1 (1 / r)| ≤ 1 / 2097152 * (12 * max 1 (1 / r)) ∧
      |12 / V - r| ≤ 1 / 2097152 * r := by
  have x2 : 12 / p ≤ (1 + 6 / 16777216) * (12 / r) :=
    quociente_acima hp0 hr (by norm_num) (by norm_num) (by norm_num : (12 : ℚ) ≤ 1 * 12) hp1
      (by norm_num)
  have x1 : (1 - 5 / 16777216) * (12 / r) ≤ 12 / p :=
    quociente_abaixo hp0 hr (by norm_num) (by norm_num) (by norm_num : (1 : ℚ) * 12 ≤ 12) hp2
      (by norm_num)
  generalize 12 / p = x at x1 x2 f1 f2
  have ht : 12 * (1 / r) = 12 / r := by ring
  have hrt : r * (12 / r) = 12 := by field_simp
  have ht0 : 0 < 12 / r := by positivity
  generalize 12 / r = t at ht hrt ht0 x1 x2
  have g1 : (1 - 6 / 16777216) * t ≤ V := by nlinarith
  have g2 : V ≤ (1 + 1 / 2097152) * t := by nlinarith
  have hV0 : 0 < V := by linarith
  refine ⟨?_, ?_, ?_⟩
  · rcases le_total 1 r with c | c
    · rw [max_eq_right c, abs_le]
      constructor <;> nlinarith
    · rw [max_eq_left c, abs_le]
      constructor <;> norm_num
  · rcases le_total 1 (1 / r) with c | c
    · rw [max_eq_right c, ht, abs_le]
      constructor <;> linarith
    · rw [max_eq_left c, abs_le]
      have : t ≤ 12 := by linarith
      constructor <;> nlinarith
  · have a1 : (1 - 6 / 16777216) * 12 ≤ r * V := by
      have := mul_le_mul_of_nonneg_left g1 hr.le
      nlinarith
    have a2 : r * V ≤ (1 + 1 / 2097152) * 12 := by
      have := mul_le_mul_of_nonneg_left g2 hr.le
      nlinarith
    rw [abs_le]
    constructor
    · rw [le_sub_iff_add_le, le_div_iff₀ hV0]
      nlinarith
    · rw [sub_le_iff_le_add, div_le_iff₀ hV0]
      nlinarith

/-- C23, as stated, fails: for 1920 by 1080 the horizontal half-extent
`remodelar` passes is the `float` 11184811 / 524288 = 21.33333396..., not
12 * 1920 / 1080, and its ratio to the vertical half-extent 12 is not
1920 / 1080. -/
theorem remodelar_arredonda :
    (remodelar 1920 1080).direita = 11184811 / 524288 ∧
      (remodelar 1920 1080).cima = 12 ∧
      (remodelar 1920 1080).direita ≠ 12 * 1920 / 1080 ∧
      (remodelar 1920 1080).direita / (remodelar 1920 1080).cima ≠ 1920 / 1080 := by
  decide!

/-- C23 (amended): for a window of width `w > 0` and height `h > 0`,
`remodelar` sets a projection symmetric about the origin; one of its two
half-extents is exactly 12 and the other is at least 12; the horizontal one is
`12 * max 1 (w / h)` and the vertical one `12 * max 1 (h / w)` up to `float`
rounding, each within one part in `2 ^ 21`, and so is their ratio against
`w / h`; for 1920 by 1080 they are 11184811 / 524288 and 12. -/
theorem remodelar_proporcao (w h : Int) (hw : 0 < w) (hh : 0 < h) :
    ((remodelar w h).esquerda = -(remodelar w h).direita ∧
        (remodelar w h).baixo = -(remodelar w h).cima) ∧
      (((remodelar w h).direita = 12 ∧ 12 ≤ (remodelar w h).cima) ∨
        ((remodelar w h).cima = 12 ∧ 12 ≤ (remodelar w h).direita)) ∧
      |(remodelar w h).direita - 12 * max 1 ((w : ℚ) / h)| ≤
        1 / 2097152 * (12 * max 1 ((w : ℚ) / h)) ∧
      |(remodelar w h).cima - 12 * max 1 ((h : ℚ) / w)| ≤
        1 / 2097152 * (12 * max 1 ((h : ℚ) / w)) ∧
      |(remodelar w h).direita / (remodelar w h).cima - (w : ℚ) / h| ≤
        1 / 2097152 * ((w : ℚ) / h) ∧
      (remodelar 1920 1080).direita = 11184811 / 524288 ∧ (remodelar 1920 1080).cima = 12 := by
  have hw0 : (0 : ℚ) < w := by exact_mod_cast hw
  have hh0 : (0 : ℚ) < h := by exact_mod_cast hh
  obtain ⟨hp0, hp1, hp2⟩ := proporcao_erro w h hw hh
  have hr : 0 < (w : ℚ) / h := div_pos hw0 hh0
  have hs : (h : ℚ) / w = 1 / ((w : ℚ) / h) := by
    rw [one_div, inv_div]
  have e1920 : (remodelar 1920 1080).direita = 11184811 / 524288 ∧
      (remodelar 1920 1080).cima = 12 := by
    decide!
  rw [hs]
  by_cases hp : arredondar32 (arredondar32 w / arredondar32 h) > 1
  · have eD : (remodelar w h).direita =
        arredondar32 (12 * arredondar32 (arredondar32 w / arredondar32 h)) := by
      unfold remodelar
      simp only [hp, if_true]
    have eE : (remodelar w h).esquerda =
        -arredondar32 (12 * arredondar32 (arredondar32 w / arredondar32 h)) := by
      unfold remodelar
      simp only [hp, if_true]
      rw [neg_mul, arredondar32_oposto]
    have eC : (remodelar w h).cima = 12 := by
      unfold remodelar
      simp only [hp, if_true]
    have eB : (remodelar w h).baixo = -12 := by
      unfold remodelar
      simp only [hp, if_true]
    rw [eD, eE, eC, eB]
    generalize arredondar32 (arredondar32 w / arredondar32 h) = p at hp hp0 hp1 hp2
    have h12 : 12 ≤ arredondar32 (12 * p) := arredondar32_doze _ (by linarith)
    obtain ⟨f1, f2⟩ := arredondar32_erro (12 * p) (by linarith)
    obtain ⟨c1, c2, c3⟩ := caso_largo p _ _ hr hp hp1 hp2 f1 f2
    exact ⟨⟨rfl, rfl⟩, Or.inr ⟨rfl, h12⟩, c1, c2, c3, e1920⟩
  · have hp3 : arredondar32 (arredondar32 w / arredondar32 h) ≤ 1 := not_lt.mp hp
    have eD : (remodelar w h).direita = 12 := by
      unfold remodelar
      simp only [hp, if_false]
    have eE : (remodelar w h).esquerda = -12 := by
      unfold remodelar
      simp only [hp, if_false]
    have eC : (remodelar w h).cima =
        arredondar32 (12 / arredondar32 (arredondar32 w / arredondar32 h)) := by
      unfold remodelar
      simp only [hp, if_false]
    have eB : (remodelar w h).baixo =
        -arredondar32 (12 / arredondar32 (arredondar32 w / arredondar32 h)) := by
      unfold remodelar
      simp only [hp, if_false]
      rw [neg_div, arredondar32_oposto]
    rw [eD, eE, eC, eB]
    generalize arredondar32 (arredondar32 w / arredondar32 h) = p at hp3 hp0 hp1 hp2
    have hx : 12 ≤ 12 / p := by
      rw [le_div_iff₀ hp0]
      linarith
    have h12 : 12 ≤ arredondar32 (12 / p) := arredondar32_doze _ hx
    obtain ⟨f1, f2⟩ := arredondar32_erro (12 / p) (by linarith)
    obtain ⟨c1, c2, c3⟩ := caso_alto p _ _ hr hp0 hp3 hp1 hp2 f1 f2 h12
    exact ⟨⟨rfl, rfl⟩, Or.inl ⟨rfl, h12⟩, c1, c2, c3, e1920⟩

/-- Witness for C23 (amended): a portrait window of 1080 by 1920 pixels. -/
theorem remodelar_proporcao_witness :
    (0 : Int) < 1080 ∧ (0 : Int) < 1920 ∧
      (remodelar 1080 1920).direita = 12 ∧ 12 ≤ (remodelar 1080 1920).cima ∧
      |(remodelar 1080 1920).cima - 12 * max 1 (((1920 : Int) : ℚ) / (1080 : Int))| ≤
        1 / 2097152 * (12 * max 1 (((1920 : Int) : ℚ) / (1080 : Int))) :=
  ⟨by decide, by decide, by decide!, by decide!,
    (remodelar_proporcao 1080 1920 (by decide) (by decide)).2.2.2.1⟩

/-! ### The conditional forearm seams (C26) -/

/-- C26 (conditional seam selection per arm): after `ligarPartes`, on arrays of
the declared sizes, `pontosBracoDireito[1]` is `calcularPosicaoAtual`, about the
right forearm pivot by the right forearm angle, of `pontosAntebracoDireito[5]`
when `anguloAntebracoDireito <= -34` and of `pontosAntebracoDireito[0]`
otherwise; `pontosBracoEsquerdo[1]` is that of `pontosAntebracoEsquerdo[5]`
when `anguloAntebracoEsquerdo >= 34` and of `pontosAntebracoEsquerdo[0]`
otherwise. The source points are read as they stand after the call, which is
as they stood before it. -/
theorem ligarPartes_costura_condicional {K : Type} [Field K] (T : Trig K) (s : Estado)
    (g : Pontos K) (h : g.tamanhosDeclarados) :
    (s.anguloAntebracoDireito ≤ -34 →
        lerPonto (ligarPartes T s g).pontosBracoDireito 1 =
          calcularPosicaoAtual T (lerPonto (ligarPartes T s g).pontosAntebracoDireito 5)
            pivoAntebracoDireito (s.anguloAntebracoDireito : K)) ∧
      (¬ s.anguloAntebracoDireito ≤ -34 →
        lerPonto (ligarPartes T s g).pontosBracoDireito 1 =
          calcularPosicaoAtual T (lerPonto (ligarPartes T s g).pontosAntebracoDireito 0)
            pivoAntebracoDireito (s.anguloAntebracoDireito : K)) ∧
      (s.anguloAntebracoEsquerdo ≥ 34 →
        lerPonto (ligarPartes T s g).pontosBracoEsquerdo 1 =
          calcularPosicaoAtual T (lerPonto (ligarPartes T s g).pontosAntebracoEsquerdo 5)
            pivoAntebracoEsquerdo (s.anguloAntebracoEsquerdo : K)) ∧
      (¬ s.anguloAntebracoEsquerdo ≥ 34 →
        lerPonto (ligarPartes T s g).pontosBracoEsquerdo 1 =
          calcularPosicaoAtual T (lerPonto (ligarPartes T s g).pontosAntebracoEsquerdo 0)
            pivoAntebracoEsquerdo (s.anguloAntebracoEsquerdo : K)) ∧
      (lerPonto (ligarPartes T s g).pontosAntebracoDireito 5 = lerPonto g.pontosAntebracoDireito 5 ∧
        lerPonto (ligarPartes T s g).pontosAntebracoDireito 0 =
          lerPonto g.pontosAntebracoDireito 0 ∧
        lerPonto (ligarPartes T s g).pontosAntebracoEsquerdo 5 =
          lerPonto g.pontosAntebracoEsquerdo 5 ∧
        lerPonto (ligarPartes T s g).pontosAntebracoEsquerdo 0 =
          lerPonto g.pontosAntebracoEsquerdo 0) := by
  obtain ⟨h1, h2, h3, h4, h5, h6, h7, h8, h9, h10, h11, h12, h13, h14, h15, h16⟩ := h
  simp only [numPontosTronco, numPontosQuadril, numPontosOmbroEsquerdo, numPontosOmbroDireito,
    numPontosBracoDireito, numPontosBracoEsquerdo, numPontosAntebracoDireito,
    numPontosAntebracoEsquerdo, numPontosMaoDireita, numPontosMaoEsquerda, numPontosCoxaDireita,
    numPontosCoxaEsquerda, numPontosPantDireita, numPontosPantEsquerda, numPontosPataDireita,
    numPontosPataEsquerda] at *
  refine ⟨fun c => ?_, fun c => ?_, fun c => ?_, fun c => ?_, ?_, ?_, ?_, ?_⟩ <;>
    simp [ligarPartes, lerPonto_escreverPonto_mesmo, lerPonto_escreverPonto_outro,
      length_escreverPonto, *]

/-- Witness for C26: the initial arrays with the right forearm at -36 and the
left forearm at 0. -/
theorem ligarPartes_costura_condicional_witness :
    (pontosIniciais : Pontos ℚ).tamanhosDeclarados ∧
      ({ estadoInicial with anguloAntebracoDireito := -36 } : Estado).anguloAntebracoDireito
        ≤ -34 ∧
      lerPonto (ligarPartes trigRacional { estadoInicial with anguloAntebracoDireito := -36 }
          pontosIniciais).pontosBracoDireito 1 =
        calcularPosicaoAtual trigRacional
          (lerPonto (ligarPartes trigRacional { estadoInicial with anguloAntebracoDireito := -36 }
            pontosIniciais).pontosAntebracoDireito 5)
          pivoAntebracoDireito
          ((({ estadoInicial with anguloAntebracoDireito := -36 } : Estado).anguloAntebracoDireito
            : ℚ) : ℚ) :=
  ⟨⟨rfl, rfl, rfl, rfl, rfl, rfl, rfl, rfl, rfl, rfl, rfl, rfl, rfl, rfl, rfl, rfl⟩, by decide!,
    (ligarPartes_costura_condicional trigRacional
      { estadoInicial with anguloAntebracoDireito := -36 } pontosIniciais
      ⟨rfl, rfl, rfl, rfl, rfl, rfl, rfl, rfl, rfl, rfl, rfl, rfl, rfl, rfl, rfl, rfl⟩).1
      (by decide!)⟩

/-! ### The seam table (C21, C27) -/

/-- The function `ligarPartes` is its 26 assignments carried out in source order. -/
theorem ligarPartes_em_ordem {K : Type} [Field K] (T : Trig K) (s : Estado)
    (g : Pontos K) : ligarPartes T s g = (costuras s).foldl (aplicarCostura T s) g := by
  by_cases h1 : s.anguloAntebracoDireito ≤ -34 <;>
  by_cases h2 : s.anguloAntebracoEsquerdo ≥ 34 <;>
    simp only [ligarPartes, costuras, h1, h2, if_true, if_false] <;>
    rfl

theorem parte_comParte_mesma {K : Type} (g : Pontos K) (p : Parte) (l : List (tpPonto2D K)) :
    (g.comParte p l).parte p = l := by
  cases p <;> rfl

theorem parte_comParte_outra {K : Type} (g : Pontos K) (p q : Parte) (l : List (tpPonto2D K))
    (h : p ≠ q) : (g.comParte p l).parte q = g.parte q := by
  cases p <;> cases q <;> first | rfl | exact absurd rfl h

theorem comParte_comParte_mesma {K : Type} (g : Pontos K) (p : Parte)
    (l m : List (tpPonto2D K)) : (g.comParte p l).comParte p m = g.comParte p m := by
  cases p <;> rfl

theorem comParte_comParte_outra {K : Type} (g : Pontos K) (p q : Parte)
    (l m : List (tpPonto2D K)) (h : p ≠ q) :
    (g.comParte p l).comParte q m = (g.comParte q m).comParte p l := by
  cases p <;> cases q <;> first | rfl | exact absurd rfl h

/-- An assignment that does not write the entry `d` reads leaves the point `d` reads. -/
theorem fonte_apos_costura {K : Type} [Field K] (T : Trig K) (s : Estado) (g : Pontos K)
    (c d : Costura) (h : (c.destino, c.iDestino) ≠ (d.fonte, d.iFonte)) :
    lerPonto ((aplicarCostura T s g c).parte d.fonte) d.iFonte =
      lerPonto (g.parte d.fonte) d.iFonte := by
  by_cases e : c.destino = d.fonte
  · have hi : c.iDestino ≠ d.iFonte := fun hh => h (Prod.ext e hh)
    unfold aplicarCostura
    rw [← e, parte_comParte_mesma, lerPonto_escreverPonto_outro _ _ _ _ hi]
  · unfold aplicarCostura
    rw [parte_comParte_outra _ _ _ _ e]

/-- Independent assignments can be carried out in either order. -/
theorem aplicarCostura_comuta {K : Type} [Field K] (T : Trig K) (s : Estado) (g : Pontos K)
    (c d : Costura) (h : c.independente d) :
    aplicarCostura T s (aplicarCostura T s g c) d =
      aplicarCostura T s (aplicarCostura T s g d) c := by
  obtain ⟨hd, hcd, hdc⟩ := h
  have v1 := fonte_apos_costura T s g c d hcd
  have v2 := fonte_apos_costura T s g d c hdc
  rw [aplicarCostura, v1, aplicarCostura.eq_def T s (aplicarCostura T s g d) c, v2]
  unfold aplicarCostura
  by_cases e : c.destino = d.destino
  · have hi : c.iDestino ≠ d.iDestino := fun hh => hd (Prod.ext e hh)
    rw [← e, parte_comParte_mesma, parte_comParte_mesma, comParte_comParte_mesma,
      comParte_comParte_mesma]
    unfold escreverPonto
    rw [List.set_comm _ _ _ hi]
  · rw [parte_comParte_outra _ _ _ _ e, parte_comParte_outra _ _ _ _ (Ne.symm e),
      comParte_comParte_outra _ _ _ _ _ e]

/-- An assignment that does not write the entry it reads, carried out twice, is
the assignment carried out once. -/
theorem aplicarCostura_repetida {K : Type} [Field K] (T : Trig K) (s : Estado) (g : Pontos K)
    (c : Costura) (h : (c.destino, c.iDestino) ≠ (c.fonte, c.iFonte)) :
    aplicarCostura T s (aplicarCostura T s g c) c = aplicarCostura T s g c := by
  have v := fonte_apos_costura T s g c c h
  rw [aplicarCostura, v]
  unfold aplicarCostura
  rw [parte_comParte_mesma, comParte_comParte_mesma]
  unfold escreverPonto
  rw [List.set_set]

/-- Folding pairwise commuting, idempotent steps over a list twice is folding once. -/
theorem foldl_duas_vezes {α β : Type} (f : β → α → β) (l : List α)
    (hc : ∀ x ∈ l, ∀ y ∈ l, ∀ b, f (f b x) y = f (f b y) x)
    (hi : ∀ x ∈ l, ∀ b, f (f b x) x = f b x) (b : β) :
    List.foldl f (List.foldl f b l) l = List.foldl f b l := by
  induction l generalizing b with
  | nil => rfl
  | cons x l ih =>
    have hcl : ∀ y ∈ l, ∀ z ∈ l, ∀ b, f (f b y) z = f (f b z) y := fun y hy z hz =>
      hc y (List.mem_cons_of_mem _ hy) z (List.mem_cons_of_mem _ hz)
    have hil : ∀ y ∈ l, ∀ b, f (f b y) y = f b y := fun y hy =>
      hi y (List.mem_cons_of_mem _ hy)
    have mover : ∀ (m : List α), (∀ y ∈ m, y ∈ l) → ∀ c : β,
        List.foldl f (f c x) m = f (List.foldl f c m) x := by
      intro m
      induction m with
      | nil => intro _ c; rfl
      | cons y m ihm =>
        intro hm c
        rw [List.foldl_cons, List.foldl_cons,
          hc x (List.mem_cons_self _ _) y (List.mem_cons_of_mem _ (hm y (List.mem_cons_self _ _)))]
        exact ihm (fun z hz => hm z (List.mem_cons_of_mem _ hz)) _
    rw [List.foldl_cons, List.foldl_cons, ← mover l (fun y hy => hy),
      hi x (List.mem_cons_self _ _), ih hcl hil]

/-- The seam table, for each choice of the two conditional source indices: 26
assignments, all indices below the declared point counts, no entry written
twice, no entry both read and written. -/
theorem costurasCom_tabela :
    ∀ iDir ∈ [0, 5], ∀ iEsq ∈ [0, 5],
      (costurasCom iDir iEsq).length = 26 ∧
      (∀ c ∈ costurasCom iDir iEsq,
        c.iDestino < numPontosDe c.destino ∧ c.iFonte < numPontosDe c.fonte) ∧
      ((costurasCom iDir iEsq).map fun c => (c.destino, c.iDestino)).Nodup ∧
      (∀ c ∈ costurasCom iDir iEsq, ∀ d ∈ costurasCom iDir iEsq,
        (c.destino, c.iDestino) ≠ (d.fonte, d.iFonte)) ∧
      (∀ c ∈ costurasCom iDir iEsq, ∀ d ∈ costurasCom iDir iEsq, c = d ∨ c.independente d) := by
  decide!

theorem costuras_casos (s : Estado) :
    ∃ iDir ∈ [0, 5], ∃ iEsq ∈ [0, 5], costuras s = costurasCom iDir iEsq := by
  unfold costuras
  by_cases h1 : s.anguloAntebracoDireito ≤ -34 <;>
  by_cases h2 : s.anguloAntebracoEsquerdo ≥ 34 <;>
    simp only [h1, h2, if_true, if_false]
  · exact ⟨5, by decide, 5, by decide, rfl⟩
  · exact ⟨5, by decide, 0, by decide, rfl⟩
  · exact ⟨0, by decide, 5, by decide, rfl⟩
  · exact ⟨0, by decide, 0, by decide, rfl⟩

/-- C21 (seam indices are in bounds): `ligarPartes` is its table of 26
assignments carried out in order, and for every assignment of the angles every
index the table reads or writes is below the declared point count of its body
part; so are both candidates, 0 and 5, of the two conditional forearm seams.
The declared counts are 11, 6, 8, 8, 4, 4, 6, 6, 9, 9, 8, 8, 4, 4, 4, 4. -/
theorem costuras_dentro_dos_arrays {K : Type} [Field K] (T : Trig K) (s : Estado)
    (g : Pontos K) :
    ligarPartes T s g = (costuras s).foldl (aplicarCostura T s) g ∧
      (costuras s).length = 26 ∧
      (∀ c ∈ costuras s, c.iDestino < numPontosDe c.destino ∧ c.iFonte < numPontosDe c.fonte) ∧
      (∀ i ∈ [0, 5], i < numPontosDe .antebracoDireito ∧ i < numPontosDe .antebracoEsquerdo) ∧
      List.map numPontosDe
          [.tronco, .quadril, .ombroEsquerdo, .ombroDireito, .bracoDireito, .bracoEsquerdo,
            .antebracoDireito, .antebracoEsquerdo, .maoDireita, .maoEsquerda, .coxaDireita,
            .coxaEsquerda, .pantDireita, .pantEsquerda, .pataDireita, .pataEsquerda] =
        [11, 6, 8, 8, 4, 4, 6, 6, 9, 9, 8, 8, 4, 4, 4, 4] := by
  obtain ⟨iDir, hD, iEsq, hE, e⟩ := costuras_casos s
  obtain ⟨hlen, hb, -⟩ := costurasCom_tabela iDir hD iEsq hE
  refine ⟨ligarPartes_em_ordem T s g, ?_, ?_, by decide, rfl⟩
  · rw [e]
    exact hlen
  · rw [e]
    exact hb

/-- Witness for C21: the first assignment, `pontosTronco[4]` from `pontosQuadril[5]`. -/
theorem costuras_dentro_dos_arrays_witness :
    (⟨.tronco, 4, .quadril, 5⟩ : Costura) ∈ costuras estadoInicial ∧
      4 < numPontosDe .tronco ∧ 5 < numPontosDe .quadril :=
  ⟨by decide!,
    (costuras_dentro_dos_arrays trigRacional estadoInicial pontosIniciais).2.2.1
      ⟨.tronco, 4, .quadril, 5⟩ (by decide!)⟩

/-- C27 (seam binding is idempotent and order-independent): for every
assignment of the angles, no array entry that an assignment of `ligarPartes`
reads is written by any of its assignments, and no entry is written twice;
`ligarPartes` run twice gives the arrays it gives run once; and its 26
assignments carried out in any order give the arrays `ligarPartes` gives. -/
theorem ligarPartes_idempotente {K : Type} [Field K] (T : Trig K) (s : Estado)
    (g : Pontos K) :
    (∀ c ∈ costuras s, ∀ d ∈ costuras s, (c.destino, c.iDestino) ≠ (d.fonte, d.iFonte)) ∧
      ((costuras s).map fun c => (c.destino, c.iDestino)).Nodup ∧
      ligarPartes T s (ligarPartes T s g) = ligarPartes T s g ∧
      ∀ l : List Costura, l.Perm (costuras s) →
        l.foldl (aplicarCostura T s) g = ligarPartes T s g := by
  obtain ⟨iDir, hD, iEsq, hE, e⟩ := costuras_casos s
  obtain ⟨-, -, hn, hsd, hind⟩ := costurasCom_tabela iDir hD iEsq hE
  have hc : ∀ x ∈ costurasCom iDir iEsq, ∀ y ∈ costurasCom iDir iEsq, ∀ b : Pontos K,
      aplicarCostura T s (aplicarCostura T s b x) y =
        aplicarCostura T s (aplicarCostura T s b y) x := fun x hx y hy b =>
    (hind x hx y hy).elim (fun exy => by rw [exy]) (fun h => aplicarCostura_comuta T s b x y h)
  have hi : ∀ x ∈ costurasCom iDir iEsq, ∀ b : Pontos K,
      aplicarCostura T s (aplicarCostura T s b x) x = aplicarCostura T s b x := fun x hx b =>
    aplicarCostura_repetida T s b x (hsd x hx x hx)
  simp only [ligarPartes_em_ordem]
  rw [e]
  exact ⟨hsd, hn, foldl_duas_vezes _ _ hc hi g, fun l hp => (hp.symm.foldl_eq' hc g).symm⟩

/-- Witness for C27: the 26 assignments in reverse order, on the initial arrays. -/
theorem ligarPartes_idempotente_witness :
    (costuras estadoInicial).reverse.Perm (costuras estadoInicial) ∧
      (costuras estadoInicial).reverse.foldl (aplicarCostura trigRacional estadoInicial)
          pontosIniciais =
        ligarPartes trigRacional estadoInicial pontosIniciais :=
  ⟨List.reverse_perm _,
    (ligarPartes_idempotente trigRacional estadoInicial pontosIniciais).2.2.2 _
      (List.reverse_perm _)⟩

end Groot

/-! ## The chroma key program (C24, C25) -/

namespace ChromaKey

/-- C24: `validarDados` compares the two magic strings with each other and not
with `P3`. With both headers `P6`, sizes 1 by 1, maximum 255, key colour
(0, 255, 0) and tolerance 10 it does not exit: processing continues with the
key set. It rejects with status 1 when the two strings differ. -/
theorem validarDados_aceita_P6 :
    validarDados ⟨"P6", "P6", 255, 255, 1, 1, 1, 1, 0, 255, 0, 10⟩ = .ok ⟨0, 255, 0, 10⟩ ∧
      validarDados ⟨"P3", "P6", 255, 255, 1, 1, 1, 1, 0, 255, 0, 10⟩ = .error 1 := by
  constructor <;> rfl

/-- What `validarDados` has checked and set when it returns. -/
theorem validarDados_ok (e : Entrada) (c : Chave) (h : validarDados e = .ok c) :
    e.nColF ≤ e.nColB ∧ e.nLinF ≤ e.nLinB ∧
      c.tolerancia = (if e.provTol > 441 then 441 else if e.provTol < 0 then 0 else e.provTol) := by
  unfold validarDados at h
  split_ifs at h <;>
    simp only [Except.ok.injEq] at h <;>
    subst h <;>
    refine ⟨by omega, by omega, ?_⟩ <;>
    simp [*]

/-- A foreground pixel of exactly the key colour, under a positive squared
tolerance, is printed as the background pixel. -/
theorem combinar_chave (c : Chave) (t : Int) (back : tpPixel) (h : 0 < t) :
    combinar c t ⟨c.chaveR, c.chaveG, c.chaveB⟩ back = back := by
  simp [combinar, h]

/-- The pixel `criarImagem` writes at a position inside the foreground. -/
theorem criarImagem_pixel (e : Entrada) (c : Chave) (fore2D back2D : Nat → Nat → tpPixel)
    (i j : Nat) (hi : (i : Int) < e.nLinF) (hj : (j : Int) < e.nColF)
    (hl : e.nLinF ≤ e.nLinB) (hc : e.nColF ≤ e.nColB) :
    (criarImagem e c fore2D back2D).pixel i j =
      some (combinar c (c.tolerancia * c.tolerancia) (fore2D i j) (back2D i j)) := by
  have hi2 : i < e.nLinB.toNat := by omega
  have hj2 : j < e.nColB.toNat := by omega
  simp [Imagem.pixel, criarImagem, List.getElem?_map, List.getElem?_range, hi2, hj2, hi, hj]

/-- C25, as stated, fails: with tolerance argument 0 a foreground pixel of
exactly the key colour (0, 255, 0) over the background pixel (10, 20, 30) is
written as their mean (5, 137, 15), not as the background pixel; the same
happens with tolerance argument 65536, which the `short` `provTol` holds as 0,
and with 40000, which it holds as a negative value. -/
theorem chave_com_tolerancia_zero :
    (∃ m : Imagem,
      programa ⟨0, 255, 0, 0⟩ ⟨"P3", "P3", 255, 255, 1, 1, 1, 1⟩
          (fun _ _ => ⟨0, 255, 0⟩) (fun _ _ => ⟨10, 20, 30⟩) = .ok m ∧
        m.pixel 0 0 = some ⟨5, 137, 15⟩ ∧ m.pixel 0 0 ≠ some ⟨10, 20, 30⟩) ∧
      (∃ m : Imagem,
        programa ⟨0, 255, 0, 65536⟩ ⟨"P3", "P3", 255, 255, 1, 1, 1, 1⟩
            (fun _ _ => ⟨0, 255, 0⟩) (fun _ _ => ⟨10, 20, 30⟩) = .ok m ∧
          m.pixel 0 0 = some ⟨5, 137, 15⟩) ∧
      (∃ m : Imagem,
        programa ⟨0, 255, 0, 40000⟩ ⟨"P3", "P3", 255, 255, 1, 1, 1, 1⟩
            (fun _ _ => ⟨0, 255, 0⟩) (fun _ _ => ⟨10, 20, 30⟩) = .ok m ∧
          m.pixel 0 0 = some ⟨5, 137, 15⟩) :=
  ⟨⟨_, rfl, rfl, by decide⟩, ⟨_, rfl, rfl⟩, ⟨_, rfl, rfl⟩⟩

/-- C25 (amended): for every tolerance argument that the `short` `provTol`
holds as a value of at least 1, which every argument from 1 to 32767 is, and
every pixel position inside the foreground image, on input `validarDados`
accepts, if the foreground pixel equals the key colour exactly then the
program writes the background pixel of the same position there. -/
theorem chave_vira_fundo (a : Argumentos) (h : Cabecalhos) (c : Chave)
    (fore2D back2D : Nat → Nat → tpPixel) (i j : Nat)
    (hv : validarDados (entradaDe a h) = .ok c) (ht : 1 ≤ paraShort a.argTol)
    (hi : (i : Int) < h.nLinF) (hj : (j : Int) < h.nColF)
    (hk : fore2D i j = ⟨c.chaveR, c.chaveG, c.chaveB⟩) :
    (∃ m : Imagem, programa a h fore2D back2D = .ok m ∧ m.pixel i j = some (back2D i j)) ∧
      ∀ n : Int, 1 ≤ n → n ≤ 32767 → paraShort n = n := by
  refine ⟨?_, fun n h1 h2 => by unfold paraShort; omega⟩
  obtain ⟨hc, hl, htol⟩ := validarDados_ok (entradaDe a h) c hv
  have hpos : 0 < c.tolerancia * c.tolerancia := by
    have h1 : 1 ≤ c.tolerancia := by
      rw [htol]
      have ht2 : 1 ≤ (entradaDe a h).provTol := ht
      split_ifs <;> omega
    positivity
  refine ⟨criarImagem (entradaDe a h) c fore2D back2D, by rw [programa, principal, hv], ?_⟩
  rw [criarImagem_pixel (entradaDe a h) c fore2D back2D i j hi hj hl hc, hk,
    combinar_chave c _ _ hpos]

/-- Witness for C25 (amended): tolerance argument 1, a 1 by 1 foreground of the
key colour over a 2 by 2 background. -/
theorem chave_vira_fundo_witness :
    validarDados (entradaDe ⟨0, 255, 0, 1⟩ ⟨"P3", "P3", 255, 255, 2, 1, 2, 1⟩) =
        .ok ⟨0, 255, 0, 1⟩ ∧
      1 ≤ paraShort 1 ∧
      ∃ m : Imagem,
        programa ⟨0, 255, 0, 1⟩ ⟨"P3", "P3", 255, 255, 2, 1, 2, 1⟩
            (fun _ _ => ⟨0, 255, 0⟩) (fun i j => ⟨i, j, 7⟩) = .ok m ∧
          m.pixel 0 0 = some ⟨0, 0, 7⟩ :=
  ⟨rfl, by decide,
    (chave_vira_fundo ⟨0, 255, 0, 1⟩ ⟨"P3", "P3", 255, 255, 2, 1, 2, 1⟩ ⟨0, 255, 0, 1⟩
      (fun _ _ => ⟨0, 255, 0⟩) (fun i j => ⟨i, j, 7⟩) 0 0 rfl (by decide) (by decide)
      (by decide) rfl).1⟩

end ChromaKey
